import Mathlib

/-!
# uGFX GWIN: the window facade of `src/gwin/gwin.c`

A shallow embedding of the window object model of uGFX (`include/gwin/gwin.h`,
`src/gwin/gwin.c`), and of the colour macro and the flag constants of the LTDC
driver header (`drivers/gdisp/STM32F429iDiscovery/stm32_ltdc.h`, namespace `LTDC`).

Conventions of the embedding

* A `GHandle` points to one `GWindowObject`; every routine of `gwin.c` touches
  exactly one window, so a routine is a function on `St`: the address of the
  window, the object stored there, and the log of the calls the routine has
  issued to its collaborators (drawing surface, class hooks, window manager,
  allocator), oldest call first.
* `coord_t` is a signed machine integer whose `typedef` lives in the GDISP
  headers; its width is the parameter `Env.coordBits` (uGFX uses `int16_t`).
  A store into a `coord_t` object converts with `toCoord`; arithmetic inside an
  expression is done in the wider type `int` and is exact.
* The argument of a call to a collaborator is logged as the value the callee
  receives: a field or a parameter of type `coord_t` as it is, a sum such as
  `gh->x + x` converted to the `coord_t` parameter with `toCoord`.
* The flag masks `GWIN_FLG_*` are declared in `gwin/class_gwin.h`; they are
  parameters of the environment.
* The optional features used by the facade (`GDISP_NEED_CLIP`, `GDISP_NEED_TEXT`,
  `GDISP_NEED_CIRCLE`, ...) are compiled in, as in `gfxconf.h`;
  `GWIN_NEED_WINDOWMANAGER` selects between the two paths and is a parameter.
-/

namespace GWin

/-! ## Data model -/

abbrev coord_t := Int
abbrev color_t := Nat
/-- A font is a pointer; `0` is the null font. -/
abbrev font_t := Nat
abbrev bool_t := Bool

/-- The class descriptor `struct gwinVMT`; a hook is a function pointer, `0` when absent. -/
structure gwinVMT where
  classname : String
  size : Nat
  Destroy : Nat
  Redraw : Nat
  AfterClear : Nat
deriving DecidableEq, Repr

/-- A `const gwinVMT *`: the address of a descriptor together with the descriptor stored there. -/
structure VmtPtr where
  addr : Nat
  deref : gwinVMT
deriving DecidableEq, Repr

/-- The window object `struct GWindowObject` of `gwin.h`. -/
structure GWindowObject where
  vmt : VmtPtr
  x : coord_t
  y : coord_t
  width : coord_t
  height : coord_t
  color : color_t
  bgcolor : color_t
  flags : Nat
  font : font_t
deriving DecidableEq, Repr

/-- The initialisation descriptor `struct GWindowInit` of `gwin.h`. -/
structure GWindowInit where
  x : coord_t
  y : coord_t
  width : coord_t
  height : coord_t
  «show» : bool_t
deriving DecidableEq, Repr

/-- One call issued by the facade to a collaborator. -/
inductive Call where
  | gdispSetClip (x y w h : Int)
  | gdispFillArea (x y cx cy : Int) (c : color_t)
  | gdispDrawPixel (x y : Int) (c : color_t)
  | gdispDrawLine (x0 y0 x1 y1 : Int) (c : color_t)
  | gdispDrawBox (x y cx cy : Int) (c : color_t)
  | gdispBlitAreaEx (x y cx cy srcx srcy srccx : Int) (buffer : Nat)
  | gdispDrawCircle (x y radius : Int) (c : color_t)
  | gdispFillCircle (x y radius : Int) (c : color_t)
  | gdispDrawEllipse (x y a b : Int) (c : color_t)
  | gdispFillEllipse (x y a b : Int) (c : color_t)
  | gdispDrawArc (x y radius startangle endangle : Int) (c : color_t)
  | gdispFillArc (x y radius startangle endangle : Int) (c : color_t)
  | gdispGetPixelColor (x y : Int)
  | gdispDrawChar (x y : Int) (c : Char) (font : font_t) (color : color_t)
  | gdispFillChar (x y : Int) (c : Char) (font : font_t) (color bgcolor : color_t)
  | gdispDrawString (x y : Int) (str : String) (font : font_t) (color : color_t)
  | gdispFillString (x y : Int) (str : String) (font : font_t) (color bgcolor : color_t)
  | gdispDrawStringBox (x y cx cy : Int) (str : String) (font : font_t) (color : color_t)
      (justify : Nat)
  | gdispFillStringBox (x y cx cy : Int) (str : String) (font : font_t)
      (color bgcolor : color_t) (justify : Nat)
  | gdispDrawPoly (tx ty : Int) (pntarray : List (Int × Int)) (cnt : Nat) (c : color_t)
  | gdispFillConvexPoly (tx ty : Int) (pntarray : List (Int × Int)) (cnt : Nat) (c : color_t)
  | gdispImageDraw (img : Nat) (x y cx cy sx sy : Int)
  | vmtDestroy (fn : Nat) (gh : GWindowObject)
  | vmtRedraw (fn : Nat) (gh : GWindowObject)
  | vmtAfterClear (fn : Nat) (gh : GWindowObject)
  | wmAdd (gh : GWindowObject) (pInit : GWindowInit)
  | wmDelete (gh : GWindowObject)
  | wmVisible (gh : GWindowObject)
  | wmRedim (gh : GWindowObject) (x y w h : Int)
  | gwinRaise (gh : GWindowObject)
  | gfxAlloc (size : Nat)
  | gfxFree (ptr : Nat)
deriving DecidableEq, Repr

/-- Everything the facade is compiled and linked against. -/
structure Env where
  /-- Width in bits of `coord_t`. -/
  coordBits : Nat
  GWIN_FLG_DYNAMIC : Nat
  GWIN_FLG_VISIBLE : Nat
  GWIN_FLG_ENABLED : Nat
  GWIN_NEED_WINDOWMANAGER : Bool
  /-- Result of `gdispGetWidth()`. -/
  gdispGetWidth : Int
  /-- Result of `gdispGetHeight()`. -/
  gdispGetHeight : Int
  /-- Result of the surface's pixel read. -/
  gdispGetPixelColor : Int → Int → color_t
  /-- Result of the surface's image draw. -/
  gdispImageDraw : Nat → Int → Int → Int → Int → Int → Int → Nat
  GDISP_IMAGE_ERR_OK : Nat
  /-- What the class hook at a function address does to the window it is given. -/
  hook : Nat → GWindowObject → GWindowObject
  /-- The manager's `Add`: its result and what it does to the window. -/
  wmAdd : GWindowObject → GWindowInit → Bool × GWindowObject
  wmDelete : GWindowObject → GWindowObject
  wmVisible : GWindowObject → GWindowObject
  wmRedim : GWindowObject → Int → Int → Int → Int → GWindowObject
  wmRaise : GWindowObject → GWindowObject
  /-- The allocator: the address of the new block and its initial contents, or failure. -/
  gfxAlloc : Nat → Option (Nat × GWindowObject)
  /-- Value of `sizeof(GWindowObject)`. -/
  sizeofGWindowObject : Nat
  /-- Address of the static descriptor `basegwinVMT`. -/
  addrBasegwinVMT : Nat

/-- The process-wide defaults (`static` variables of `gwin.c`). -/
structure Globals where
  defaultFgColor : color_t
  defaultBgColor : color_t
  defaultFont : font_t
deriving DecidableEq, Repr

/-- A window behind its handle, and the calls issued so far. -/
structure St where
  ptr : Nat
  gh : GWindowObject
  log : List Call
deriving DecidableEq, Repr

/-- Half of the range of `coord_t`: its values are `-coordHalf ≤ v < coordHalf`. -/
def coordHalf (bits : Nat) : Int := 2 ^ (bits - 1)

/-- Conversion of an `int` value to `coord_t` (two's complement wrap-around). -/
def toCoord (bits : Nat) (v : Int) : Int :=
  (v + coordHalf bits) % (2 * coordHalf bits) - coordHalf bits

def MIN_WIN_WIDTH : Int := 1
def MIN_WIN_HEIGHT : Int := 1

/-- The static descriptor of the base window class. -/
def basegwinVMT (E : Env) : gwinVMT :=
  { classname := "GWIN", size := E.sizeofGWindowObject, Destroy := 0, Redraw := 0, AfterClear := 0 }

/-- The C condition `(gh->flags & mask)`. -/
def flagSet (flags mask : Nat) : Bool := flags &&& mask != 0

/-- The update `flags &= ~mask` of the 16-bit flags field. -/
def flagClear (flags mask : Nat) : Nat := flags &&& (0xFFFF ^^^ mask)

/-! ## Calls to the collaborators -/

def emit (s : St) (c : Call) : St := { s with log := s.log ++ [c] }

def gdispSetClip (s : St) (x y w h : Int) : St := emit s (.gdispSetClip x y w h)

/-- Invocation `gh->vmt->Redraw(gh)`. -/
def vmtRedraw (E : Env) (s : St) : St :=
  { s with gh := E.hook s.gh.vmt.deref.Redraw s.gh,
           log := s.log ++ [.vmtRedraw s.gh.vmt.deref.Redraw s.gh] }

/-- Invocation `gh->vmt->AfterClear(gh)`. -/
def vmtAfterClear (E : Env) (s : St) : St :=
  { s with gh := E.hook s.gh.vmt.deref.AfterClear s.gh,
           log := s.log ++ [.vmtAfterClear s.gh.vmt.deref.AfterClear s.gh] }

/-- Invocation `gh->vmt->Destroy(gh)`. -/
def vmtDestroy (E : Env) (s : St) : St :=
  { s with gh := E.hook s.gh.vmt.deref.Destroy s.gh,
           log := s.log ++ [.vmtDestroy s.gh.vmt.deref.Destroy s.gh] }

/-! ## `gwin.c` -/

def gwinClear (E : Env) (s : St) : St :=
  if !flagSet s.gh.flags E.GWIN_FLG_VISIBLE then s
  else
    let s := gdispSetClip s s.gh.x s.gh.y s.gh.width s.gh.height
    let s := emit s (.gdispFillArea s.gh.x s.gh.y s.gh.width s.gh.height s.gh.bgcolor)
    if s.gh.vmt.deref.AfterClear ≠ 0 then vmtAfterClear E s else s

def _gwm_vis (E : Env) (s : St) : St :=
  if s.gh.vmt.deref.Redraw ≠ 0 then
    vmtRedraw E (gdispSetClip s s.gh.x s.gh.y s.gh.width s.gh.height)
  else
    gwinClear E s

/-- The geometry part of `_gwm_redim` (lines 51 to 60), statement by statement; the four
fields `gh->x`, `gh->y`, `gh->width`, `gh->height` are the variables `x`, `y`, `w`, `h`. -/
def redimClamp (E : Env) (gh : GWindowObject) (x y width height : coord_t) : GWindowObject :=
  -- gh->x = x; gh->y = y;
  let x := toCoord E.coordBits x
  let y := toCoord E.coordBits y
  -- gh->width = width; gh->height = height;
  let w := toCoord E.coordBits width
  let h := toCoord E.coordBits height
  -- if (gh->x < 0) { gh->width += gh->x; gh->x = 0; }
  let w := if x < 0 then toCoord E.coordBits (w + x) else w
  let x := if x < 0 then 0 else x
  -- if (gh->y < 0) { gh->height += gh->y; gh->y = 0; }
  let h := if y < 0 then toCoord E.coordBits (h + y) else h
  let y := if y < 0 then 0 else y
  -- if (gh->x > gdispGetWidth()-MIN_WIN_WIDTH) gh->x = gdispGetWidth()-MIN_WIN_WIDTH;
  let x := if x > E.gdispGetWidth - MIN_WIN_WIDTH then
      toCoord E.coordBits (E.gdispGetWidth - MIN_WIN_WIDTH) else x
  -- if (gh->y > gdispGetHeight()-MIN_WIN_HEIGHT) gh->y = gdispGetHeight()-MIN_WIN_HEIGHT;
  let y := if y > E.gdispGetHeight - MIN_WIN_HEIGHT then
      toCoord E.coordBits (E.gdispGetHeight - MIN_WIN_HEIGHT) else y
  -- if (gh->width < MIN_WIN_WIDTH) { gh->width = MIN_WIN_WIDTH; }
  let w := if w < MIN_WIN_WIDTH then MIN_WIN_WIDTH else w
  -- if (gh->height < MIN_WIN_HEIGHT) { gh->height = MIN_WIN_HEIGHT; }
  let h := if h < MIN_WIN_HEIGHT then MIN_WIN_HEIGHT else h
  -- if (gh->x+gh->width > gdispGetWidth()) gh->width = gdispGetWidth() - gh->x;
  let w := if x + w > E.gdispGetWidth then toCoord E.coordBits (E.gdispGetWidth - x) else w
  -- if (gh->y+gh->height > gdispGetHeight()) gh->height = gdispGetHeight() - gh->y;
  let h := if y + h > E.gdispGetHeight then toCoord E.coordBits (E.gdispGetHeight - y) else h
  { gh with x := x, y := y, width := w, height := h }

def _gwm_redim (E : Env) (s : St) (x y width height : coord_t) : St :=
  let s := { s with gh := redimClamp E s.gh x y width height }
  -- Redraw the window
  if flagSet s.gh.flags E.GWIN_FLG_VISIBLE then
    if s.gh.vmt.deref.Redraw ≠ 0 then
      vmtRedraw E (gdispSetClip s s.gh.x s.gh.y s.gh.width s.gh.height)
    else s
  else s

/-! ### Window manager operations (`_GWINwm->vmt->...`) -/

def wmVisible (E : Env) (s : St) : St :=
  { s with gh := E.wmVisible s.gh, log := s.log ++ [.wmVisible s.gh] }

def wmDelete (E : Env) (s : St) : St :=
  { s with gh := E.wmDelete s.gh, log := s.log ++ [.wmDelete s.gh] }

def wmRedim (E : Env) (s : St) (x y w h : Int) : St :=
  { s with gh := E.wmRedim s.gh x y w h, log := s.log ++ [.wmRedim s.gh x y w h] }

/-- The manager entry `gwinRaise` of `gwin.h`, implemented by the manager. -/
def gwinRaise (E : Env) (s : St) : St :=
  { s with gh := E.wmRaise s.gh, log := s.log ++ [.gwinRaise s.gh] }

/-! ### Class routines -/

/-- Result of a constructor: the null handle, or a handle to the window. Both carry the calls
issued. -/
inductive Created where
  | null (log : List Call)
  | handle (s : St)
deriving DecidableEq, Repr

/-- Calls issued by a constructor. -/
def Created.log : Created → List Call
  | .null l => l
  | .handle s => s.log

/-- The storage argument `pgw` is `none` for a null pointer, or the address of the caller's
storage and its present contents. -/
def _gwindowCreate (E : Env) (g : Globals) (pgw : Option (Nat × GWindowObject))
    (pInit : GWindowInit) (vmt : VmtPtr) (flags : Nat) (log : List Call) : Created :=
  -- Allocate the structure if necessary
  let alloc : Option St :=
    match pgw with
    | none =>
      match E.gfxAlloc vmt.deref.size with
      | none => none
      | some (p, o) =>
        some { ptr := p, gh := { o with flags := flags ||| E.GWIN_FLG_DYNAMIC },
               log := log ++ [.gfxAlloc vmt.deref.size] }
    | some (p, o) => some { ptr := p, gh := { o with flags := flags }, log := log }
  match alloc with
  | none => .null (log ++ [.gfxAlloc vmt.deref.size])
  | some s =>
    -- Initialise all basic fields
    let s := { s with gh := { s.gh with vmt := vmt } }
    let s := { s with gh := { s.gh with color := g.defaultFgColor } }
    let s := { s with gh := { s.gh with bgcolor := g.defaultBgColor } }
    let s := { s with gh := { s.gh with font := g.defaultFont } }
    if E.GWIN_NEED_WINDOWMANAGER then
      let r := E.wmAdd s.gh pInit
      let s := { s with gh := r.2, log := s.log ++ [.wmAdd s.gh pInit] }
      if !r.1 then
        if flagSet s.gh.flags E.GWIN_FLG_DYNAMIC then
          .null (s.log ++ [.gfxFree s.ptr])
        else
          .null s.log
      else
        .handle s
    else
      .handle (_gwm_redim E s pInit.x pInit.y pInit.width pInit.height)

/-! ### Routines that affect all windows -/

def gwinSetDefaultColor (g : Globals) (clr : color_t) : Globals :=
  { g with defaultFgColor := clr }

def gwinGetDefaultColor (g : Globals) : color_t := g.defaultFgColor

def gwinSetDefaultBgColor (g : Globals) (bgclr : color_t) : Globals :=
  { g with defaultBgColor := bgclr }

def gwinGetDefaultBgColor (g : Globals) : color_t := g.defaultBgColor

def gwinSetDefaultFont (g : Globals) (font : font_t) : Globals :=
  { g with defaultFont := font }

def gwinGetDefaultFont (g : Globals) : font_t := g.defaultFont

/-! ### The GWindow routines -/

def gwinSetVisible (E : Env) (s : St) (visible : bool_t) : St :=
  if visible then
    if !flagSet s.gh.flags E.GWIN_FLG_VISIBLE then
      let s := { s with gh := { s.gh with flags := s.gh.flags ||| E.GWIN_FLG_VISIBLE } }
      if E.GWIN_NEED_WINDOWMANAGER then wmVisible E s else _gwm_vis E s
    else s
  else
    if flagSet s.gh.flags E.GWIN_FLG_VISIBLE then
      let s := { s with gh := { s.gh with flags := flagClear s.gh.flags E.GWIN_FLG_VISIBLE } }
      if E.GWIN_NEED_WINDOWMANAGER then wmVisible E s else s
    else s

def gwinWindowCreate (E : Env) (g : Globals) (pgw : Option (Nat × GWindowObject))
    (pInit : GWindowInit) (log : List Call) : Created :=
  match _gwindowCreate E g pgw pInit ⟨E.addrBasegwinVMT, basegwinVMT E⟩ 0 log with
  | .null l => .null l
  | .handle s => .handle (gwinSetVisible E s pInit.«show»)

/-- Result of `gwinDestroy`: the object left behind, the calls issued. -/
def gwinDestroy (E : Env) (s : St) : St :=
  -- Remove from the window manager
  let s := if E.GWIN_NEED_WINDOWMANAGER then wmDelete E s else s
  -- Class destroy routine
  let s := if s.gh.vmt.deref.Destroy ≠ 0 then vmtDestroy E s else s
  -- Clean up the structure
  if flagSet s.gh.flags E.GWIN_FLG_DYNAMIC then
    let s := { s with gh := { s.gh with flags := 0 } }
    emit s (.gfxFree s.ptr)
  else
    { s with gh := { s.gh with flags := 0 } }

def gwinGetClassName (s : St) : String := s.gh.vmt.deref.classname

/-- The `gwinGetClassID` of `gwin.h`: the descriptor pointer. -/
def gwinGetClassID (s : St) : Nat := s.gh.vmt.addr

def gwinGetVisible (E : Env) (s : St) : bool_t :=
  if flagSet s.gh.flags E.GWIN_FLG_VISIBLE then true else false

def gwinSetEnabled (E : Env) (s : St) (enabled : bool_t) : St :=
  if enabled then
    if !flagSet s.gh.flags E.GWIN_FLG_ENABLED then
      let s := { s with gh := { s.gh with flags := s.gh.flags ||| E.GWIN_FLG_ENABLED } }
      if flagSet s.gh.flags E.GWIN_FLG_VISIBLE ∧ s.gh.vmt.deref.Redraw ≠ 0 then
        vmtRedraw E (gdispSetClip s s.gh.x s.gh.y s.gh.width s.gh.height)
      else s
    else s
  else
    if flagSet s.gh.flags E.GWIN_FLG_ENABLED then
      let s := { s with gh := { s.gh with flags := flagClear s.gh.flags E.GWIN_FLG_ENABLED } }
      if flagSet s.gh.flags E.GWIN_FLG_VISIBLE ∧ s.gh.vmt.deref.Redraw ≠ 0 then
        vmtRedraw E (gdispSetClip s s.gh.x s.gh.y s.gh.width s.gh.height)
      else s
    else s

def gwinGetEnabled (E : Env) (s : St) : bool_t :=
  if flagSet s.gh.flags E.GWIN_FLG_ENABLED then true else false

def gwinMove (E : Env) (s : St) (x y : coord_t) : St :=
  if E.GWIN_NEED_WINDOWMANAGER then wmRedim E s x y s.gh.width s.gh.height
  else _gwm_redim E s x y s.gh.width s.gh.height

def gwinResize (E : Env) (s : St) (width height : coord_t) : St :=
  if E.GWIN_NEED_WINDOWMANAGER then wmRedim E s s.gh.x s.gh.y width height
  else _gwm_redim E s s.gh.x s.gh.y width height

def gwinRedraw (E : Env) (s : St) : St :=
  if E.GWIN_NEED_WINDOWMANAGER then gwinRaise E s
  else if flagSet s.gh.flags E.GWIN_FLG_VISIBLE then _gwm_vis E s else s

def gwinSetFont (s : St) (font : font_t) : St := { s with gh := { s.gh with font := font } }

/-- The `gwinSetColor` of `gwin.h`. -/
def gwinSetColor (s : St) (clr : color_t) : St := { s with gh := { s.gh with color := clr } }

/-- The `gwinSetBgColor` of `gwin.h`. -/
def gwinSetBgColor (s : St) (bgclr : color_t) : St := { s with gh := { s.gh with bgcolor := bgclr } }

/-! ### Drawing routines

A position passed to the surface is the sum `gh->x + x`, computed in `int` and converted to the
`coord_t` parameter of the surface routine: `toCoord E.coordBits (s.gh.x + x)`. -/

def gwinDrawPixel (E : Env) (s : St) (x y : coord_t) : St :=
  if !flagSet s.gh.flags E.GWIN_FLG_VISIBLE then s
  else
    let s := gdispSetClip s s.gh.x s.gh.y s.gh.width s.gh.height
    emit s (.gdispDrawPixel (toCoord E.coordBits (s.gh.x + x)) (toCoord E.coordBits (s.gh.y + y))
      s.gh.color)

def gwinDrawLine (E : Env) (s : St) (x0 y0 x1 y1 : coord_t) : St :=
  if !flagSet s.gh.flags E.GWIN_FLG_VISIBLE then s
  else
    let s := gdispSetClip s s.gh.x s.gh.y s.gh.width s.gh.height
    emit s (.gdispDrawLine (toCoord E.coordBits (s.gh.x + x0)) (toCoord E.coordBits (s.gh.y + y0))
      (toCoord E.coordBits (s.gh.x + x1)) (toCoord E.coordBits (s.gh.y + y1)) s.gh.color)

def gwinDrawBox (E : Env) (s : St) (x y cx cy : coord_t) : St :=
  if !flagSet s.gh.flags E.GWIN_FLG_VISIBLE then s
  else
    let s := gdispSetClip s s.gh.x s.gh.y s.gh.width s.gh.height
    emit s (.gdispDrawBox (toCoord E.coordBits (s.gh.x + x)) (toCoord E.coordBits (s.gh.y + y))
      cx cy s.gh.color)

def gwinFillArea (E : Env) (s : St) (x y cx cy : coord_t) : St :=
  if !flagSet s.gh.flags E.GWIN_FLG_VISIBLE then s
  else
    let s := gdispSetClip s s.gh.x s.gh.y s.gh.width s.gh.height
    emit s (.gdispFillArea (toCoord E.coordBits (s.gh.x + x)) (toCoord E.coordBits (s.gh.y + y))
      cx cy s.gh.color)

def gwinBlitArea (E : Env) (s : St) (x y cx cy srcx srcy srccx : coord_t) (buffer : Nat) : St :=
  if !flagSet s.gh.flags E.GWIN_FLG_VISIBLE then s
  else
    let s := gdispSetClip s s.gh.x s.gh.y s.gh.width s.gh.height
    emit s (.gdispBlitAreaEx (toCoord E.coordBits (s.gh.x + x)) (toCoord E.coordBits (s.gh.y + y))
      cx cy srcx srcy srccx buffer)

def gwinDrawCircle (E : Env) (s : St) (x y radius : coord_t) : St :=
  if !flagSet s.gh.flags E.GWIN_FLG_VISIBLE then s
  else
    let s := gdispSetClip s s.gh.x s.gh.y s.gh.width s.gh.height
    emit s (.gdispDrawCircle (toCoord E.coordBits (s.gh.x + x)) (toCoord E.coordBits (s.gh.y + y))
      radius s.gh.color)

def gwinFillCircle (E : Env) (s : St) (x y radius : coord_t) : St :=
  if !flagSet s.gh.flags E.GWIN_FLG_VISIBLE then s
  else
    let s := gdispSetClip s s.gh.x s.gh.y s.gh.width s.gh.height
    emit s (.gdispFillCircle (toCoord E.coordBits (s.gh.x + x)) (toCoord E.coordBits (s.gh.y + y))
      radius s.gh.color)

def gwinDrawEllipse (E : Env) (s : St) (x y a b : coord_t) : St :=
  if !flagSet s.gh.flags E.GWIN_FLG_VISIBLE then s
  else
    let s := gdispSetClip s s.gh.x s.gh.y s.gh.width s.gh.height
    emit s (.gdispDrawEllipse (toCoord E.coordBits (s.gh.x + x)) (toCoord E.coordBits (s.gh.y + y))
      a b s.gh.color)

def gwinFillEllipse (E : Env) (s : St) (x y a b : coord_t) : St :=
  if !flagSet s.gh.flags E.GWIN_FLG_VISIBLE then s
  else
    let s := gdispSetClip s s.gh.x s.gh.y s.gh.width s.gh.height
    emit s (.gdispFillEllipse (toCoord E.coordBits (s.gh.x + x)) (toCoord E.coordBits (s.gh.y + y))
      a b s.gh.color)

def gwinDrawArc (E : Env) (s : St) (x y radius startangle endangle : coord_t) : St :=
  if !flagSet s.gh.flags E.GWIN_FLG_VISIBLE then s
  else
    let s := gdispSetClip s s.gh.x s.gh.y s.gh.width s.gh.height
    emit s (.gdispDrawArc (toCoord E.coordBits (s.gh.x + x)) (toCoord E.coordBits (s.gh.y + y))
      radius startangle endangle s.gh.color)

def gwinFillArc (E : Env) (s : St) (x y radius startangle endangle : coord_t) : St :=
  if !flagSet s.gh.flags E.GWIN_FLG_VISIBLE then s
  else
    let s := gdispSetClip s s.gh.x s.gh.y s.gh.width s.gh.height
    emit s (.gdispFillArc (toCoord E.coordBits (s.gh.x + x)) (toCoord E.coordBits (s.gh.y + y))
      radius startangle endangle s.gh.color)

/-- Returns the colour read and the state after the call. -/
def gwinGetPixelColor (E : Env) (g : Globals) (s : St) (x y : coord_t) : color_t × St :=
  if !flagSet s.gh.flags E.GWIN_FLG_VISIBLE then (g.defaultBgColor, s)
  else
    let s := gdispSetClip s s.gh.x s.gh.y s.gh.width s.gh.height
    (E.gdispGetPixelColor (toCoord E.coordBits (s.gh.x + x)) (toCoord E.coordBits (s.gh.y + y)),
      emit s (.gdispGetPixelColor (toCoord E.coordBits (s.gh.x + x))
        (toCoord E.coordBits (s.gh.y + y))))

def gwinDrawChar (E : Env) (s : St) (x y : coord_t) (c : Char) : St :=
  if !flagSet s.gh.flags E.GWIN_FLG_VISIBLE ∨ s.gh.font = 0 then s
  else
    let s := gdispSetClip s s.gh.x s.gh.y s.gh.width s.gh.height
    emit s (.gdispDrawChar (toCoord E.coordBits (s.gh.x + x)) (toCoord E.coordBits (s.gh.y + y))
      c s.gh.font s.gh.color)

def gwinFillChar (E : Env) (s : St) (x y : coord_t) (c : Char) : St :=
  if !flagSet s.gh.flags E.GWIN_FLG_VISIBLE ∨ s.gh.font = 0 then s
  else
    let s := gdispSetClip s s.gh.x s.gh.y s.gh.width s.gh.height
    emit s (.gdispFillChar (toCoord E.coordBits (s.gh.x + x)) (toCoord E.coordBits (s.gh.y + y))
      c s.gh.font s.gh.color s.gh.bgcolor)

def gwinDrawString (E : Env) (s : St) (x y : coord_t) (str : String) : St :=
  if !flagSet s.gh.flags E.GWIN_FLG_VISIBLE ∨ s.gh.font = 0 then s
  else
    let s := gdispSetClip s s.gh.x s.gh.y s.gh.width s.gh.height
    emit s (.gdispDrawString (toCoord E.coordBits (s.gh.x + x)) (toCoord E.coordBits (s.gh.y + y))
      str s.gh.font s.gh.color)

def gwinFillString (E : Env) (s : St) (x y : coord_t) (str : String) : St :=
  if !flagSet s.gh.flags E.GWIN_FLG_VISIBLE ∨ s.gh.font = 0 then s
  else
    let s := gdispSetClip s s.gh.x s.gh.y s.gh.width s.gh.height
    emit s (.gdispFillString (toCoord E.coordBits (s.gh.x + x)) (toCoord E.coordBits (s.gh.y + y))
      str s.gh.font s.gh.color s.gh.bgcolor)

def gwinDrawStringBox (E : Env) (s : St) (x y cx cy : coord_t) (str : String)
    (justify : Nat) : St :=
  if !flagSet s.gh.flags E.GWIN_FLG_VISIBLE ∨ s.gh.font = 0 then s
  else
    let s := gdispSetClip s s.gh.x s.gh.y s.gh.width s.gh.height
    emit s (.gdispDrawStringBox (toCoord E.coordBits (s.gh.x + x))
      (toCoord E.coordBits (s.gh.y + y)) cx cy str s.gh.font s.gh.color justify)

def gwinFillStringBox (E : Env) (s : St) (x y cx cy : coord_t) (str : String)
    (justify : Nat) : St :=
  if !flagSet s.gh.flags E.GWIN_FLG_VISIBLE ∨ s.gh.font = 0 then s
  else
    let s := gdispSetClip s s.gh.x s.gh.y s.gh.width s.gh.height
    emit s (.gdispFillStringBox (toCoord E.coordBits (s.gh.x + x))
      (toCoord E.coordBits (s.gh.y + y)) cx cy str s.gh.font s.gh.color s.gh.bgcolor justify)

def gwinDrawPoly (E : Env) (s : St) (tx ty : coord_t) (pntarray : List (Int × Int))
    (cnt : Nat) : St :=
  if !flagSet s.gh.flags E.GWIN_FLG_VISIBLE then s
  else
    let s := gdispSetClip s s.gh.x s.gh.y s.gh.width s.gh.height
    emit s (.gdispDrawPoly (toCoord E.coordBits (tx + s.gh.x)) (toCoord E.coordBits (ty + s.gh.y))
      pntarray cnt s.gh.color)

def gwinFillConvexPoly (E : Env) (s : St) (tx ty : coord_t) (pntarray : List (Int × Int))
    (cnt : Nat) : St :=
  if !flagSet s.gh.flags E.GWIN_FLG_VISIBLE then s
  else
    let s := gdispSetClip s s.gh.x s.gh.y s.gh.width s.gh.height
    emit s (.gdispFillConvexPoly (toCoord E.coordBits (tx + s.gh.x))
      (toCoord E.coordBits (ty + s.gh.y)) pntarray cnt s.gh.color)

/-- Returns the error code and the state after the call. -/
def gwinDrawImage (E : Env) (s : St) (img : Nat) (x y cx cy sx sy : coord_t) : Nat × St :=
  if !flagSet s.gh.flags E.GWIN_FLG_VISIBLE then (E.GDISP_IMAGE_ERR_OK, s)
  else
    let s := gdispSetClip s s.gh.x s.gh.y s.gh.width s.gh.height
    (E.gdispImageDraw img (toCoord E.coordBits (s.gh.x + x)) (toCoord E.coordBits (s.gh.y + y))
      cx cy sx sy,
      emit s (.gdispImageDraw img (toCoord E.coordBits (s.gh.x + x))
        (toCoord E.coordBits (s.gh.y + y)) cx cy sx sy))

/-! ## Notions used by the statements -/

/-- The rectangle of a window: `(x, y, width, height)`. -/
def geom (gh : GWindowObject) : Int × Int × Int × Int := (gh.x, gh.y, gh.width, gh.height)

/-- A value of `coord_t`. -/
def IsCoord (bits : Nat) (v : Int) : Prop := -coordHalf bits ≤ v ∧ v < coordHalf bits

instance (bits : Nat) (v : Int) : Decidable (IsCoord bits v) := by
  unfold IsCoord; infer_instance

/-- A request `(x, y, w, h)` of `coord_t` values in which, on an axis with a negative origin,
origin plus extent is again a `coord_t` value. -/
def FitsRequest (bits : Nat) (x y w h : Int) : Prop :=
  IsCoord bits x ∧ IsCoord bits y ∧ IsCoord bits w ∧ IsCoord bits h ∧
    (x < 0 → IsCoord bits (w + x)) ∧ (y < 0 → IsCoord bits (h + y))

instance (bits : Nat) (x y w h : Int) : Decidable (FitsRequest bits x y w h) := by
  unfold FitsRequest; infer_instance

/-- The class hooks leave the rectangle of the window alone. -/
def HooksKeepGeom (E : Env) : Prop := ∀ fn gh, geom (E.hook fn gh) = geom gh

/-- The class hooks leave the flags of the window alone. -/
def HooksKeepFlags (E : Env) : Prop := ∀ fn gh, (E.hook fn gh).flags = gh.flags

/-- The window lies within the surface and has at least the minimum size. -/
def InSurface (E : Env) (gh : GWindowObject) : Prop :=
  0 ≤ gh.x ∧ gh.x ≤ E.gdispGetWidth - 1 ∧ 0 ≤ gh.y ∧ gh.y ≤ E.gdispGetHeight - 1 ∧
    1 ≤ gh.width ∧ 1 ≤ gh.height ∧
    gh.x + gh.width ≤ E.gdispGetWidth ∧ gh.y + gh.height ≤ E.gdispGetHeight

/-- The four-step policy on one axis, in exact integer arithmetic: surface extent `S`,
requested origin `p` and extent `e`; the result is the final origin and extent. -/
def policyAxis (S p e : Int) : Int × Int :=
  -- (1) if x<0 then w := w+x, x := 0
  let e1 := if p < 0 then e + p else e
  let p1 := if p < 0 then 0 else p
  -- (2) if x > W-1 then x := W-1
  let p2 := if p1 > S - 1 then S - 1 else p1
  -- (3) if w < 1 then w := 1
  let e2 := if e1 < 1 then 1 else e1
  -- (4) if x+w > W then w := W-x
  let e3 := if p2 + e2 > S then S - p2 else e2
  (p2, e3)

/-- The four-step policy of the specification on both axes: the final `(x, y, w, h)`. -/
def redimPolicy (W H x y w h : Int) : Int × Int × Int × Int :=
  ((policyAxis W x w).1, (policyAxis H y h).1, (policyAxis W x w).2, (policyAxis H y h).2)

/-- The interval `[p, p + e)` does not meet `[0, S)`: it starts at or beyond the far edge, or
it ends at or before the near edge. -/
def OffAxis (S p e : Int) : Prop := S ≤ p ∨ (p < 0 ∧ p + e ≤ 0)

instance (S p e : Int) : Decidable (OffAxis S p e) := by
  unfold OffAxis; infer_instance

/-- The rectangle `(x, y, w, h)` has no point on the surface `W x H`. -/
def OffSurface (W H x y w h : Int) : Prop := OffAxis W x w ∨ OffAxis H y h

instance (W H x y w h : Int) : Decidable (OffSurface W H x y w h) := by
  unfold OffSurface; infer_instance

/-- Final origin on one axis of `redimClamp`: surface extent `S`, requested origin `p`. -/
def axisPos (bits : Nat) (S p : Int) : Int :=
  let p1 := if toCoord bits p < 0 then 0 else toCoord bits p
  if p1 > S - 1 then toCoord bits (S - 1) else p1

/-- Final extent on one axis of `redimClamp`: requested origin `p` and extent `e`. -/
def axisLen (bits : Nat) (S p e : Int) : Int :=
  let e1 := if toCoord bits p < 0 then toCoord bits (toCoord bits e + toCoord bits p)
            else toCoord bits e
  let e2 := if e1 < 1 then 1 else e1
  if axisPos bits S p + e2 > S then toCoord bits (S - axisPos bits S p) else e2

/-- The class hooks leave the observation `f` of the window alone. -/
def HooksKeep {α : Type} (E : Env) (f : GWindowObject → α) : Prop :=
  ∀ fn gh, f (E.hook fn gh) = f gh

/-- The operations of the window manager leave the observation `f` of the window alone. -/
def ManagerKeeps {α : Type} (E : Env) (f : GWindowObject → α) : Prop :=
  (∀ gh pInit, f (E.wmAdd gh pInit).2 = f gh) ∧ (∀ gh, f (E.wmVisible gh) = f gh) ∧
    (∀ gh, f (E.wmDelete gh) = f gh) ∧ (∀ gh x y w h, f (E.wmRedim gh x y w h) = f gh) ∧
    (∀ gh, f (E.wmRaise gh) = f gh)

/-- The class descriptor, the colours and the font of a window. -/
def classAndStyle (gh : GWindowObject) : VmtPtr × color_t × color_t × font_t :=
  (gh.vmt, gh.color, gh.bgcolor, gh.font)

/-- The addresses passed to `gfxFree` in a log, in the order of the calls. -/
def frees : List Call → List Nat
  | [] => []
  | .gfxFree p :: l => p :: frees l
  | _ :: l => frees l

/-- The storage contents after lines 98 to 108 of `_gwindowCreate`: the flags, then the basic
fields. -/
def initObj (g : Globals) (o : GWindowObject) (vmt : VmtPtr) (flags : Nat) : GWindowObject :=
  { o with flags := flags, vmt := vmt, color := g.defaultFgColor, bgcolor := g.defaultBgColor,
           font := g.defaultFont }

/-- The first half of `_gwindowCreate` (lines 95 to 108): the storage, allocated if
necessary, with its basic fields initialised; `none` when the allocation fails. -/
def createBase (E : Env) (g : Globals) (pgw : Option (Nat × GWindowObject)) (vmt : VmtPtr)
    (flags : Nat) (log : List Call) : Option St :=
  match pgw with
  | none =>
    match E.gfxAlloc vmt.deref.size with
    | none => none
    | some (p, o) =>
      some { ptr := p, gh := initObj g o vmt (flags ||| E.GWIN_FLG_DYNAMIC),
             log := log ++ [.gfxAlloc vmt.deref.size] }
  | some (p, o) => some { ptr := p, gh := initObj g o vmt flags, log := log }

/-- The second half of `_gwindowCreate` (lines 110 to 120): registration with the manager,
or the fallback redim. -/
def createRegister (E : Env) (pInit : GWindowInit) (s : St) : Created :=
  if E.GWIN_NEED_WINDOWMANAGER then
    if !(E.wmAdd s.gh pInit).1 then
      if flagSet (E.wmAdd s.gh pInit).2.flags E.GWIN_FLG_DYNAMIC then
        .null (s.log ++ [.wmAdd s.gh pInit, .gfxFree s.ptr])
      else
        .null (s.log ++ [.wmAdd s.gh pInit])
    else
      .handle { s with gh := (E.wmAdd s.gh pInit).2, log := s.log ++ [.wmAdd s.gh pInit] }
  else
    .handle (_gwm_redim E s pInit.x pInit.y pInit.width pInit.height)

/-- The window as `gwinDestroy` finds it after the class destroy routine (line 172): the
result of the destroy hook when the class has one. -/
def afterDestroyHook (E : Env) (gh : GWindowObject) : GWindowObject :=
  if gh.vmt.deref.Destroy ≠ 0 then E.hook gh.vmt.deref.Destroy gh else gh

/-- The initial values of the static variables of `gwin.c` (lines 30 to 34), as they are when
no setter has been called: `defaultFgColor = White`, `defaultBgColor = Black`, and the
uninitialised static `defaultFont`, which is null. `White` and `Black` are colour constants of
the GDISP headers and are parameters. -/
def initialGlobals (White Black : color_t) : Globals :=
  { defaultFgColor := White, defaultBgColor := Black, defaultFont := 0 }

/-- The base window that `gwinWindowCreate` leaves in storage with contents `o` when no
manager is configured and the window is shown: the basic fields, the clamped rectangle, and
the flags `flags0` of the first half of the construction with VISIBLE added. -/
def shownBase (E : Env) (g : Globals) (o : GWindowObject) (flags0 : Nat) (pInit : GWindowInit) :
    GWindowObject :=
  { redimClamp E (initObj g o ⟨E.addrBasegwinVMT, basegwinVMT E⟩ flags0)
      pInit.x pInit.y pInit.width pInit.height
    with flags := flags0 ||| E.GWIN_FLG_VISIBLE }

/-- The intersection of the interval `[p, p + e)` with `[0, S)` on one axis, as origin and
extent, in exact integer arithmetic. -/
def intersectAxis (S p e : Int) : Int × Int := (max p 0, min (p + e) S - max p 0)

/-- The intersection of the rectangle `(x, y, w, h)` with the surface rectangle
`(0, 0, W, H)`, as `(x, y, w, h)`. -/
def intersectSurface (W H x y w h : Int) : Int × Int × Int × Int :=
  ((intersectAxis W x w).1, (intersectAxis H y h).1,
   (intersectAxis W x w).2, (intersectAxis H y h).2)

/-- One call of a routine of the facade on a window that exists: the setters of the window,
the geometry routines and every drawing entry point, with its arguments. -/
inductive FacadeOp where
  | setVisible (visible : bool_t)
  | setEnabled (enabled : bool_t)
  | move (x y : coord_t)
  | resize (width height : coord_t)
  | redraw
  | setFont (font : font_t)
  | setColor (clr : color_t)
  | setBgColor (bgclr : color_t)
  | clear
  | drawPixel (x y : coord_t)
  | drawLine (x0 y0 x1 y1 : coord_t)
  | drawBox (x y cx cy : coord_t)
  | fillArea (x y cx cy : coord_t)
  | blitArea (x y cx cy srcx srcy srccx : coord_t) (buffer : Nat)
  | drawCircle (x y radius : coord_t)
  | fillCircle (x y radius : coord_t)
  | drawEllipse (x y a b : coord_t)
  | fillEllipse (x y a b : coord_t)
  | drawArc (x y radius startangle endangle : coord_t)
  | fillArc (x y radius startangle endangle : coord_t)
  | getPixelColor (x y : coord_t)
  | drawChar (x y : coord_t) (c : Char)
  | fillChar (x y : coord_t) (c : Char)
  | drawString (x y : coord_t) (str : String)
  | fillString (x y : coord_t) (str : String)
  | drawStringBox (x y cx cy : coord_t) (str : String) (justify : Nat)
  | fillStringBox (x y cx cy : coord_t) (str : String) (justify : Nat)
  | drawPoly (tx ty : coord_t) (pntarray : List (Int × Int)) (cnt : Nat)
  | fillConvexPoly (tx ty : coord_t) (pntarray : List (Int × Int)) (cnt : Nat)
  | drawImage (img : Nat) (x y cx cy sx sy : coord_t)
deriving DecidableEq, Repr

/-- The state after one call of a routine of the facade (a returned value is dropped). -/
def applyOp (E : Env) (g : Globals) (s : St) : FacadeOp → St
  | .setVisible v => gwinSetVisible E s v
  | .setEnabled e => gwinSetEnabled E s e
  | .move x y => gwinMove E s x y
  | .resize w h => gwinResize E s w h
  | .redraw => gwinRedraw E s
  | .setFont font => gwinSetFont s font
  | .setColor clr => gwinSetColor s clr
  | .setBgColor bgclr => gwinSetBgColor s bgclr
  | .clear => gwinClear E s
  | .drawPixel x y => gwinDrawPixel E s x y
  | .drawLine x0 y0 x1 y1 => gwinDrawLine E s x0 y0 x1 y1
  | .drawBox x y cx cy => gwinDrawBox E s x y cx cy
  | .fillArea x y cx cy => gwinFillArea E s x y cx cy
  | .blitArea x y cx cy srcx srcy srccx buffer => gwinBlitArea E s x y cx cy srcx srcy srccx buffer
  | .drawCircle x y radius => gwinDrawCircle E s x y radius
  | .fillCircle x y radius => gwinFillCircle E s x y radius
  | .drawEllipse x y a b => gwinDrawEllipse E s x y a b
  | .fillEllipse x y a b => gwinFillEllipse E s x y a b
  | .drawArc x y radius sa ea => gwinDrawArc E s x y radius sa ea
  | .fillArc x y radius sa ea => gwinFillArc E s x y radius sa ea
  | .getPixelColor x y => (gwinGetPixelColor E g s x y).2
  | .drawChar x y c => gwinDrawChar E s x y c
  | .fillChar x y c => gwinFillChar E s x y c
  | .drawString x y str => gwinDrawString E s x y str
  | .fillString x y str => gwinFillString E s x y str
  | .drawStringBox x y cx cy str justify => gwinDrawStringBox E s x y cx cy str justify
  | .fillStringBox x y cx cy str justify => gwinFillStringBox E s x y cx cy str justify
  | .drawPoly tx ty pntarray cnt => gwinDrawPoly E s tx ty pntarray cnt
  | .fillConvexPoly tx ty pntarray cnt => gwinFillConvexPoly E s tx ty pntarray cnt
  | .drawImage img x y cx cy sx sy => (gwinDrawImage E s img x y cx cy sx sy).2

/-- The state after a sequence of calls, the first of the list first. -/
def runOps (E : Env) (g : Globals) (s : St) : List FacadeOp → St
  | [] => s
  | op :: ops => runOps E g (applyOp E g s op) ops

end GWin

/-! ## `stm32_ltdc.h` -/

namespace LTDC

/-- The conversion `(ltdc_color_t)(v)` of an integer value to `uint32_t`. -/
def toColor (v : Int) : Nat := (v % 4294967296).toNat

/-- The shift `v << k` of a `uint32_t` value. -/
def shl32 (v k : Nat) : Nat := (v <<< k) % 4294967296

/-- The macro `ltdcMakeARGB8888(a, r, g, b)` (lines 350 to 354). -/
def ltdcMakeARGB8888 (a r g b : Int) : Nat :=
  (shl32 (toColor a &&& 0xFF) 24) |||
  (shl32 (toColor r &&& 0xFF) 16) |||
  (shl32 (toColor g &&& 0xFF) 8) |||
  (shl32 (toColor b &&& 0xFF) 0)

/-- The value `(a mod 256)*2^24 + (r mod 256)*2^16 + (g mod 256)*2^8 + (b mod 256)`. -/
def argb8888Sum (a r g b : Int) : Int :=
  (a % 256) * 2 ^ 24 + (r % 256) * 2 ^ 16 + (g % 256) * 2 ^ 8 + (b % 256)

/-! The LTDC enable flags (lines 12 to 19) and the layer enable flags (lines 22 to 26), as
the 32-bit patterns of their `int` values. -/

def LTDC_EF_ENABLE : Nat := 1 <<< 0
def LTDC_EF_DITHER : Nat := 1 <<< 16
def LTDC_EF_PIXCLK_INVERT : Nat := 1 <<< 28
def LTDC_EF_DATAEN_HIGH : Nat := 1 <<< 29
def LTDC_EF_VSYNC_HIGH : Nat := 1 <<< 30
def LTDC_EF_HSYNC_HIGH : Nat := 1 <<< 31

def LTDC_EF_MASK : Nat :=
  LTDC_EF_ENABLE ||| LTDC_EF_DITHER ||| LTDC_EF_PIXCLK_INVERT ||| LTDC_EF_DATAEN_HIGH |||
    LTDC_EF_VSYNC_HIGH ||| LTDC_EF_HSYNC_HIGH

def LTDC_LEF_ENABLE : Nat := 1 <<< 0
def LTDC_LEF_KEYING : Nat := 1 <<< 1
def LTDC_LEF_PALETTE : Nat := 1 <<< 4

def LTDC_LEF_MASK : Nat := LTDC_LEF_ENABLE ||| LTDC_LEF_KEYING ||| LTDC_LEF_PALETTE

/-- The conversion of a flag value to `ltdc_flags_t`, which line 289 declares as `uint8_t`:
the type of the `flags` fields of `LTDCConfig` and `ltdc_laycfg_t`, of the result of
`ltdcGetEnableFlags` and of the argument of `ltdcSetEnableFlags`. -/
def toFlags (v : Nat) : Nat := v % 2 ^ 8

end LTDC

namespace GWin

/-! ## Concrete data -/

/-- A 100 x 100 surface, 16-bit coordinates, no window manager, inert hooks. -/
def demoEnv : Env :=
  { coordBits := 16, GWIN_FLG_DYNAMIC := 1, GWIN_FLG_VISIBLE := 2, GWIN_FLG_ENABLED := 16,
    GWIN_NEED_WINDOWMANAGER := false, gdispGetWidth := 100, gdispGetHeight := 100,
    gdispGetPixelColor := fun _ _ => 7, gdispImageDraw := fun _ _ _ _ _ _ _ => 0,
    GDISP_IMAGE_ERR_OK := 0, hook := fun _ g => g, wmAdd := fun g _ => (true, g),
    wmDelete := id, wmVisible := id, wmRedim := fun g _ _ _ _ => g, wmRaise := id,
    gfxAlloc := fun _ => none, sizeofGWindowObject := 32, addrBasegwinVMT := 4096 }

/-- The same with a window manager. -/
def demoEnvWM : Env := { demoEnv with GWIN_NEED_WINDOWMANAGER := true }

/-- A hidden base window at `(20, 30)` of size `40 x 50`. -/
def demoWin : GWindowObject :=
  { vmt := ⟨4096, basegwinVMT demoEnv⟩, x := 20, y := 30, width := 40, height := 50,
    color := 1, bgcolor := 0, flags := 0, font := 0 }

/-- A class with a redraw hook at address `77`. -/
def demoWidgetVMT : VmtPtr :=
  ⟨4200, { classname := "Widget", size := 48, Destroy := 0, Redraw := 77, AfterClear := 0 }⟩

def demoSt : St := { ptr := 8192, gh := demoWin, log := [] }

/-- The window of `demoSt` made visible. -/
def demoVisibleSt : St := { demoSt with gh := { demoWin with flags := 2 } }

/-- A visible, disabled window of the class `demoWidgetVMT`. -/
def demoWidgetSt : St :=
  { ptr := 8192, gh := { demoWin with vmt := demoWidgetVMT, flags := 2 }, log := [] }

def demoGlobals : Globals := { defaultFgColor := 0xFFFF, defaultBgColor := 0, defaultFont := 0 }

/-- The environment `demoEnv` with an allocator that returns a block at address `12288`. -/
def demoEnvAlloc : Env := { demoEnv with gfxAlloc := fun _ => some (12288, demoWin) }

/-- A window manager whose `Add` always reports failure; the allocator succeeds. -/
def demoEnvAddFails : Env :=
  { demoEnvAlloc with GWIN_NEED_WINDOWMANAGER := true, wmAdd := fun gh _ => (false, gh) }

/-- A window manager whose `Add` succeeds; the allocator succeeds. -/
def demoEnvWMAlloc : Env := { demoEnvAlloc with GWIN_NEED_WINDOWMANAGER := true }

/-- A second descriptor, at another address, with the class name of the base class. -/
def demoOtherVMT : VmtPtr :=
  ⟨4300, { classname := "GWIN", size := 40, Destroy := 55, Redraw := 0, AfterClear := 0 }⟩

def demoInit : GWindowInit := { x := 0, y := 0, width := 50, height := 50, «show» := true }

/-- The base window that `gwinWindowCreate` builds from `demoInit` in caller storage at
`8192`, no manager: shown, hence cleared once. -/
def demoCreatedSt : St :=
  { ptr := 8192,
    gh := { vmt := ⟨4096, basegwinVMT demoEnv⟩, x := 0, y := 0, width := 50, height := 50,
            color := 0xFFFF, bgcolor := 0, flags := 2, font := 0 },
    log := [.gdispSetClip 0 0 50 50, .gdispFillArea 0 0 50 50 0] }

/-- The same window built in a block allocated at `12288`. -/
def demoCreatedDynSt : St :=
  { ptr := 12288,
    gh := { vmt := ⟨4096, basegwinVMT demoEnv⟩, x := 0, y := 0, width := 50, height := 50,
            color := 0xFFFF, bgcolor := 0, flags := 3, font := 0 },
    log := [.gfxAlloc 32, .gdispSetClip 0 0 50 50, .gdispFillArea 0 0 50 50 0] }

/-- A dynamic window of the class `demoOtherVMT`, which has a destroy hook at `55`. -/
def demoOtherSt : St :=
  { ptr := 12288, gh := { demoWin with vmt := demoOtherVMT, flags := 1 }, log := [] }

/-- The caller storage at `8192` after the first half of the construction of a widget of
the class `demoWidgetVMT` with flag bits `0`. -/
def demoWidgetInitSt : St :=
  { ptr := 8192, gh := initObj demoGlobals demoWin demoWidgetVMT 0, log := [] }

/-- The caller storage at `8192` after the first half of the construction of a base
window. -/
def demoBaseInitSt : St :=
  { ptr := 8192, gh := initObj demoGlobals demoWin ⟨4096, basegwinVMT demoEnv⟩ 0, log := [] }

/-- The caller storage at `9216` after the first half of the construction of a window of the
class `demoOtherVMT`. -/
def demoOtherInitSt : St :=
  { ptr := 9216, gh := initObj demoGlobals demoWin demoOtherVMT 0, log := [] }

/-- A 200 x 150 surface, otherwise as `demoEnv`. -/
def demoEnv200 : Env := { demoEnv with gdispGetWidth := 200, gdispGetHeight := 150 }

/-- The 200 x 150 surface with an allocator that returns a block at `12288`. -/
def demoEnv200Alloc : Env := { demoEnv200 with gfxAlloc := fun _ => some (12288, demoWin) }

/-- A visible window of the class `demoWidgetVMT` (redraw hook at `77`) at `(20,30)`. -/
def demoWidgetVisibleSt : St :=
  { ptr := 8192, gh := { demoWin with vmt := demoWidgetVMT, flags := 2 }, log := [] }

/-- The demo window after a move to `(-10, 30)`, partly off the surface, and back to
`(20, 30)`. -/
def demoMovedBackSt : St := gwinMove demoEnv (gwinMove demoEnv demoSt (-10) 30) 20 30

/-- A dynamic, hidden base window in the block at `12288`. -/
def demoDynSt : St := { ptr := 12288, gh := { demoWin with flags := 1 }, log := [] }

/-- A sequence of calls: show, enable, move, draw, resize, set the font, hide. -/
def demoOps : List FacadeOp :=
  [.setVisible true, .setEnabled true, .move 5 5, .drawPixel 1 1, .resize 20 20, .setFont 3,
   .clear, .setVisible false]

/-- A surface whose pixel read and image draw give `2` at column `32787` and `1` elsewhere. -/
def demoEnvProbe : Env :=
  { demoEnv with gdispGetPixelColor := fun x _ => if x = 32787 then 2 else 1,
                 gdispImageDraw := fun _ x _ _ _ _ _ => if x = 32787 then 2 else 1 }

/-! ## Lemmas on the coordinate type -/

theorem coordHalf_pos (bits : Nat) : 0 < coordHalf bits := by
  unfold coordHalf; positivity

theorem coordHalf_two_le {bits : Nat} (h : 2 ≤ bits) : 2 ≤ coordHalf bits := by
  unfold coordHalf
  obtain ⟨k, rfl⟩ : ∃ k, bits = k + 2 := ⟨bits - 2, by omega⟩
  have : (2 : Int) ^ (k + 2 - 1) = 2 * 2 ^ k := by
    rw [show k + 2 - 1 = k + 1 by omega, pow_succ]; ring
  rw [this]
  have : (0 : Int) < 2 ^ k := by positivity
  omega

theorem toCoord_eq_self {bits : Nat} {v : Int} (h1 : -coordHalf bits ≤ v)
    (h2 : v < coordHalf bits) : toCoord bits v = v := by
  unfold toCoord
  rw [Int.emod_eq_of_lt (by omega) (by omega)]; omega

theorem toCoord_range (bits : Nat) (v : Int) :
    -coordHalf bits ≤ toCoord bits v ∧ toCoord bits v < coordHalf bits := by
  have hp := coordHalf_pos bits
  unfold toCoord
  have h1 := Int.emod_nonneg (v + coordHalf bits) (show (2 * coordHalf bits) ≠ 0 by omega)
  have h2 := Int.emod_lt_of_pos (v + coordHalf bits) (show 0 < 2 * coordHalf bits by omega)
  omega

/-! ## The clamp of `_gwm_redim`, axis by axis -/

theorem redimClamp_eq (E : Env) (gh : GWindowObject) (x y w h : Int) :
    redimClamp E gh x y w h =
      { gh with x := axisPos E.coordBits E.gdispGetWidth x,
                y := axisPos E.coordBits E.gdispGetHeight y,
                width := axisLen E.coordBits E.gdispGetWidth x w,
                height := axisLen E.coordBits E.gdispGetHeight y h } := rfl

theorem axisPos_inv (bits : Nat) (S p : Int) (h1 : 1 ≤ S) (h2 : S < coordHalf bits) :
    0 ≤ axisPos bits S p ∧ axisPos bits S p ≤ S - 1 := by
  have hS : toCoord bits (S - 1) = S - 1 := toCoord_eq_self (by omega) (by omega)
  unfold axisPos
  rw [hS]
  generalize toCoord bits p = p0
  dsimp only
  split_ifs <;> omega

theorem axis_inv (bits : Nat) (S p e : Int) (h1 : 1 ≤ S) (h2 : S < coordHalf bits) :
    0 ≤ axisPos bits S p ∧ axisPos bits S p ≤ S - 1 ∧ 1 ≤ axisLen bits S p e ∧
      axisPos bits S p + axisLen bits S p e ≤ S := by
  have hpos := axisPos_inv bits S p h1 h2
  refine ⟨hpos.1, hpos.2, ?_⟩
  unfold axisLen
  generalize axisPos bits S p = q at hpos ⊢
  have hq : toCoord bits (S - q) = S - q := toCoord_eq_self (by omega) (by omega)
  rw [hq]
  generalize toCoord bits (toCoord bits e + toCoord bits p) = a
  generalize toCoord bits e = c
  generalize toCoord bits p = d
  dsimp only
  split_ifs <;> omega

theorem axis_policy (bits : Nat) (S p e : Int) (hbits : 2 ≤ bits)
    (hS : IsCoord bits S) (hS1 : IsCoord bits (S - 1))
    (hp : IsCoord bits p) (he : IsCoord bits e) (hov : p < 0 → IsCoord bits (e + p)) :
    (axisPos bits S p, axisLen bits S p e) = policyAxis S p e := by
  have h2 := coordHalf_two_le hbits
  have hpp : toCoord bits p = p := toCoord_eq_self hp.1 hp.2
  have hee : toCoord bits e = e := toCoord_eq_self he.1 he.2
  have hSS : toCoord bits (S - 1) = S - 1 := toCoord_eq_self hS1.1 hS1.2
  have hpos : axisPos bits S p = (policyAxis S p e).1 := by
    unfold axisPos policyAxis
    rw [hpp, hSS]
  have hlen : axisLen bits S p e = (policyAxis S p e).2 := by
    unfold axisLen
    rw [hpos]
    unfold policyAxis
    dsimp only
    rw [hpp, hee]
    obtain ⟨hS_1, hS_2⟩ := hS
    obtain ⟨hp_1, hp_2⟩ := hp
    by_cases hneg : p < 0
    · have := hov hneg
      rw [toCoord_eq_self this.1 this.2]
      simp only [hneg, if_true]
      have h3 : toCoord bits (S - (if 0 > S - 1 then S - 1 else 0)) =
          S - (if 0 > S - 1 then S - 1 else 0) := by
        apply toCoord_eq_self <;> split_ifs <;> omega
      rw [h3]
    · simp only [hneg, if_false]
      have h3 : toCoord bits (S - (if p > S - 1 then S - 1 else p)) =
          S - (if p > S - 1 then S - 1 else p) := by
        apply toCoord_eq_self <;> split_ifs <;> omega
      rw [h3]
  rw [hpos, hlen]

/-- An extent that is off the surface on its axis ends as one pixel at the nearer edge. -/
theorem axis_off (bits : Nat) (S p e : Int) (h1 : 1 ≤ S) (h2 : S < coordHalf bits)
    (hp : IsCoord bits p) (he : IsCoord bits e) (hov : p < 0 → IsCoord bits (e + p))
    (hoff : OffAxis S p e) :
    axisLen bits S p e = 1 ∧ axisPos bits S p = (if p < 0 then 0 else S - 1) := by
  have hbits : 2 ≤ bits := by
    by_contra hb
    have : bits - 1 = 0 := by omega
    unfold coordHalf at h2
    rw [this] at h2
    simp at h2
    omega
  have hpol := axis_policy bits S p e hbits ⟨by omega, h2⟩ ⟨by omega, by omega⟩ hp he hov
  have hA : axisLen bits S p e = (policyAxis S p e).2 := by rw [← hpol]
  have hB : axisPos bits S p = (policyAxis S p e).1 := by rw [← hpol]
  rw [hA, hB]
  unfold policyAxis
  dsimp only
  rcases hoff with h | ⟨h, h'⟩
  · constructor <;> split_ifs <;> omega
  · constructor <;> split_ifs <;> omega

theorem toCoord_wrap_low {bits : Nat} {v : Int} (h1 : -3 * coordHalf bits ≤ v)
    (h2 : v < -coordHalf bits) : toCoord bits v = v + 2 * coordHalf bits := by
  unfold toCoord
  have h : (v + coordHalf bits) % (2 * coordHalf bits)
      = (v + coordHalf bits + 2 * coordHalf bits) % (2 * coordHalf bits) :=
    Int.add_emod_self.symm
  rw [h, Int.emod_eq_of_lt (by omega) (by omega)]; omega

/-- Whatever the width of the coordinate type, the request with the least origin and extent
`-1` wraps: the stored extent is the whole surface, where the exact policy gives 1. -/
theorem axisLen_wraps (bits : Nat) (hbits : 2 ≤ bits) (S : Int) (h1 : 2 ≤ S)
    (h2 : S < coordHalf bits) :
    axisLen bits S (-coordHalf bits) (-1) = S ∧ (policyAxis S (-coordHalf bits) (-1)).2 = 1 := by
  have hh := coordHalf_two_le hbits
  have ha : toCoord bits (-coordHalf bits) = -coordHalf bits := toCoord_eq_self (by omega) (by omega)
  have hb : toCoord bits (-1) = -1 := toCoord_eq_self (by omega) (by omega)
  have hc : toCoord bits (-1 + -coordHalf bits) = coordHalf bits - 1 := by
    rw [toCoord_wrap_low (by omega) (by omega)]; omega
  have hp : axisPos bits S (-coordHalf bits) = 0 := by
    unfold axisPos
    rw [ha]
    dsimp only
    split_ifs <;> omega
  have hd : toCoord bits (S - 0) = S := by
    rw [toCoord_eq_self (by omega) (by omega)]; omega
  constructor
  · unfold axisLen
    rw [hp, ha, hb, hc, hd]
    dsimp only
    split_ifs <;> omega
  · unfold policyAxis
    dsimp only
    split_ifs <;> omega

/-- With hooks that leave the rectangle alone, `_gwm_redim` ends with the rectangle of
`redimClamp`. -/
theorem redim_geom (E : Env) (hHook : HooksKeepGeom E) (s : St) (x y w h : Int) :
    geom (_gwm_redim E s x y w h).gh = geom (redimClamp E s.gh x y w h) := by
  unfold _gwm_redim
  dsimp only
  split_ifs
  · exact hHook _ _
  · rfl
  · rfl

theorem redim_inSurface (E : Env)
    (hW : 1 ≤ E.gdispGetWidth ∧ E.gdispGetWidth < coordHalf E.coordBits)
    (hH : 1 ≤ E.gdispGetHeight ∧ E.gdispGetHeight < coordHalf E.coordBits)
    (hHook : HooksKeepGeom E) (s : St) (x y w h : Int) :
    InSurface E (_gwm_redim E s x y w h).gh := by
  have hg := redim_geom E hHook s x y w h
  rw [redimClamp_eq] at hg
  simp only [geom, Prod.mk.injEq] at hg
  obtain ⟨e1, e2, e3, e4⟩ := hg
  have ax := axis_inv E.coordBits E.gdispGetWidth x w hW.1 hW.2
  have ay := axis_inv E.coordBits E.gdispGetHeight y h hH.1 hH.2
  unfold InSurface
  rw [e1, e2, e3, e4]
  exact ⟨ax.1, ax.2.1, ay.1, ay.2.1, ax.2.2.1, ay.2.2.1, ax.2.2.2, ay.2.2.2⟩

theorem redim_policy (E : Env) (hbits : 2 ≤ E.coordBits)
    (hW : IsCoord E.coordBits E.gdispGetWidth ∧ IsCoord E.coordBits (E.gdispGetWidth - 1))
    (hH : IsCoord E.coordBits E.gdispGetHeight ∧ IsCoord E.coordBits (E.gdispGetHeight - 1))
    (hHook : HooksKeepGeom E) (s : St) (x y w h : Int)
    (hfit : FitsRequest E.coordBits x y w h) :
    geom (_gwm_redim E s x y w h).gh = redimPolicy E.gdispGetWidth E.gdispGetHeight x y w h := by
  obtain ⟨hx, hy, hw, hh, hox, hoy⟩ := hfit
  have ax := axis_policy E.coordBits E.gdispGetWidth x w hbits hW.1 hW.2 hx hw hox
  have ay := axis_policy E.coordBits E.gdispGetHeight y h hbits hH.1 hH.2 hy hh hoy
  rw [redim_geom E hHook, redimClamp_eq]
  simp only [geom, redimPolicy, ← ax, ← ay]

/-- In the no-manager path a handle returned by `_gwindowCreate` is the outcome of
`_gwm_redim` for the requested rectangle. -/
theorem create_is_redim (E : Env) (hwm : E.GWIN_NEED_WINDOWMANAGER = false) (g : Globals)
    (pgw : Option (Nat × GWindowObject)) (pInit : GWindowInit) (vmt : VmtPtr) (flags : Nat)
    (log : List Call) (s : St) (h : _gwindowCreate E g pgw pInit vmt flags log = .handle s) :
    ∃ s0, s = _gwm_redim E s0 pInit.x pInit.y pInit.width pInit.height := by
  unfold _gwindowCreate at h
  rcases pgw with _ | ⟨p, o⟩
  · rcases hal : E.gfxAlloc vmt.deref.size with _ | ⟨p, o⟩
    · simp [hal] at h
    · simp only [hal, hwm] at h
      exact ⟨_, (Created.handle.inj h).symm⟩
  · simp only [hwm] at h
    exact ⟨_, (Created.handle.inj h).symm⟩

/-! ## Lemmas on the flag masks -/

theorem testBit_mask16 (i : Nat) : (0xFFFF : Nat).testBit i = decide (i < 16) := by
  have : (0xFFFF : Nat) = 2 ^ 16 - 1 := by norm_num
  rw [this, Nat.testBit_two_pow_sub_one]

theorem testBit_of_lt16 {m : Nat} (hm : m < 2 ^ 16) {i : Nat} (h : m.testBit i = true) : i < 16 := by
  by_contra hi
  have : m < 2 ^ i := lt_of_lt_of_le hm (Nat.pow_le_pow_right (by norm_num) (by omega))
  rw [Nat.testBit_lt_two_pow this] at h
  exact Bool.noConfusion h

theorem or_and_self (f m : Nat) : (f ||| m) &&& m = m := by
  apply Nat.eq_of_testBit_eq
  intro i
  simp only [Nat.testBit_and, Nat.testBit_or]
  cases f.testBit i <;> cases m.testBit i <;> rfl

theorem clear_and_self (f m : Nat) (hm : m < 2 ^ 16) : flagClear f m &&& m = 0 := by
  apply Nat.eq_of_testBit_eq
  intro i
  simp only [flagClear, Nat.testBit_and, Nat.testBit_xor, testBit_mask16, Nat.zero_testBit]
  by_cases h : m.testBit i = true
  · have := testBit_of_lt16 hm h
    simp [h, this]
  · simp [h]

theorem or_and_other (f m1 m2 : Nat) (hd : m1 &&& m2 = 0) : (f ||| m1) &&& m2 = f &&& m2 := by
  apply Nat.eq_of_testBit_eq
  intro i
  have := congrArg (fun n => n.testBit i) hd
  simp only [Nat.testBit_and, Nat.zero_testBit] at this
  simp only [Nat.testBit_and, Nat.testBit_or]
  cases h1 : f.testBit i <;> cases h2 : m1.testBit i <;> cases h3 : m2.testBit i <;> simp_all

theorem clear_and_other (f m1 m2 : Nat) (hd : m1 &&& m2 = 0) (hm : m2 < 2 ^ 16) :
    flagClear f m1 &&& m2 = f &&& m2 := by
  apply Nat.eq_of_testBit_eq
  intro i
  have := congrArg (fun n => n.testBit i) hd
  simp only [Nat.testBit_and, Nat.zero_testBit] at this
  simp only [flagClear, Nat.testBit_and, Nat.testBit_xor, testBit_mask16]
  by_cases h : m2.testBit i = true
  · have h16 := testBit_of_lt16 hm h
    cases h1 : f.testBit i <;> cases h2 : m1.testBit i <;> simp_all
  · simp [h]

theorem flagSet_or_self (f m : Nat) (hm : m ≠ 0) : flagSet (f ||| m) m = true := by
  simp [flagSet, or_and_self, hm]

theorem flagSet_clear_self (f m : Nat) (hm : m < 2 ^ 16) : flagSet (flagClear f m) m = false := by
  simp [flagSet, clear_and_self f m hm]

theorem flagSet_or_other (f m1 m2 : Nat) (hd : m1 &&& m2 = 0) :
    flagSet (f ||| m1) m2 = flagSet f m2 := by
  simp [flagSet, or_and_other f m1 m2 hd]

theorem flagSet_clear_other (f m1 m2 : Nat) (hd : m1 &&& m2 = 0) (hm : m2 < 2 ^ 16) :
    flagSet (flagClear f m1) m2 = flagSet f m2 := by
  simp [flagSet, clear_and_other f m1 m2 hd hm]

/-! ## Frame lemmas for the rectangle -/

theorem gwinClear_geom (E : Env) (hHook : HooksKeepGeom E) (s : St) :
    geom (gwinClear E s).gh = geom s.gh := by
  unfold gwinClear
  dsimp only
  split_ifs
  · rfl
  · exact hHook _ _
  · rfl

theorem gwm_vis_geom (E : Env) (hHook : HooksKeepGeom E) (s : St) :
    geom (_gwm_vis E s).gh = geom s.gh := by
  unfold _gwm_vis
  split_ifs
  · exact hHook _ _
  · exact gwinClear_geom E hHook s

theorem gwinSetVisible_geom (E : Env) (hwm : E.GWIN_NEED_WINDOWMANAGER = false)
    (hHook : HooksKeepGeom E) (s : St) (v : Bool) :
    geom (gwinSetVisible E s v).gh = geom s.gh := by
  unfold gwinSetVisible
  simp only [hwm, Bool.false_eq_true, if_false]
  split_ifs
  · rw [gwm_vis_geom E hHook]; rfl
  · rfl
  · rfl
  · rfl

theorem inSurface_of_geom (E : Env) {a b : GWindowObject} (h : geom a = geom b)
    (hb : InSurface E b) : InSurface E a := by
  simp only [geom, Prod.mk.injEq] at h
  obtain ⟨e1, e2, e3, e4⟩ := h
  unfold InSurface at *
  rw [e1, e2, e3, e4]
  exact hb

/-! ## The claims -/

/-- C1 (as amended). No-manager path: for every request `(x, y, w, h)` of coordinate values
in which, on an axis with a negative origin, origin plus extent still fits the coordinate
type, and for every surface size `W x H` for which `W`, `W-1`, `H`, `H-1` are coordinate
values, the rectangle stored by `_gwm_redim` (reached from the constructor, `gwinMove` and
`gwinResize`) is the result of the four-step policy applied in exact arithmetic. On a
100 x 100 surface `(-10,5,20,20)` gives `(0,5,10,20)` and `(150,150,10,10)` gives
`(99,99,1,1)`. -/
theorem C1_redim_policy (E : Env) (hbits : 2 ≤ E.coordBits)
    (hW : IsCoord E.coordBits E.gdispGetWidth ∧ IsCoord E.coordBits (E.gdispGetWidth - 1))
    (hH : IsCoord E.coordBits E.gdispGetHeight ∧ IsCoord E.coordBits (E.gdispGetHeight - 1))
    (hHook : HooksKeepGeom E) :
    (∀ s x y w h, FitsRequest E.coordBits x y w h →
      geom (_gwm_redim E s x y w h).gh
        = redimPolicy E.gdispGetWidth E.gdispGetHeight x y w h) ∧
    (E.GWIN_NEED_WINDOWMANAGER = false →
      (∀ g pgw pInit vmt flags log s,
        _gwindowCreate E g pgw pInit vmt flags log = .handle s →
        FitsRequest E.coordBits pInit.x pInit.y pInit.width pInit.height →
        geom s.gh = redimPolicy E.gdispGetWidth E.gdispGetHeight
          pInit.x pInit.y pInit.width pInit.height) ∧
      (∀ s x y, FitsRequest E.coordBits x y s.gh.width s.gh.height →
        geom (gwinMove E s x y).gh
          = redimPolicy E.gdispGetWidth E.gdispGetHeight x y s.gh.width s.gh.height) ∧
      (∀ s w h, FitsRequest E.coordBits s.gh.x s.gh.y w h →
        geom (gwinResize E s w h).gh
          = redimPolicy E.gdispGetWidth E.gdispGetHeight s.gh.x s.gh.y w h)) ∧
    (E.gdispGetWidth = 100 → E.gdispGetHeight = 100 → 150 < coordHalf E.coordBits →
      ∀ s, geom (_gwm_redim E s (-10) 5 20 20).gh = (0, 5, 10, 20) ∧
        geom (_gwm_redim E s 150 150 10 10).gh = (99, 99, 1, 1)) := by
  have main := redim_policy E hbits hW hH hHook
  refine ⟨main, fun hwm => ⟨?_, ?_, ?_⟩, ?_⟩
  · intro g pgw pInit vmt flags log s hs hfit
    obtain ⟨s0, rfl⟩ := create_is_redim E hwm g pgw pInit vmt flags log s hs
    exact main s0 _ _ _ _ hfit
  · intro s x y hfit
    unfold gwinMove
    simp only [hwm, Bool.false_eq_true, if_false]
    exact main s _ _ _ _ hfit
  · intro s w h hfit
    unfold gwinResize
    simp only [hwm, Bool.false_eq_true, if_false]
    exact main s _ _ _ _ hfit
  · intro h1 h2 h3 s
    have f1 : FitsRequest E.coordBits (-10) 5 20 20 := by
      unfold FitsRequest IsCoord
      refine ⟨?_, ?_, ?_, ?_, ?_, ?_⟩ <;> omega
    have f2 : FitsRequest E.coordBits 150 150 10 10 := by
      unfold FitsRequest IsCoord
      refine ⟨?_, ?_, ?_, ?_, ?_, ?_⟩ <;> omega
    rw [main s _ _ _ _ f1, main s _ _ _ _ f2, h1, h2]
    exact ⟨by decide, by decide⟩

/-- Witness of C1: the theorem applied on the 100 x 100 surface with 16-bit coordinates. -/
theorem C1_redim_policy_witness :
    geom (_gwm_redim demoEnv demoSt (-10) 5 20 20).gh = redimPolicy 100 100 (-10) 5 20 20 :=
  (C1_redim_policy demoEnv (by decide) (by decide) (by decide) (fun _ _ => rfl)).1
    demoSt (-10) 5 20 20 (by decide)

/-- Counterexample to C1 as stated: with 16-bit coordinates on a 100 x 100 surface the request
`(-32768, 0, -1, 10)` is stored as `(0, 0, 100, 10)`, because `width += x` wraps around to
`32767`, while the four-step policy gives `(0, 0, 1, 10)`. -/
theorem C1_redim_policy_counterexample :
    geom (_gwm_redim demoEnv demoSt (-32768) 0 (-1) 10).gh = (0, 0, 100, 10) ∧
    redimPolicy 100 100 (-32768) 0 (-1) 10 = (0, 0, 1, 10) ∧
    geom (_gwm_redim demoEnv demoSt (-32768) 0 (-1) 10).gh
      ≠ redimPolicy demoEnv.gdispGetWidth demoEnv.gdispGetHeight (-32768) 0 (-1) 10 := by
  decide

/-- C2. No-manager path, surface of size `W x H` with `W ≥ 1`, `H ≥ 1` (coordinate values),
class hooks that do not move or resize the window: for every requested geometry, after the
creation of a window and after every `gwinMove` and `gwinResize`, the rectangle of the window
lies within the surface and has at least the minimum size. With caller-supplied storage the
creation always yields such a window. -/
theorem C2_window_in_surface (E : Env) (hwm : E.GWIN_NEED_WINDOWMANAGER = false)
    (hW : 1 ≤ E.gdispGetWidth ∧ E.gdispGetWidth < coordHalf E.coordBits)
    (hH : 1 ≤ E.gdispGetHeight ∧ E.gdispGetHeight < coordHalf E.coordBits)
    (hHook : HooksKeepGeom E) :
    (∀ g pgw pInit vmt flags log s,
      _gwindowCreate E g pgw pInit vmt flags log = .handle s → InSurface E s.gh) ∧
    (∀ g pgw pInit log s,
      gwinWindowCreate E g pgw pInit log = .handle s → InSurface E s.gh) ∧
    (∀ g p o pInit log, ∃ s,
      gwinWindowCreate E g (some (p, o)) pInit log = .handle s ∧ InSurface E s.gh) ∧
    (∀ s x y, InSurface E (gwinMove E s x y).gh) ∧
    (∀ s w h, InSurface E (gwinResize E s w h).gh) := by
  have main := redim_inSurface E hW hH hHook
  have hc : ∀ g pgw pInit vmt flags log s,
      _gwindowCreate E g pgw pInit vmt flags log = .handle s → InSurface E s.gh := by
    intro g pgw pInit vmt flags log s hs
    obtain ⟨s0, rfl⟩ := create_is_redim E hwm g pgw pInit vmt flags log s hs
    exact main s0 _ _ _ _
  have hw : ∀ g pgw pInit log s,
      gwinWindowCreate E g pgw pInit log = .handle s → InSurface E s.gh := by
    intro g pgw pInit log s hs
    unfold gwinWindowCreate at hs
    split at hs
    · exact Created.noConfusion hs
    · next s1 h1 =>
      have := Created.handle.inj hs
      subst this
      exact inSurface_of_geom E (gwinSetVisible_geom E hwm hHook s1 _) (hc _ _ _ _ _ _ _ h1)
  refine ⟨hc, hw, ?_, ?_, ?_⟩
  · intro g p o pInit log
    have : ∃ s, gwinWindowCreate E g (some (p, o)) pInit log = .handle s := by
      unfold gwinWindowCreate _gwindowCreate
      simp only [hwm, Bool.false_eq_true, if_false]
      exact ⟨_, rfl⟩
    obtain ⟨s, hs⟩ := this
    exact ⟨s, hs, hw _ _ _ _ _ hs⟩
  · intro s x y
    unfold gwinMove
    simp only [hwm, Bool.false_eq_true, if_false]
    exact main s _ _ _ _
  · intro s w h
    unfold gwinResize
    simp only [hwm, Bool.false_eq_true, if_false]
    exact main s _ _ _ _

/-- Witness of C2: a move far off the 100 x 100 surface leaves the window inside it. -/
theorem C2_window_in_surface_witness : InSurface demoEnv (gwinMove demoEnv demoSt 150 (-70)).gh :=
  (C2_window_in_surface demoEnv rfl (by decide) (by decide) (fun _ _ => rfl)).2.2.2.1
    demoSt 150 (-70)

/-- C3 (as amended). No-manager path, surface at least 1 x 1: for every redim request the
window ends inside the surface with width and height at least 1, never zero or negative. On
each axis on which the request is off the surface (`x ≥ W`, or `x < 0` with `x + w ≤ 0`;
likewise `y`), for coordinate values whose sum `w + x` is a coordinate value when `x < 0`,
the extent ends as exactly 1, at the clamped origin `W-1`, respectively `0`; so a request
that is off the surface on both axes ends with width 1 and height 1; e.g. `(150,150,10,10)`
on 100 x 100 ends as `(99,99,1,1)`. -/
theorem C3_off_surface (E : Env)
    (hW : 1 ≤ E.gdispGetWidth ∧ E.gdispGetWidth < coordHalf E.coordBits)
    (hH : 1 ≤ E.gdispGetHeight ∧ E.gdispGetHeight < coordHalf E.coordBits)
    (hHook : HooksKeepGeom E) :
    (∀ s x y w h, InSurface E (_gwm_redim E s x y w h).gh) ∧
    (∀ s x y w h, IsCoord E.coordBits x → IsCoord E.coordBits w →
      (x < 0 → IsCoord E.coordBits (w + x)) → OffAxis E.gdispGetWidth x w →
        (_gwm_redim E s x y w h).gh.width = 1 ∧
        (_gwm_redim E s x y w h).gh.x = (if x < 0 then 0 else E.gdispGetWidth - 1)) ∧
    (∀ s x y w h, IsCoord E.coordBits y → IsCoord E.coordBits h →
      (y < 0 → IsCoord E.coordBits (h + y)) → OffAxis E.gdispGetHeight y h →
        (_gwm_redim E s x y w h).gh.height = 1 ∧
        (_gwm_redim E s x y w h).gh.y = (if y < 0 then 0 else E.gdispGetHeight - 1)) ∧
    (∀ s x y w h, FitsRequest E.coordBits x y w h →
      OffAxis E.gdispGetWidth x w → OffAxis E.gdispGetHeight y h →
        geom (_gwm_redim E s x y w h).gh =
          (if x < 0 then 0 else E.gdispGetWidth - 1,
           if y < 0 then 0 else E.gdispGetHeight - 1, 1, 1)) ∧
    (E.gdispGetWidth = 100 → E.gdispGetHeight = 100 → 150 < coordHalf E.coordBits →
      ∀ s, geom (_gwm_redim E s 150 150 10 10).gh = (99, 99, 1, 1)) := by
  have hg : ∀ s x y w h,
      (_gwm_redim E s x y w h).gh.x = axisPos E.coordBits E.gdispGetWidth x ∧
      (_gwm_redim E s x y w h).gh.y = axisPos E.coordBits E.gdispGetHeight y ∧
      (_gwm_redim E s x y w h).gh.width = axisLen E.coordBits E.gdispGetWidth x w ∧
      (_gwm_redim E s x y w h).gh.height = axisLen E.coordBits E.gdispGetHeight y h := by
    intro s x y w h
    have hg := redim_geom E hHook s x y w h
    rw [redimClamp_eq] at hg
    simp only [geom, Prod.mk.injEq] at hg
    exact hg
  have kx : ∀ s x y w h, IsCoord E.coordBits x → IsCoord E.coordBits w →
      (x < 0 → IsCoord E.coordBits (w + x)) → OffAxis E.gdispGetWidth x w →
        (_gwm_redim E s x y w h).gh.width = 1 ∧
        (_gwm_redim E s x y w h).gh.x = (if x < 0 then 0 else E.gdispGetWidth - 1) := by
    intro s x y w h hx hw hox hoff
    rw [(hg s x y w h).1, (hg s x y w h).2.2.1]
    exact axis_off E.coordBits E.gdispGetWidth x w hW.1 hW.2 hx hw hox hoff
  have ky : ∀ s x y w h, IsCoord E.coordBits y → IsCoord E.coordBits h →
      (y < 0 → IsCoord E.coordBits (h + y)) → OffAxis E.gdispGetHeight y h →
        (_gwm_redim E s x y w h).gh.height = 1 ∧
        (_gwm_redim E s x y w h).gh.y = (if y < 0 then 0 else E.gdispGetHeight - 1) := by
    intro s x y w h hy hh hoy hoff
    rw [(hg s x y w h).2.1, (hg s x y w h).2.2.2]
    exact axis_off E.coordBits E.gdispGetHeight y h hH.1 hH.2 hy hh hoy hoff
  have kb : ∀ s x y w h, FitsRequest E.coordBits x y w h →
      OffAxis E.gdispGetWidth x w → OffAxis E.gdispGetHeight y h →
        geom (_gwm_redim E s x y w h).gh =
          (if x < 0 then 0 else E.gdispGetWidth - 1,
           if y < 0 then 0 else E.gdispGetHeight - 1, 1, 1) := by
    intro s x y w h hfit ox oy
    obtain ⟨hx, hy, hw, hh, hox, hoy⟩ := hfit
    have a := kx s x y w h hx hw hox ox
    have b := ky s x y w h hy hh hoy oy
    simp only [geom, Prod.mk.injEq]
    exact ⟨a.2, b.2, a.1, b.1⟩
  refine ⟨redim_inSurface E hW hH hHook, kx, ky, kb, ?_⟩
  intro h1 h2 h3 s
  have f2 : FitsRequest E.coordBits 150 150 10 10 := by
    unfold FitsRequest IsCoord
    refine ⟨?_, ?_, ?_, ?_, ?_, ?_⟩ <;> omega
  rw [kb s 150 150 10 10 f2 (Or.inl (by omega)) (Or.inl (by omega)), h1, h2]
  decide

/-- Witness of C3: `(150,150,10,10)` is off the 100 x 100 surface on both axes and ends as
`(99,99,1,1)`. -/
theorem C3_off_surface_witness :
    geom (_gwm_redim demoEnv demoSt 150 150 10 10).gh = (99, 99, 1, 1) :=
  (C3_off_surface demoEnv (by decide) (by decide) (fun _ _ => rfl)).2.2.2.1
    demoSt 150 150 10 10 (by decide) (by decide) (by decide)

/-- Counterexample to C3 as stated: `(10,200,20,20)` has no point on the 100 x 100 surface,
yet it ends as `(10,99,20,1)`: the width is 20, not 1. And with 16-bit coordinates
`(-32768,-32768,-2,-2)`, off the surface on both axes, ends as `(0,0,100,100)`, because both
sums wrap around. -/
theorem C3_off_surface_counterexample :
    (OffSurface demoEnv.gdispGetWidth demoEnv.gdispGetHeight 10 200 20 20 ∧
      geom (_gwm_redim demoEnv demoSt 10 200 20 20).gh = (10, 99, 20, 1) ∧
      ¬ ((_gwm_redim demoEnv demoSt 10 200 20 20).gh.width = 1 ∧
         (_gwm_redim demoEnv demoSt 10 200 20 20).gh.height = 1)) ∧
    (OffAxis demoEnv.gdispGetWidth (-32768) (-2) ∧
      OffAxis demoEnv.gdispGetHeight (-32768) (-2) ∧
      IsCoord demoEnv.coordBits (-32768) ∧ IsCoord demoEnv.coordBits (-2) ∧
      geom (_gwm_redim demoEnv demoSt (-32768) (-32768) (-2) (-2)).gh = (0, 0, 100, 100)) := by
  decide

/-! ### Visibility -/

theorem gwinGetVisible_eq (E : Env) (s : St) :
    gwinGetVisible E s = flagSet s.gh.flags E.GWIN_FLG_VISIBLE := by
  unfold gwinGetVisible
  cases flagSet s.gh.flags E.GWIN_FLG_VISIBLE <;> rfl

theorem gwinGetEnabled_eq (E : Env) (s : St) :
    gwinGetEnabled E s = flagSet s.gh.flags E.GWIN_FLG_ENABLED := by
  unfold gwinGetEnabled
  cases flagSet s.gh.flags E.GWIN_FLG_ENABLED <;> rfl

/-- Setting the visibility to the state the window already has is the identity. -/
theorem gwinSetVisible_same (E : Env) (s : St) (v : Bool) (h : gwinGetVisible E s = v) :
    gwinSetVisible E s v = s := by
  rw [gwinGetVisible_eq] at h
  unfold gwinSetVisible
  cases v <;> simp [h]

theorem gwinClear_flags (E : Env) (hHook : HooksKeepFlags E) (s : St) :
    (gwinClear E s).gh.flags = s.gh.flags := by
  unfold gwinClear
  dsimp only
  split_ifs
  · rfl
  · exact hHook _ _
  · rfl

theorem gwm_vis_flags (E : Env) (hHook : HooksKeepFlags E) (s : St) :
    (_gwm_vis E s).gh.flags = s.gh.flags := by
  unfold _gwm_vis
  split_ifs
  · exact hHook _ _
  · exact gwinClear_flags E hHook s

/-- With callbacks that leave the flags alone, the window reports the requested visibility
after `gwinSetVisible`. -/
theorem gwinSetVisible_get (E : Env) (hV0 : E.GWIN_FLG_VISIBLE ≠ 0)
    (hV16 : E.GWIN_FLG_VISIBLE < 2 ^ 16) (hHook : HooksKeepFlags E)
    (hWm : ∀ gh, (E.wmVisible gh).flags = gh.flags) (s : St) (v : Bool) :
    gwinGetVisible E (gwinSetVisible E s v) = v := by
  by_cases hsame : gwinGetVisible E s = v
  · rw [gwinSetVisible_same E s v hsame]; exact hsame
  · rw [gwinGetVisible_eq] at hsame ⊢
    unfold gwinSetVisible
    cases v
    · have hs : flagSet s.gh.flags E.GWIN_FLG_VISIBLE = true := by
        cases hf : flagSet s.gh.flags E.GWIN_FLG_VISIBLE
        · exact absurd hf hsame
        · rfl
      simp only [hs, Bool.false_eq_true, if_false, if_true]
      split_ifs
      · simp only [wmVisible, hWm]
        exact flagSet_clear_self _ _ hV16
      · exact flagSet_clear_self _ _ hV16
    · have hs : flagSet s.gh.flags E.GWIN_FLG_VISIBLE = false := by
        cases hf : flagSet s.gh.flags E.GWIN_FLG_VISIBLE
        · rfl
        · exact absurd hf hsame
      simp only [hs, Bool.not_false, if_true]
      split_ifs
      · simp only [wmVisible, hWm]
        exact flagSet_or_self _ _ hV0
      · rw [gwm_vis_flags E hHook]
        exact flagSet_or_self _ _ hV0

/-- C4. `gwinSetVisible` is idempotent: a call that asks for the visibility the window already
has returns the state unchanged (no field of the window changes, the log of surface, hook and
manager calls does not grow); hence, when the VISIBLE mask is a non-zero 16-bit mask and the
callbacks leave the flags alone, a second identical call changes nothing, so the
redraw-or-notify effect of two consecutive calls is that of the first call only. -/
theorem C4_setVisible_idempotent (E : Env) (s : St) (v : Bool) :
    (gwinGetVisible E s = v → gwinSetVisible E s v = s) ∧
    (E.GWIN_FLG_VISIBLE ≠ 0 → E.GWIN_FLG_VISIBLE < 2 ^ 16 → HooksKeepFlags E →
      (∀ gh, (E.wmVisible gh).flags = gh.flags) →
      gwinSetVisible E (gwinSetVisible E s v) v = gwinSetVisible E s v) :=
  ⟨gwinSetVisible_same E s v, fun hV0 hV16 hHook hWm =>
    gwinSetVisible_same E _ v (gwinSetVisible_get E hV0 hV16 hHook hWm s v)⟩

/-- Witness of C4: showing the hidden demo window twice logs one clip and one fill. -/
theorem C4_setVisible_idempotent_witness :
    gwinSetVisible demoEnv (gwinSetVisible demoEnv demoSt true) true
      = gwinSetVisible demoEnv demoSt true ∧
    (gwinSetVisible demoEnv demoSt true).log
      = [.gdispSetClip 20 30 40 50, .gdispFillArea 20 30 40 50 0] :=
  ⟨(C4_setVisible_idempotent demoEnv demoSt true).2 (by decide) (by decide) (fun _ _ => rfl)
      (fun _ => rfl), by decide⟩

/-- C5. No-manager path, non-zero VISIBLE mask, hidden window: `gwinSetVisible(w, true)` sets
VISIBLE and then runs the show procedure once. With a redraw hook the calls issued are the
clip to the bounds of the window followed by the hook, and no fill; without one they are the
clip to the bounds, one fill of exactly the bounds in the background colour of the window
(the guard of `gwinClear` passes because the flag is already set), and then the after-clear
hook when the class has one. -/
theorem C5_show_procedure (E : Env) (hwm : E.GWIN_NEED_WINDOWMANAGER = false)
    (hV0 : E.GWIN_FLG_VISIBLE ≠ 0) (s : St)
    (hid : flagSet s.gh.flags E.GWIN_FLG_VISIBLE = false) :
    flagSet (s.gh.flags ||| E.GWIN_FLG_VISIBLE) E.GWIN_FLG_VISIBLE = true ∧
    (s.gh.vmt.deref.Redraw ≠ 0 →
      gwinSetVisible E s true =
        { ptr := s.ptr,
          gh := E.hook s.gh.vmt.deref.Redraw
            { s.gh with flags := s.gh.flags ||| E.GWIN_FLG_VISIBLE },
          log := s.log ++
            [.gdispSetClip s.gh.x s.gh.y s.gh.width s.gh.height,
             .vmtRedraw s.gh.vmt.deref.Redraw
               { s.gh with flags := s.gh.flags ||| E.GWIN_FLG_VISIBLE }] }) ∧
    (s.gh.vmt.deref.Redraw = 0 → s.gh.vmt.deref.AfterClear = 0 →
      gwinSetVisible E s true =
        { ptr := s.ptr,
          gh := { s.gh with flags := s.gh.flags ||| E.GWIN_FLG_VISIBLE },
          log := s.log ++
            [.gdispSetClip s.gh.x s.gh.y s.gh.width s.gh.height,
             .gdispFillArea s.gh.x s.gh.y s.gh.width s.gh.height s.gh.bgcolor] }) ∧
    (s.gh.vmt.deref.Redraw = 0 → s.gh.vmt.deref.AfterClear ≠ 0 →
      gwinSetVisible E s true =
        { ptr := s.ptr,
          gh := E.hook s.gh.vmt.deref.AfterClear
            { s.gh with flags := s.gh.flags ||| E.GWIN_FLG_VISIBLE },
          log := s.log ++
            [.gdispSetClip s.gh.x s.gh.y s.gh.width s.gh.height,
             .gdispFillArea s.gh.x s.gh.y s.gh.width s.gh.height s.gh.bgcolor,
             .vmtAfterClear s.gh.vmt.deref.AfterClear
               { s.gh with flags := s.gh.flags ||| E.GWIN_FLG_VISIBLE }] }) := by
  have hset := flagSet_or_self s.gh.flags E.GWIN_FLG_VISIBLE hV0
  refine ⟨hset, ?_, ?_, ?_⟩
  · intro hr
    simp [gwinSetVisible, hid, hwm, _gwm_vis, hr, vmtRedraw, gdispSetClip, emit]
  · intro hr ha
    simp [gwinSetVisible, hid, hwm, _gwm_vis, hr, ha, gwinClear, hset, gdispSetClip, emit]
  · intro hr ha
    simp [gwinSetVisible, hid, hwm, _gwm_vis, hr, ha, gwinClear, hset, gdispSetClip, emit,
      vmtAfterClear]

/-- Witness of C5: showing the hidden base window (no hooks) at `(20,30)`, `40 x 50`. -/
theorem C5_show_procedure_witness :
    gwinSetVisible demoEnv demoSt true =
      { ptr := 8192, gh := { demoWin with flags := 2 },
        log := [.gdispSetClip 20 30 40 50, .gdispFillArea 20 30 40 50 0] } :=
  (C5_show_procedure demoEnv rfl (by decide) demoSt rfl).2.2.1 rfl rfl

/-- C6. No-manager path, visible window: `gwinSetVisible(w, false)` only clears the VISIBLE
bits of the flags field: the log of surface and hook calls does not grow, every other field
of the window is unchanged, the flag bits outside a 16-bit VISIBLE mask are unchanged, and
the window then reports not visible. -/
theorem C6_hide_no_manager (E : Env) (hwm : E.GWIN_NEED_WINDOWMANAGER = false)
    (hV16 : E.GWIN_FLG_VISIBLE < 2 ^ 16) (s : St)
    (hvis : flagSet s.gh.flags E.GWIN_FLG_VISIBLE = true) :
    gwinSetVisible E s false =
      { s with gh := { s.gh with flags := flagClear s.gh.flags E.GWIN_FLG_VISIBLE } } ∧
    (gwinSetVisible E s false).log = s.log ∧
    gwinGetVisible E (gwinSetVisible E s false) = false ∧
    (∀ m, E.GWIN_FLG_VISIBLE &&& m = 0 → m < 2 ^ 16 →
      (gwinSetVisible E s false).gh.flags &&& m = s.gh.flags &&& m) := by
  have h1 : gwinSetVisible E s false =
      { s with gh := { s.gh with flags := flagClear s.gh.flags E.GWIN_FLG_VISIBLE } } := by
    simp [gwinSetVisible, hvis, hwm]
  refine ⟨h1, by rw [h1], ?_, ?_⟩
  · rw [h1, gwinGetVisible_eq]
    exact flagSet_clear_self _ _ hV16
  · intro m hd hm
    rw [h1]
    exact clear_and_other _ _ _ hd hm

/-- Witness of C6: hiding the visible demo window. -/
theorem C6_hide_no_manager_witness :
    gwinSetVisible demoEnv demoVisibleSt false = demoSt :=
  (C6_hide_no_manager demoEnv rfl (by decide) demoVisibleSt rfl).1

/-- C7. Manager path, VISIBLE a non-zero 16-bit mask: when the requested visibility differs
from the current one, `gwinSetVisible` appends exactly one call to the log, the manager's
`Visible`, issued on a window whose VISIBLE state is already the new value and whose other
fields are untouched; when it does not differ the state, log included, is unchanged. In
either case the facade issues no drawing-surface call. -/
theorem C7_manager_visible (E : Env) (hwm : E.GWIN_NEED_WINDOWMANAGER = true)
    (hV0 : E.GWIN_FLG_VISIBLE ≠ 0) (hV16 : E.GWIN_FLG_VISIBLE < 2 ^ 16) (s : St) (v : Bool) :
    (gwinGetVisible E s = v → gwinSetVisible E s v = s) ∧
    (gwinGetVisible E s ≠ v →
      ∃ gh, gwinSetVisible E s v = { ptr := s.ptr, gh := E.wmVisible gh,
                                     log := s.log ++ [.wmVisible gh] } ∧
        flagSet gh.flags E.GWIN_FLG_VISIBLE = v ∧
        gh = { s.gh with flags := gh.flags }) := by
  refine ⟨gwinSetVisible_same E s v, ?_⟩
  intro hne
  rw [gwinGetVisible_eq] at hne
  cases v
  · have hs : flagSet s.gh.flags E.GWIN_FLG_VISIBLE = true := by
      cases hf : flagSet s.gh.flags E.GWIN_FLG_VISIBLE
      · exact absurd hf hne
      · rfl
    refine ⟨{ s.gh with flags := flagClear s.gh.flags E.GWIN_FLG_VISIBLE }, ?_, ?_, rfl⟩
    · simp [gwinSetVisible, hs, hwm, wmVisible]
    · exact flagSet_clear_self _ _ hV16
  · have hs : flagSet s.gh.flags E.GWIN_FLG_VISIBLE = false := by
      cases hf : flagSet s.gh.flags E.GWIN_FLG_VISIBLE
      · rfl
      · exact absurd hf hne
    refine ⟨{ s.gh with flags := s.gh.flags ||| E.GWIN_FLG_VISIBLE }, ?_, ?_, rfl⟩
    · simp [gwinSetVisible, hs, hwm, wmVisible]
    · exact flagSet_or_self _ _ hV0

/-- Witness of C7: with a manager, showing the hidden demo window logs one `Visible` call. -/
theorem C7_manager_visible_witness :
    ∃ gh, gwinSetVisible demoEnvWM demoSt true =
        { ptr := demoSt.ptr, gh := demoEnvWM.wmVisible gh,
          log := demoSt.log ++ [.wmVisible gh] } ∧
      flagSet gh.flags demoEnvWM.GWIN_FLG_VISIBLE = true ∧
      gh = { demoSt.gh with flags := gh.flags } :=
  (C7_manager_visible demoEnvWM rfl (by decide) (by decide) demoSt true).2 (by decide)

/-- C8. With or without a manager, ENABLED and VISIBLE disjoint non-zero 16-bit masks:
`gwinSetEnabled(w, e)` returns the state unchanged (nothing drawn) when the ENABLED state
already is `e`. On a transition, in either direction, it changes the flags field only, so
that ENABLED reads `e` and the bits outside the ENABLED mask are as before; if the window is
VISIBLE and its class has a redraw hook it then issues exactly the clip to the bounds of the
window followed by one call of the redraw hook, and otherwise it issues no call. No
window-manager operation occurs among the calls. -/
theorem C8_setEnabled (E : Env) (hE0 : E.GWIN_FLG_ENABLED ≠ 0)
    (hE16 : E.GWIN_FLG_ENABLED < 2 ^ 16)
    (hd : E.GWIN_FLG_ENABLED &&& E.GWIN_FLG_VISIBLE = 0)
    (hV16 : E.GWIN_FLG_VISIBLE < 2 ^ 16) (s : St) (e : Bool) :
    (gwinGetEnabled E s = e → gwinSetEnabled E s e = s) ∧
    (gwinGetEnabled E s ≠ e →
      ∃ gh, gh = { s.gh with flags := gh.flags } ∧
        flagSet gh.flags E.GWIN_FLG_ENABLED = e ∧
        (∀ m, E.GWIN_FLG_ENABLED &&& m = 0 → m < 2 ^ 16 →
          gh.flags &&& m = s.gh.flags &&& m) ∧
        (flagSet s.gh.flags E.GWIN_FLG_VISIBLE = true ∧ s.gh.vmt.deref.Redraw ≠ 0 →
          gwinSetEnabled E s e =
            { ptr := s.ptr, gh := E.hook s.gh.vmt.deref.Redraw gh,
              log := s.log ++ [.gdispSetClip s.gh.x s.gh.y s.gh.width s.gh.height,
                               .vmtRedraw s.gh.vmt.deref.Redraw gh] }) ∧
        (¬ (flagSet s.gh.flags E.GWIN_FLG_VISIBLE = true ∧ s.gh.vmt.deref.Redraw ≠ 0) →
          gwinSetEnabled E s e = { s with gh := gh })) := by
  constructor
  · intro h
    rw [gwinGetEnabled_eq] at h
    unfold gwinSetEnabled
    cases e <;> simp [h]
  · intro hne
    rw [gwinGetEnabled_eq] at hne
    cases e
    · have hs : flagSet s.gh.flags E.GWIN_FLG_ENABLED = true := by
        cases hf : flagSet s.gh.flags E.GWIN_FLG_ENABLED
        · exact absurd hf hne
        · rfl
      have hv := flagSet_clear_other s.gh.flags _ _ hd hV16
      refine ⟨{ s.gh with flags := flagClear s.gh.flags E.GWIN_FLG_ENABLED }, rfl,
        flagSet_clear_self _ _ hE16, fun m hm hm16 => clear_and_other _ _ _ hm hm16, ?_, ?_⟩
      · intro hc
        simp [gwinSetEnabled, hs, hv, hc.1, hc.2, vmtRedraw, gdispSetClip, emit]
      · intro hc
        unfold gwinSetEnabled
        simp only [hs, Bool.false_eq_true, if_false, if_true, hv]
        rw [if_neg hc]
    · have hs : flagSet s.gh.flags E.GWIN_FLG_ENABLED = false := by
        cases hf : flagSet s.gh.flags E.GWIN_FLG_ENABLED
        · rfl
        · exact absurd hf hne
      have hv := flagSet_or_other s.gh.flags _ _ hd
      refine ⟨{ s.gh with flags := s.gh.flags ||| E.GWIN_FLG_ENABLED }, rfl,
        flagSet_or_self _ _ hE0, fun m hm _ => or_and_other _ _ _ hm, ?_, ?_⟩
      · intro hc
        simp [gwinSetEnabled, hs, hv, hc.1, hc.2, vmtRedraw, gdispSetClip, emit]
      · intro hc
        unfold gwinSetEnabled
        simp only [hs, Bool.not_false, if_true, hv]
        rw [if_neg hc]

/-- Witness of C8: enabling a visible window of a class with a redraw hook. -/
theorem C8_setEnabled_witness :
    ∃ gh, gh = { demoWidgetSt.gh with flags := gh.flags } ∧
      flagSet gh.flags demoEnv.GWIN_FLG_ENABLED = true ∧
      (∀ m, demoEnv.GWIN_FLG_ENABLED &&& m = 0 → m < 2 ^ 16 →
        gh.flags &&& m = demoWidgetSt.gh.flags &&& m) ∧
      (flagSet demoWidgetSt.gh.flags demoEnv.GWIN_FLG_VISIBLE = true ∧
          demoWidgetSt.gh.vmt.deref.Redraw ≠ 0 →
        gwinSetEnabled demoEnv demoWidgetSt true =
          { ptr := demoWidgetSt.ptr, gh := demoEnv.hook demoWidgetSt.gh.vmt.deref.Redraw gh,
            log := demoWidgetSt.log ++
              [.gdispSetClip demoWidgetSt.gh.x demoWidgetSt.gh.y demoWidgetSt.gh.width
                 demoWidgetSt.gh.height,
               .vmtRedraw demoWidgetSt.gh.vmt.deref.Redraw gh] }) ∧
      (¬ (flagSet demoWidgetSt.gh.flags demoEnv.GWIN_FLG_VISIBLE = true ∧
          demoWidgetSt.gh.vmt.deref.Redraw ≠ 0) →
        gwinSetEnabled demoEnv demoWidgetSt true = { demoWidgetSt with gh := gh }) :=
  (C8_setEnabled demoEnv (by decide) (by decide) (by decide) (by decide) demoWidgetSt true).2
    (by decide)

/-- C9. Visibility gating: on a window whose VISIBLE flag is clear every drawing entry point
of the facade, for all arguments, returns the state unchanged: the log of surface calls and
hook calls does not grow (not even by a clip-set) and the window is unchanged. -/
theorem C9_hidden_draws_nothing (E : Env) (g : Globals) (s : St)
    (hid : flagSet s.gh.flags E.GWIN_FLG_VISIBLE = false) :
    gwinClear E s = s ∧
    (∀ x y, gwinDrawPixel E s x y = s) ∧
    (∀ x0 y0 x1 y1, gwinDrawLine E s x0 y0 x1 y1 = s) ∧
    (∀ x y cx cy, gwinDrawBox E s x y cx cy = s) ∧
    (∀ x y cx cy, gwinFillArea E s x y cx cy = s) ∧
    (∀ x y cx cy srcx srcy srccx buffer,
      gwinBlitArea E s x y cx cy srcx srcy srccx buffer = s) ∧
    (∀ x y radius, gwinDrawCircle E s x y radius = s) ∧
    (∀ x y radius, gwinFillCircle E s x y radius = s) ∧
    (∀ x y a b, gwinDrawEllipse E s x y a b = s) ∧
    (∀ x y a b, gwinFillEllipse E s x y a b = s) ∧
    (∀ x y radius sa ea, gwinDrawArc E s x y radius sa ea = s) ∧
    (∀ x y radius sa ea, gwinFillArc E s x y radius sa ea = s) ∧
    (∀ x y, (gwinGetPixelColor E g s x y).2 = s) ∧
    (∀ x y c, gwinDrawChar E s x y c = s) ∧
    (∀ x y c, gwinFillChar E s x y c = s) ∧
    (∀ x y str, gwinDrawString E s x y str = s) ∧
    (∀ x y str, gwinFillString E s x y str = s) ∧
    (∀ x y cx cy str justify, gwinDrawStringBox E s x y cx cy str justify = s) ∧
    (∀ x y cx cy str justify, gwinFillStringBox E s x y cx cy str justify = s) ∧
    (∀ tx ty pntarray cnt, gwinDrawPoly E s tx ty pntarray cnt = s) ∧
    (∀ tx ty pntarray cnt, gwinFillConvexPoly E s tx ty pntarray cnt = s) ∧
    (∀ img x y cx cy sx sy, (gwinDrawImage E s img x y cx cy sx sy).2 = s) := by
  refine ⟨?_, ?_, ?_, ?_, ?_, ?_, ?_, ?_, ?_, ?_, ?_, ?_, ?_, ?_, ?_, ?_, ?_, ?_, ?_, ?_, ?_, ?_⟩
  · simp [gwinClear, hid]
  · intros; simp [gwinDrawPixel, hid]
  · intros; simp [gwinDrawLine, hid]
  · intros; simp [gwinDrawBox, hid]
  · intros; simp [gwinFillArea, hid]
  · intros; simp [gwinBlitArea, hid]
  · intros; simp [gwinDrawCircle, hid]
  · intros; simp [gwinFillCircle, hid]
  · intros; simp [gwinDrawEllipse, hid]
  · intros; simp [gwinFillEllipse, hid]
  · intros; simp [gwinDrawArc, hid]
  · intros; simp [gwinFillArc, hid]
  · intros; simp [gwinGetPixelColor, hid]
  · intros; simp [gwinDrawChar, hid]
  · intros; simp [gwinFillChar, hid]
  · intros; simp [gwinDrawString, hid]
  · intros; simp [gwinFillString, hid]
  · intros; simp [gwinDrawStringBox, hid]
  · intros; simp [gwinFillStringBox, hid]
  · intros; simp [gwinDrawPoly, hid]
  · intros; simp [gwinFillConvexPoly, hid]
  · intros; simp [gwinDrawImage, hid]

/-- Witness of C9: a pixel drawn on the hidden demo window leaves the state as it was. -/
theorem C9_hidden_draws_nothing_witness : gwinDrawPixel demoEnv demoSt 5 5 = demoSt :=
  (C9_hidden_draws_nothing demoEnv demoGlobals demoSt rfl).2.1 5 5

/-- C10 (as amended). On a hidden window `gwinGetPixelColor` returns the current process-wide
default background colour, that is the value last given to `gwinSetDefaultBgColor`, whatever
the background colour of the window is, and the state with its log is unchanged (the surface
is not called). On a visible window it issues the clip to the bounds of the window, then the
pixel read at `(window.x + x, window.y + y)` converted to the coordinate type, and returns
what the surface returns there; when both sums fit the coordinate type the position is
`(window.x + x, window.y + y)` itself. -/
theorem C10_getPixelColor (E : Env) (g : Globals) (s : St) (x y : Int) :
    (flagSet s.gh.flags E.GWIN_FLG_VISIBLE = false →
      gwinGetPixelColor E g s x y = (gwinGetDefaultBgColor g, s) ∧
      (∀ c, gwinGetPixelColor E (gwinSetDefaultBgColor g c) s x y = (c, s)) ∧
      (∀ c bg, gwinGetPixelColor E (gwinSetDefaultBgColor g c) (gwinSetBgColor s bg) x y
        = (c, gwinSetBgColor s bg))) ∧
    (flagSet s.gh.flags E.GWIN_FLG_VISIBLE = true →
      gwinGetPixelColor E g s x y =
        (E.gdispGetPixelColor (toCoord E.coordBits (s.gh.x + x))
           (toCoord E.coordBits (s.gh.y + y)),
         { s with log := s.log ++ [.gdispSetClip s.gh.x s.gh.y s.gh.width s.gh.height,
             .gdispGetPixelColor (toCoord E.coordBits (s.gh.x + x))
               (toCoord E.coordBits (s.gh.y + y))] })) ∧
    (flagSet s.gh.flags E.GWIN_FLG_VISIBLE = true →
      IsCoord E.coordBits (s.gh.x + x) → IsCoord E.coordBits (s.gh.y + y) →
      gwinGetPixelColor E g s x y =
        (E.gdispGetPixelColor (s.gh.x + x) (s.gh.y + y),
         { s with log := s.log ++ [.gdispSetClip s.gh.x s.gh.y s.gh.width s.gh.height,
                                   .gdispGetPixelColor (s.gh.x + x) (s.gh.y + y)] })) := by
  refine ⟨?_, ?_, ?_⟩
  · intro hid
    refine ⟨?_, ?_, ?_⟩
    · simp [gwinGetPixelColor, hid, gwinGetDefaultBgColor]
    · intro c
      simp [gwinGetPixelColor, hid, gwinSetDefaultBgColor]
    · intro c bg
      simp [gwinGetPixelColor, hid, gwinSetDefaultBgColor, gwinSetBgColor]
  · intro hvis
    simp [gwinGetPixelColor, hvis, gdispSetClip, emit]
  · intro hvis hx hy
    simp [gwinGetPixelColor, hvis, gdispSetClip, emit, toCoord_eq_self hx.1 hx.2,
      toCoord_eq_self hy.1 hy.2]

/-- Witness of C10: reading a pixel through the hidden demo window after the default
background colour was set to `9` returns `9`; through the visible one at `(20, 30)` the read
at `(5, 5)` is the read of the surface at `(25, 35)`. -/
theorem C10_getPixelColor_witness :
    gwinGetPixelColor demoEnv (gwinSetDefaultBgColor demoGlobals 9) demoSt 5 5 = (9, demoSt) ∧
    gwinGetPixelColor demoEnv demoGlobals demoVisibleSt 5 5 =
      (demoEnv.gdispGetPixelColor (demoVisibleSt.gh.x + 5) (demoVisibleSt.gh.y + 5),
       { demoVisibleSt with
         log := demoVisibleSt.log ++
           [.gdispSetClip demoVisibleSt.gh.x demoVisibleSt.gh.y demoVisibleSt.gh.width
              demoVisibleSt.gh.height,
            .gdispGetPixelColor (demoVisibleSt.gh.x + 5) (demoVisibleSt.gh.y + 5)] }) :=
  ⟨((C10_getPixelColor demoEnv demoGlobals demoSt 5 5).1 rfl).2.1 9,
   (C10_getPixelColor demoEnv demoGlobals demoVisibleSt 5 5).2.2 rfl (by decide) (by decide)⟩

/-- Counterexample to C10 as stated: with 16-bit coordinates the read at `x = 32767` through
the visible window at `(20, 30)` reaches the surface at column `-32749`, the sum `32787`
converted to the coordinate type; on a surface that holds `2` at column `32787` and `1`
elsewhere the routine returns `1`, not the pixel at `(window.x + x, window.y + y)`. -/
theorem C10_getPixelColor_counterexample :
    flagSet demoVisibleSt.gh.flags demoEnvProbe.GWIN_FLG_VISIBLE = true ∧
    IsCoord demoEnvProbe.coordBits 32767 ∧
    (gwinGetPixelColor demoEnvProbe demoGlobals demoVisibleSt 32767 0).1 = 1 ∧
    demoEnvProbe.gdispGetPixelColor (demoVisibleSt.gh.x + 32767) (demoVisibleSt.gh.y + 0) = 2 ∧
    (gwinGetPixelColor demoEnvProbe demoGlobals demoVisibleSt 32767 0).2.log =
      [.gdispSetClip 20 30 40 50, .gdispGetPixelColor (-32749) 30] := by
  decide

/-! ### Construction and destruction -/

theorem create_eq (E : Env) (g : Globals) (pgw : Option (Nat × GWindowObject))
    (pInit : GWindowInit) (vmt : VmtPtr) (flags : Nat) (log : List Call) :
    _gwindowCreate E g pgw pInit vmt flags log =
      match createBase E g pgw vmt flags log with
      | none => .null (log ++ [.gfxAlloc vmt.deref.size])
      | some s => createRegister E pInit s := by
  unfold _gwindowCreate createBase createRegister
  rcases pgw with _ | ⟨p, o⟩
  · rcases hal : E.gfxAlloc vmt.deref.size with _ | ⟨p, o⟩
    · rfl
    · dsimp only [initObj]
      split_ifs <;> simp [List.append_assoc]
  · dsimp only [initObj]
    split_ifs <;> simp [List.append_assoc]

theorem frees_append (l1 l2 : List Call) : frees (l1 ++ l2) = frees l1 ++ frees l2 := by
  induction l1 with
  | nil => rfl
  | cons c l ih => cases c <;> simp [frees, ih]

theorem redimClamp_flags (E : Env) (gh : GWindowObject) (x y w h : Int) :
    (redimClamp E gh x y w h).flags = gh.flags := rfl

theorem redimClamp_style (E : Env) (gh : GWindowObject) (x y w h : Int) :
    classAndStyle (redimClamp E gh x y w h) = classAndStyle gh := rfl

/-- What `_gwm_redim` leaves alone: the handle, the frees of the log and, with hooks that
keep it, every observation that does not depend on the rectangle. -/
theorem redim_keeps {α : Type} (E : Env) (f : GWindowObject → α) (hH : HooksKeep E f)
    (hc : ∀ gh x y w h, f (redimClamp E gh x y w h) = f gh) (s : St) (x y w h : Int) :
    f (_gwm_redim E s x y w h).gh = f s.gh ∧ (_gwm_redim E s x y w h).ptr = s.ptr ∧
      frees (_gwm_redim E s x y w h).log = frees s.log := by
  unfold _gwm_redim
  dsimp only
  split_ifs
  · refine ⟨?_, rfl, ?_⟩
    · simp only [vmtRedraw, gdispSetClip, emit]
      rw [hH, hc]
    · simp [vmtRedraw, gdispSetClip, emit, frees_append, frees]
  · exact ⟨hc _ _ _ _ _, rfl, rfl⟩
  · exact ⟨hc _ _ _ _ _, rfl, rfl⟩

/-- A handle returned by `_gwindowCreate` comes from a successful first half followed by a
successful registration. -/
theorem create_handle (E : Env) (g : Globals) (pgw : Option (Nat × GWindowObject))
    (pInit : GWindowInit) (vmt : VmtPtr) (flags : Nat) (log : List Call) (s : St)
    (h : _gwindowCreate E g pgw pInit vmt flags log = .handle s) :
    ∃ s0, createBase E g pgw vmt flags log = some s0 ∧ createRegister E pInit s0 = .handle s := by
  rw [create_eq] at h
  rcases hb : createBase E g pgw vmt flags log with _ | s0
  · rw [hb] at h
    exact Created.noConfusion h
  · rw [hb] at h
    exact ⟨s0, rfl, h⟩

theorem register_keeps {α : Type} (E : Env) (f : GWindowObject → α) (hH : HooksKeep E f)
    (hA : ∀ gh pInit, f (E.wmAdd gh pInit).2 = f gh)
    (hc : ∀ gh x y w h, f (redimClamp E gh x y w h) = f gh) (pInit : GWindowInit) (s0 s : St)
    (h : createRegister E pInit s0 = .handle s) :
    f s.gh = f s0.gh ∧ s.ptr = s0.ptr ∧ frees s.log = frees s0.log := by
  unfold createRegister at h
  split_ifs at h
  · have := Created.handle.inj h
    subst this
    exact ⟨hA _ _, rfl, by simp [frees_append, frees]⟩
  · have := Created.handle.inj h
    subst this
    exact redim_keeps E f hH hc s0 _ _ _ _

theorem createBase_some (E : Env) (g : Globals) (p : Nat) (o : GWindowObject) (vmt : VmtPtr)
    (flags : Nat) (log : List Call) :
    createBase E g (some (p, o)) vmt flags log
      = some { ptr := p, gh := initObj g o vmt flags, log := log } := rfl

theorem createBase_none (E : Env) (g : Globals) (vmt : VmtPtr) (flags : Nat) (log : List Call)
    (s0 : St) (h : createBase E g none vmt flags log = some s0) :
    ∃ o, E.gfxAlloc vmt.deref.size = some (s0.ptr, o) ∧
      s0 = { ptr := s0.ptr, gh := initObj g o vmt (flags ||| E.GWIN_FLG_DYNAMIC),
             log := log ++ [.gfxAlloc vmt.deref.size] } := by
  unfold createBase at h
  rcases hal : E.gfxAlloc vmt.deref.size with _ | ⟨p, o⟩
  · simp [hal] at h
  · simp only [hal, Option.some.injEq] at h
    subst h
    exact ⟨o, rfl, rfl⟩

/-! ### Claims on drawing -/

/-- C11. Coordinate translation: on a visible window at `(wx, wy)` of size `(ww, wh)` and for
every `(x, y)` such that the sums `wx + x` and `wy + y` fit the coordinate type,
`gwinDrawPixel(w, x, y)` appends exactly two calls to the log, in this order: the clip to
exactly `(wx, wy, ww, wh)`, then one pixel draw at `(wx + x, wy + y)` in the current
foreground colour of the window, which is the value last stored by `gwinSetColor` whatever
the process default is; the window is unchanged. The conversion of the sums to `coord_t`
leaves them as they are. E.g. `(5,5)` on a window at `(20,30)` draws at `(25,35)`. -/
theorem C11_drawPixel_translation (E : Env) (s : St) (x y : Int)
    (hvis : flagSet s.gh.flags E.GWIN_FLG_VISIBLE = true)
    (hx : IsCoord E.coordBits (s.gh.x + x)) (hy : IsCoord E.coordBits (s.gh.y + y)) :
    gwinDrawPixel E s x y =
      { s with log := s.log ++ [.gdispSetClip s.gh.x s.gh.y s.gh.width s.gh.height,
                                .gdispDrawPixel (s.gh.x + x) (s.gh.y + y) s.gh.color] } ∧
    (∀ clr, gwinDrawPixel E (gwinSetColor s clr) x y =
      { gwinSetColor s clr with
        log := s.log ++ [.gdispSetClip s.gh.x s.gh.y s.gh.width s.gh.height,
                         .gdispDrawPixel (s.gh.x + x) (s.gh.y + y) clr] }) ∧
    (toCoord E.coordBits (s.gh.x + x) = s.gh.x + x ∧
      toCoord E.coordBits (s.gh.y + y) = s.gh.y + y) ∧
    (s.gh.x = 20 → s.gh.y = 30 → x = 5 → y = 5 →
      (gwinDrawPixel E s x y).log =
        s.log ++ [.gdispSetClip 20 30 s.gh.width s.gh.height,
                  .gdispDrawPixel 25 35 s.gh.color]) := by
  have tx := toCoord_eq_self hx.1 hx.2
  have ty := toCoord_eq_self hy.1 hy.2
  have h1 : gwinDrawPixel E s x y =
      { s with log := s.log ++ [.gdispSetClip s.gh.x s.gh.y s.gh.width s.gh.height,
                                .gdispDrawPixel (s.gh.x + x) (s.gh.y + y) s.gh.color] } := by
    simp [gwinDrawPixel, hvis, gdispSetClip, emit, tx, ty]
  refine ⟨h1, ?_, ⟨tx, ty⟩, ?_⟩
  · intro clr
    simp [gwinDrawPixel, gwinSetColor, hvis, gdispSetClip, emit, tx, ty]
  · intro ex ey e5 e5'
    rw [h1, ex, ey, e5, e5']
    rfl

/-- Witness of C11: a pixel at `(5,5)` of the visible demo window at `(20,30)`. -/
theorem C11_drawPixel_translation_witness :
    gwinDrawPixel demoEnv demoVisibleSt 5 5 =
      { demoVisibleSt with log := [.gdispSetClip 20 30 40 50, .gdispDrawPixel 25 35 1] } :=
  (C11_drawPixel_translation demoEnv demoVisibleSt 5 5 rfl (by decide) (by decide)).1

/-- C12. On a window with no font (null font), visible or not, each of the six text
primitives returns the state unchanged: no call is issued and nothing changes. On a visible
window, once a non-null font has been set with `gwinSetFont`, the same call appends exactly
the clip to the bounds of the window and the text primitive of the surface with that font,
at the translated position (the sum converted to the coordinate type), in the colours of the
window. -/
theorem C12_text_needs_font (E : Env) (s : St) :
    (s.gh.font = 0 →
      (∀ x y c, gwinDrawChar E s x y c = s) ∧
      (∀ x y c, gwinFillChar E s x y c = s) ∧
      (∀ x y str, gwinDrawString E s x y str = s) ∧
      (∀ x y str, gwinFillString E s x y str = s) ∧
      (∀ x y cx cy str justify, gwinDrawStringBox E s x y cx cy str justify = s) ∧
      (∀ x y cx cy str justify, gwinFillStringBox E s x y cx cy str justify = s)) ∧
    (flagSet s.gh.flags E.GWIN_FLG_VISIBLE = true → ∀ font, font ≠ 0 →
      (∀ x y c, gwinDrawChar E (gwinSetFont s font) x y c =
        { gwinSetFont s font with
          log := s.log ++ [.gdispSetClip s.gh.x s.gh.y s.gh.width s.gh.height,
            .gdispDrawChar (toCoord E.coordBits (s.gh.x + x))
              (toCoord E.coordBits (s.gh.y + y)) c font s.gh.color] }) ∧
      (∀ x y c, gwinFillChar E (gwinSetFont s font) x y c =
        { gwinSetFont s font with
          log := s.log ++ [.gdispSetClip s.gh.x s.gh.y s.gh.width s.gh.height,
            .gdispFillChar (toCoord E.coordBits (s.gh.x + x))
              (toCoord E.coordBits (s.gh.y + y)) c font s.gh.color s.gh.bgcolor] }) ∧
      (∀ x y str, gwinDrawString E (gwinSetFont s font) x y str =
        { gwinSetFont s font with
          log := s.log ++ [.gdispSetClip s.gh.x s.gh.y s.gh.width s.gh.height,
            .gdispDrawString (toCoord E.coordBits (s.gh.x + x))
              (toCoord E.coordBits (s.gh.y + y)) str font s.gh.color] }) ∧
      (∀ x y str, gwinFillString E (gwinSetFont s font) x y str =
        { gwinSetFont s font with
          log := s.log ++ [.gdispSetClip s.gh.x s.gh.y s.gh.width s.gh.height,
            .gdispFillString (toCoord E.coordBits (s.gh.x + x))
              (toCoord E.coordBits (s.gh.y + y)) str font s.gh.color s.gh.bgcolor] }) ∧
      (∀ x y cx cy str justify, gwinDrawStringBox E (gwinSetFont s font) x y cx cy str justify =
        { gwinSetFont s font with
          log := s.log ++ [.gdispSetClip s.gh.x s.gh.y s.gh.width s.gh.height,
            .gdispDrawStringBox (toCoord E.coordBits (s.gh.x + x))
              (toCoord E.coordBits (s.gh.y + y)) cx cy str font s.gh.color justify] }) ∧
      (∀ x y cx cy str justify, gwinFillStringBox E (gwinSetFont s font) x y cx cy str justify =
        { gwinSetFont s font with
          log := s.log ++ [.gdispSetClip s.gh.x s.gh.y s.gh.width s.gh.height,
            .gdispFillStringBox (toCoord E.coordBits (s.gh.x + x))
              (toCoord E.coordBits (s.gh.y + y)) cx cy str font s.gh.color
              s.gh.bgcolor justify] })) := by
  constructor
  · intro hf
    refine ⟨?_, ?_, ?_, ?_, ?_, ?_⟩
    · intros; simp [gwinDrawChar, hf]
    · intros; simp [gwinFillChar, hf]
    · intros; simp [gwinDrawString, hf]
    · intros; simp [gwinFillString, hf]
    · intros; simp [gwinDrawStringBox, hf]
    · intros; simp [gwinFillStringBox, hf]
  · intro hvis font hfont
    refine ⟨?_, ?_, ?_, ?_, ?_, ?_⟩
    · intros; simp [gwinDrawChar, gwinSetFont, hvis, hfont, gdispSetClip, emit]
    · intros; simp [gwinFillChar, gwinSetFont, hvis, hfont, gdispSetClip, emit]
    · intros; simp [gwinDrawString, gwinSetFont, hvis, hfont, gdispSetClip, emit]
    · intros; simp [gwinFillString, gwinSetFont, hvis, hfont, gdispSetClip, emit]
    · intros; simp [gwinDrawStringBox, gwinSetFont, hvis, hfont, gdispSetClip, emit]
    · intros; simp [gwinFillStringBox, gwinSetFont, hvis, hfont, gdispSetClip, emit]

/-- Witness of C12: the visible demo window has no font, so a string draws nothing; after
`gwinSetFont` with font `3` the same call issues the clip and the string primitive. -/
theorem C12_text_needs_font_witness :
    gwinDrawString demoEnv demoVisibleSt 2 3 "ok" = demoVisibleSt ∧
    gwinDrawString demoEnv (gwinSetFont demoVisibleSt 3) 2 3 "ok" =
      { gwinSetFont demoVisibleSt 3 with
        log := demoVisibleSt.log ++
          [.gdispSetClip demoVisibleSt.gh.x demoVisibleSt.gh.y demoVisibleSt.gh.width
             demoVisibleSt.gh.height,
           .gdispDrawString 22 33 "ok" 3
             demoVisibleSt.gh.color] } :=
  ⟨((C12_text_needs_font demoEnv demoVisibleSt).1 rfl).2.2.1 2 3 "ok",
   ((C12_text_needs_font demoEnv demoVisibleSt).2 rfl 3 (by decide)).2.2.1 2 3 "ok"⟩

/-! ### Claims on ownership of the storage -/

theorem gwinClear_ptr_frees (E : Env) (s : St) :
    (gwinClear E s).ptr = s.ptr ∧ frees (gwinClear E s).log = frees s.log := by
  unfold gwinClear
  dsimp only
  split_ifs <;> simp [vmtAfterClear, gdispSetClip, emit, frees_append, frees]

theorem gwm_vis_ptr_frees (E : Env) (s : St) :
    (_gwm_vis E s).ptr = s.ptr ∧ frees (_gwm_vis E s).log = frees s.log := by
  unfold _gwm_vis
  split_ifs
  · simp [vmtRedraw, gdispSetClip, emit, frees_append, frees]
  · exact gwinClear_ptr_frees E s

theorem gwinSetVisible_ptr_frees (E : Env) (s : St) (v : Bool) :
    (gwinSetVisible E s v).ptr = s.ptr ∧ frees (gwinSetVisible E s v).log = frees s.log := by
  unfold gwinSetVisible
  split_ifs
  · simp [wmVisible, frees_append, frees]
  · exact gwm_vis_ptr_frees E _
  · exact ⟨rfl, rfl⟩
  · simp [wmVisible, frees_append, frees]
  · exact ⟨rfl, rfl⟩
  · exact ⟨rfl, rfl⟩

/-- With callbacks that keep the flags and a VISIBLE mask disjoint from the 16-bit mask `m`,
`gwinSetVisible` does not change the bits of `m`. -/
theorem gwinSetVisible_other_flag (E : Env) (hHook : HooksKeepFlags E)
    (hWm : ∀ gh, (E.wmVisible gh).flags = gh.flags) (m : Nat)
    (hd : E.GWIN_FLG_VISIBLE &&& m = 0) (hm : m < 2 ^ 16) (s : St) (v : Bool) :
    flagSet (gwinSetVisible E s v).gh.flags m = flagSet s.gh.flags m := by
  unfold gwinSetVisible
  split_ifs
  · simp only [wmVisible, hWm]
    exact flagSet_or_other _ _ _ hd
  · rw [gwm_vis_flags E hHook]
    exact flagSet_or_other _ _ _ hd
  · rfl
  · simp only [wmVisible, hWm]
    exact flagSet_clear_other _ _ _ hd hm
  · exact flagSet_clear_other _ _ _ hd hm
  · rfl

/-- With callbacks that keep the flags, `gwinDestroy` frees the storage of the window, once,
exactly when its DYNAMIC flag is set, and frees nothing else. -/
theorem gwinDestroy_frees (E : Env) (hHook : HooksKeepFlags E)
    (hWm : ∀ gh, (E.wmDelete gh).flags = gh.flags) (s : St) :
    frees (gwinDestroy E s).log
      = frees s.log ++ (if flagSet s.gh.flags E.GWIN_FLG_DYNAMIC then [s.ptr] else []) := by
  unfold gwinDestroy
  by_cases hwm : E.GWIN_NEED_WINDOWMANAGER = true <;>
  by_cases hd : (wmDelete E s).gh.vmt.deref.Destroy ≠ 0 <;>
  by_cases hd' : s.gh.vmt.deref.Destroy ≠ 0 <;>
  by_cases hf : flagSet s.gh.flags E.GWIN_FLG_DYNAMIC = true <;>
  simp [hwm, hd, hd', hf, wmDelete, vmtDestroy, emit, frees_append, frees, hWm, hHook _ _] <;>
  simp_all [wmDelete, hWm, hHook _ _, frees_append, frees]

/-- A handle returned by `gwinWindowCreate`, with callbacks that keep the flags and a VISIBLE
mask disjoint from the 16-bit DYNAMIC mask: the handle is the storage of the first half of
the construction, no free has been issued, and DYNAMIC is as the first half set it. -/
theorem windowCreate_handle (E : Env) (hD16 : E.GWIN_FLG_DYNAMIC < 2 ^ 16)
    (hVD : E.GWIN_FLG_VISIBLE &&& E.GWIN_FLG_DYNAMIC = 0) (hHook : HooksKeepFlags E)
    (hMgr : ManagerKeeps E GWindowObject.flags) (g : Globals)
    (pgw : Option (Nat × GWindowObject)) (pInit : GWindowInit) (log : List Call) (s : St)
    (h : gwinWindowCreate E g pgw pInit log = .handle s) :
    ∃ s0, createBase E g pgw ⟨E.addrBasegwinVMT, basegwinVMT E⟩ 0 log = some s0 ∧
      s.ptr = s0.ptr ∧ frees s.log = frees log ∧
      flagSet s.gh.flags E.GWIN_FLG_DYNAMIC = flagSet s0.gh.flags E.GWIN_FLG_DYNAMIC := by
  unfold gwinWindowCreate at h
  split at h
  · exact Created.noConfusion h
  · next s1 h1 =>
    have := Created.handle.inj h
    subst this
    obtain ⟨s0, hb, hr⟩ := create_handle E g pgw pInit _ 0 log s1 h1
    have k := register_keeps E GWindowObject.flags hHook hMgr.1 (fun _ _ _ _ _ => rfl)
      pInit s0 s1 hr
    have v := gwinSetVisible_ptr_frees E s1 pInit.«show»
    have f := gwinSetVisible_other_flag E hHook hMgr.2.1 _ hVD hD16 s1 pInit.«show»
    refine ⟨s0, hb, by rw [v.1, k.2.1], ?_, by rw [f, k.1]⟩
    rw [v.2, k.2.2]
    rcases pgw with _ | ⟨p, o⟩
    · obtain ⟨o, -, e⟩ := createBase_none E g _ 0 log s0 hb
      rw [e]
      simp [frees_append, frees]
    · rw [createBase_some] at hb
      rw [← Option.some.inj hb]

/-- C13. Ownership correctness, for a non-zero 16-bit DYNAMIC mask disjoint from VISIBLE and
callbacks (class hooks, manager operations) that leave the flags alone: for every
initialisation descriptor, a window constructed by `gwinWindowCreate` in caller-supplied
storage and then destroyed by `gwinDestroy` causes no call of `gfxFree` at all; a window
successfully constructed with null storage and then destroyed causes exactly one call of
`gfxFree`, on the block that the construction obtained from `gfxAlloc`. The constructions
do succeed: in the no-manager path always with caller storage, and with null storage
whenever the allocation succeeds. -/
theorem C13_ownership (E : Env) (hD0 : E.GWIN_FLG_DYNAMIC ≠ 0)
    (hD16 : E.GWIN_FLG_DYNAMIC < 2 ^ 16)
    (hVD : E.GWIN_FLG_VISIBLE &&& E.GWIN_FLG_DYNAMIC = 0) (hHook : HooksKeepFlags E)
    (hMgr : ManagerKeeps E GWindowObject.flags) (g : Globals) (pInit : GWindowInit)
    (log : List Call) :
    (∀ p o s, gwinWindowCreate E g (some (p, o)) pInit log = .handle s →
      s.ptr = p ∧ frees (gwinDestroy E s).log = frees log) ∧
    (∀ s, gwinWindowCreate E g none pInit log = .handle s →
      (∃ o, E.gfxAlloc (basegwinVMT E).size = some (s.ptr, o)) ∧
      frees (gwinDestroy E s).log = frees log ++ [s.ptr]) ∧
    (E.GWIN_NEED_WINDOWMANAGER = false →
      (∀ p o, ∃ s, gwinWindowCreate E g (some (p, o)) pInit log = .handle s) ∧
      (∀ p o, E.gfxAlloc (basegwinVMT E).size = some (p, o) →
        ∃ s, gwinWindowCreate E g none pInit log = .handle s ∧ s.ptr = p)) := by
  refine ⟨?_, ?_, ?_⟩
  · intro p o s h
    obtain ⟨s0, hb, e1, e2, e3⟩ := windowCreate_handle E hD16 hVD hHook hMgr g _ pInit log s h
    rw [createBase_some] at hb
    have hs0 := Option.some.inj hb
    subst hs0
    have hf : flagSet s.gh.flags E.GWIN_FLG_DYNAMIC = false := by
      rw [e3]
      simp [initObj, flagSet]
    refine ⟨e1, ?_⟩
    rw [gwinDestroy_frees E hHook hMgr.2.2.1, hf, e2]
    simp
  · intro s h
    obtain ⟨s0, hb, e1, e2, e3⟩ := windowCreate_handle E hD16 hVD hHook hMgr g _ pInit log s h
    obtain ⟨o, hal, e⟩ := createBase_none E g _ 0 log s0 hb
    have hf : flagSet s.gh.flags E.GWIN_FLG_DYNAMIC = true := by
      rw [e3, e]
      simp only [initObj]
      exact flagSet_or_self _ _ hD0
    refine ⟨⟨o, by rw [e1]; exact hal⟩, ?_⟩
    rw [gwinDestroy_frees E hHook hMgr.2.2.1, hf, e2]
    simp
  · intro hwm
    constructor
    · intro p o
      refine ⟨gwinSetVisible E (_gwm_redim E
          { ptr := p, gh := initObj g o ⟨E.addrBasegwinVMT, basegwinVMT E⟩ 0, log := log }
          pInit.x pInit.y pInit.width pInit.height) pInit.«show», ?_⟩
      simp [gwinWindowCreate, create_eq, createBase, createRegister, hwm]
    · intro p o hal
      refine ⟨gwinSetVisible E (_gwm_redim E
          { ptr := p, gh := initObj g o ⟨E.addrBasegwinVMT, basegwinVMT E⟩
              (0 ||| E.GWIN_FLG_DYNAMIC),
            log := log ++ [.gfxAlloc (basegwinVMT E).size] }
          pInit.x pInit.y pInit.width pInit.height) pInit.«show», ?_, ?_⟩
      · simp [gwinWindowCreate, create_eq, createBase, createRegister, hwm, hal]
      · rw [(gwinSetVisible_ptr_frees E _ _).1,
          (redim_keeps E GWindowObject.flags hHook (fun _ _ _ _ _ => rfl) _ _ _ _ _).2.1]

/-- Witness of C13: the demo window created in caller storage at `8192`, shown and then
destroyed: nothing is freed; created in the block allocated at `12288`: that block is freed
once. -/
theorem C13_ownership_witness :
    (demoCreatedSt.ptr = 8192 ∧ frees (gwinDestroy demoEnvAlloc demoCreatedSt).log = frees []) ∧
    ((∃ o, demoEnvAlloc.gfxAlloc (basegwinVMT demoEnvAlloc).size = some (demoCreatedDynSt.ptr, o)) ∧
      frees (gwinDestroy demoEnvAlloc demoCreatedDynSt).log = frees [] ++ [demoCreatedDynSt.ptr]) :=
  have h := C13_ownership demoEnvAlloc (by decide) (by decide) (by decide) (fun _ _ => rfl)
    ⟨fun _ _ => rfl, fun _ => rfl, fun _ => rfl, fun _ _ _ _ _ => rfl, fun _ => rfl⟩
    demoGlobals demoInit []
  ⟨h.1 8192 demoWin demoCreatedSt (by decide), h.2.1 demoCreatedDynSt (by decide)⟩

/-- C14 (as amended). For every class descriptor, initialisation descriptor and initial flag
bits passed to `_gwindowCreate`, with callbacks that leave the flags alone: when caller
storage is supplied the flags of the resulting window are exactly the flag bits of the
caller, so the constructor never adds DYNAMIC and the window has DYNAMIC set exactly when the
bits of the caller include it; when caller storage is absent and the allocation succeeds the
flags are the bits of the caller with DYNAMIC added, so DYNAMIC is set. In the no-manager
path these constructions do return a handle. -/
theorem C14_dynamic_flag (E : Env) (hHook : HooksKeepFlags E)
    (hAdd : ∀ gh pInit, (E.wmAdd gh pInit).2.flags = gh.flags) (g : Globals)
    (pInit : GWindowInit) (vmt : VmtPtr) (flags : Nat) (log : List Call) :
    (∀ p o s, _gwindowCreate E g (some (p, o)) pInit vmt flags log = .handle s →
      s.gh.flags = flags ∧
      flagSet s.gh.flags E.GWIN_FLG_DYNAMIC = flagSet flags E.GWIN_FLG_DYNAMIC) ∧
    (∀ s, _gwindowCreate E g none pInit vmt flags log = .handle s →
      s.gh.flags = flags ||| E.GWIN_FLG_DYNAMIC ∧
      (E.GWIN_FLG_DYNAMIC ≠ 0 → flagSet s.gh.flags E.GWIN_FLG_DYNAMIC = true)) ∧
    (E.GWIN_NEED_WINDOWMANAGER = false →
      (∀ p o, ∃ s, _gwindowCreate E g (some (p, o)) pInit vmt flags log = .handle s) ∧
      (∀ p o, E.gfxAlloc vmt.deref.size = some (p, o) →
        ∃ s, _gwindowCreate E g none pInit vmt flags log = .handle s)) := by
  refine ⟨?_, ?_, ?_⟩
  · intro p o s h
    obtain ⟨s0, hb, hr⟩ := create_handle E g _ pInit vmt flags log s h
    have k := register_keeps E GWindowObject.flags hHook hAdd (fun _ _ _ _ _ => rfl)
      pInit s0 s hr
    rw [createBase_some] at hb
    have hs0 := Option.some.inj hb
    subst hs0
    have e : s.gh.flags = flags := k.1
    exact ⟨e, by rw [e]⟩
  · intro s h
    obtain ⟨s0, hb, hr⟩ := create_handle E g _ pInit vmt flags log s h
    have k := register_keeps E GWindowObject.flags hHook hAdd (fun _ _ _ _ _ => rfl)
      pInit s0 s hr
    obtain ⟨o, -, e⟩ := createBase_none E g vmt flags log s0 hb
    have e' : s.gh.flags = flags ||| E.GWIN_FLG_DYNAMIC := by
      rw [k.1, e]
      rfl
    exact ⟨e', fun hD0 => by rw [e']; exact flagSet_or_self _ _ hD0⟩
  · intro hwm
    constructor
    · intro p o
      refine ⟨_gwm_redim E { ptr := p, gh := initObj g o vmt flags, log := log }
        pInit.x pInit.y pInit.width pInit.height, ?_⟩
      simp [create_eq, createBase, createRegister, hwm]
    · intro p o hal
      refine ⟨_gwm_redim E
        { ptr := p, gh := initObj g o vmt (flags ||| E.GWIN_FLG_DYNAMIC),
          log := log ++ [.gfxAlloc vmt.deref.size] }
        pInit.x pInit.y pInit.width pInit.height, ?_⟩
      simp [create_eq, createBase, createRegister, hwm, hal]

/-- Witness of C14: the widget created with flag bits `0` in caller storage is not
DYNAMIC. -/
theorem C14_dynamic_flag_witness :
    (_gwm_redim demoEnv demoWidgetInitSt 0 0 50 50).gh.flags = 0 ∧
    flagSet (_gwm_redim demoEnv demoWidgetInitSt 0 0 50 50).gh.flags demoEnv.GWIN_FLG_DYNAMIC
      = flagSet 0 demoEnv.GWIN_FLG_DYNAMIC :=
  (C14_dynamic_flag demoEnv (fun _ _ => rfl) (fun _ _ => rfl) demoGlobals demoInit
    demoWidgetVMT 0 []).1 8192 demoWin _ (by decide)

/-- Counterexample to C14 as stated: `_gwindowCreate` in caller storage at `8192` with the
initial flag bits `GWIN_FLG_DYNAMIC` returns a window that has the DYNAMIC flag set. -/
theorem C14_dynamic_flag_counterexample :
    _gwindowCreate demoEnv demoGlobals (some (8192, demoWin)) demoInit
        ⟨4096, basegwinVMT demoEnv⟩ demoEnv.GWIN_FLG_DYNAMIC []
      = .handle { ptr := 8192,
                  gh := { vmt := ⟨4096, basegwinVMT demoEnv⟩, x := 0, y := 0, width := 50,
                          height := 50, color := 0xFFFF, bgcolor := 0, flags := 1, font := 0 },
                  log := [] } ∧
    flagSet 1 demoEnv.GWIN_FLG_DYNAMIC = true := by
  decide

/-- C15. Allocation failure: when the storage argument is null and `gfxAlloc` fails,
`_gwindowCreate` and `gwinWindowCreate` return the null handle having issued nothing but the
failed allocation request: the log grows by that one call, so the manager's `Add` is not
called, no drawing-surface call is issued, `gfxFree` is not called and no visibility change
is attempted. -/
theorem C15_alloc_failure (E : Env) (g : Globals) (pInit : GWindowInit) (log : List Call) :
    (∀ vmt flags, E.gfxAlloc vmt.deref.size = none →
      _gwindowCreate E g none pInit vmt flags log = .null (log ++ [.gfxAlloc vmt.deref.size])) ∧
    (E.gfxAlloc (basegwinVMT E).size = none →
      gwinWindowCreate E g none pInit log = .null (log ++ [.gfxAlloc (basegwinVMT E).size])) := by
  constructor
  · intro vmt flags hal
    simp [create_eq, createBase, hal]
  · intro hal
    simp [gwinWindowCreate, create_eq, createBase, hal]

/-- Witness of C15: the allocator of `demoEnv` always fails. -/
theorem C15_alloc_failure_witness :
    gwinWindowCreate demoEnv demoGlobals none demoInit [] = .null [.gfxAlloc 32] :=
  (C15_alloc_failure demoEnv demoGlobals demoInit []).2 rfl

/-- C16 (as amended). Manager registration failure, for a non-zero DYNAMIC mask and an `Add`
that leaves the flags alone: whenever the manager's `Add` reports failure the constructor
returns the null handle. When the storage was null, the calls issued are the allocation,
`Add`, and one `gfxFree` of the newly allocated block. When the storage was supplied by the
caller, the calls issued are `Add` and, exactly when the initial flag bits include DYNAMIC,
one `gfxFree` of that storage; so for initial flag bits without DYNAMIC the storage of the
caller is never freed. -/
theorem C16_add_failure (E : Env) (hwm : E.GWIN_NEED_WINDOWMANAGER = true)
    (hD0 : E.GWIN_FLG_DYNAMIC ≠ 0)
    (hAdd : ∀ gh pInit, (E.wmAdd gh pInit).2.flags = gh.flags) (g : Globals)
    (pInit : GWindowInit) (vmt : VmtPtr) (flags : Nat) (log : List Call) :
    (∀ p o, E.gfxAlloc vmt.deref.size = some (p, o) →
      (E.wmAdd (initObj g o vmt (flags ||| E.GWIN_FLG_DYNAMIC)) pInit).1 = false →
      _gwindowCreate E g none pInit vmt flags log =
        .null (log ++ [.gfxAlloc vmt.deref.size,
                       .wmAdd (initObj g o vmt (flags ||| E.GWIN_FLG_DYNAMIC)) pInit,
                       .gfxFree p])) ∧
    (∀ p o, (E.wmAdd (initObj g o vmt flags) pInit).1 = false →
      _gwindowCreate E g (some (p, o)) pInit vmt flags log =
        .null (log ++ .wmAdd (initObj g o vmt flags) pInit ::
          (if flagSet flags E.GWIN_FLG_DYNAMIC then [.gfxFree p] else []))) ∧
    (∀ p o, (E.wmAdd (initObj g o vmt flags) pInit).1 = false →
      flagSet flags E.GWIN_FLG_DYNAMIC = false →
      _gwindowCreate E g (some (p, o)) pInit vmt flags log =
        .null (log ++ [.wmAdd (initObj g o vmt flags) pInit])) := by
  have caller : ∀ p o, (E.wmAdd (initObj g o vmt flags) pInit).1 = false →
      _gwindowCreate E g (some (p, o)) pInit vmt flags log =
        .null (log ++ .wmAdd (initObj g o vmt flags) pInit ::
          (if flagSet flags E.GWIN_FLG_DYNAMIC then [.gfxFree p] else [])) := by
    intro p o hfail
    have hf : (E.wmAdd (initObj g o vmt flags) pInit).2.flags = flags := by rw [hAdd]; rfl
    rw [create_eq, createBase_some]
    by_cases hdyn : flagSet flags E.GWIN_FLG_DYNAMIC = true <;>
      simp [createRegister, hwm, hfail, hf, hdyn]
  refine ⟨?_, caller, ?_⟩
  · intro p o hal hfail
    have hf : (E.wmAdd (initObj g o vmt (flags ||| E.GWIN_FLG_DYNAMIC)) pInit).2.flags
        = flags ||| E.GWIN_FLG_DYNAMIC := by rw [hAdd]; rfl
    have hdyn := flagSet_or_self flags E.GWIN_FLG_DYNAMIC hD0
    simp [create_eq, createBase, hal, createRegister, hwm, hfail, hf, hdyn]
  · intro p o hfail hnd
    rw [caller p o hfail, hnd]
    simp

/-- Witness of C16: `Add` fails after a successful allocation at `12288`; the block is freed
once. -/
theorem C16_add_failure_witness :
    _gwindowCreate demoEnvAddFails demoGlobals none demoInit demoWidgetVMT 0 [] =
      .null ([] ++ [.gfxAlloc demoWidgetVMT.deref.size,
        .wmAdd (initObj demoGlobals demoWin demoWidgetVMT
          (0 ||| demoEnvAddFails.GWIN_FLG_DYNAMIC)) demoInit,
        .gfxFree 12288]) :=
  (C16_add_failure demoEnvAddFails rfl (by decide) (fun _ _ => rfl) demoGlobals demoInit
    demoWidgetVMT 0 []).1 12288 demoWin rfl rfl

/-- Counterexample to C16 as stated: with the initial flag bits `GWIN_FLG_DYNAMIC` and caller
storage at `8192`, a failing `Add` makes the constructor call `gfxFree` on the storage of the
caller. -/
theorem C16_add_failure_counterexample :
    _gwindowCreate demoEnvAddFails demoGlobals (some (8192, demoWin)) demoInit demoWidgetVMT
        demoEnvAddFails.GWIN_FLG_DYNAMIC [] =
      .null [.wmAdd (initObj demoGlobals demoWin demoWidgetVMT 1) demoInit, .gfxFree 8192] ∧
    frees (_gwindowCreate demoEnvAddFails demoGlobals (some (8192, demoWin)) demoInit
        demoWidgetVMT demoEnvAddFails.GWIN_FLG_DYNAMIC []).log = [8192] := by
  decide

/-! ### Claims on destruction -/

/-- The state that `gwinDestroy` returns, and its log, in closed form. -/
theorem gwinDestroy_eq (E : Env) (s : St) :
    (gwinDestroy E s).gh =
      { afterDestroyHook E (if E.GWIN_NEED_WINDOWMANAGER then E.wmDelete s.gh else s.gh)
        with flags := 0 } ∧
    (gwinDestroy E s).ptr = s.ptr ∧
    (gwinDestroy E s).log =
      s.log ++ ((if E.GWIN_NEED_WINDOWMANAGER then [.wmDelete s.gh] else []) ++
        ((if (if E.GWIN_NEED_WINDOWMANAGER then E.wmDelete s.gh else s.gh).vmt.deref.Destroy ≠ 0
          then [.vmtDestroy
                  (if E.GWIN_NEED_WINDOWMANAGER then E.wmDelete s.gh else s.gh).vmt.deref.Destroy
                  (if E.GWIN_NEED_WINDOWMANAGER then E.wmDelete s.gh else s.gh)]
          else []) ++
        (if flagSet (afterDestroyHook E
              (if E.GWIN_NEED_WINDOWMANAGER then E.wmDelete s.gh else s.gh)).flags
            E.GWIN_FLG_DYNAMIC
          then [.gfxFree s.ptr] else []))) := by
  unfold gwinDestroy afterDestroyHook
  by_cases hwm : E.GWIN_NEED_WINDOWMANAGER = true
  · by_cases hd : (E.wmDelete s.gh).vmt.deref.Destroy ≠ 0
    · by_cases hf : flagSet (E.hook (E.wmDelete s.gh).vmt.deref.Destroy (E.wmDelete s.gh)).flags
          E.GWIN_FLG_DYNAMIC = true <;>
        simp [hwm, hd, hf, wmDelete, vmtDestroy, emit]
    · by_cases hf : flagSet (E.wmDelete s.gh).flags E.GWIN_FLG_DYNAMIC = true <;>
        simp [hwm, hd, hf, wmDelete, vmtDestroy, emit]
  · by_cases hd : s.gh.vmt.deref.Destroy ≠ 0
    · by_cases hf : flagSet (E.hook s.gh.vmt.deref.Destroy s.gh).flags
          E.GWIN_FLG_DYNAMIC = true <;>
        simp [hwm, hd, hf, wmDelete, vmtDestroy, emit]
    · by_cases hf : flagSet s.gh.flags E.GWIN_FLG_DYNAMIC = true <;>
        simp [hwm, hd, hf, wmDelete, vmtDestroy, emit]

/-- C17. Destroy ordering, manager configured: the calls `gwinDestroy` issues are, in this
order, exactly one `Delete` of the manager on the window, then one call of the destroy hook
if the class has one (none otherwise), then one `gfxFree` of the storage if the DYNAMIC flag
is set at that point (none otherwise). So `Delete` is called exactly once and strictly before
the hook, the hook runs at most once, and a free comes after both. -/
theorem C17_destroy_order (E : Env) (hwm : E.GWIN_NEED_WINDOWMANAGER = true) (s : St) :
    (gwinDestroy E s).log =
      s.log ++ .wmDelete s.gh ::
        ((if (E.wmDelete s.gh).vmt.deref.Destroy ≠ 0
          then [.vmtDestroy (E.wmDelete s.gh).vmt.deref.Destroy (E.wmDelete s.gh)] else []) ++
         (if flagSet (afterDestroyHook E (E.wmDelete s.gh)).flags E.GWIN_FLG_DYNAMIC
          then [.gfxFree s.ptr] else [])) := by
  rw [(gwinDestroy_eq E s).2.2]
  simp [hwm]

/-- Witness of C17: a dynamic window of a class with a destroy hook, under a manager. -/
theorem C17_destroy_order_witness :
    (gwinDestroy demoEnvWMAlloc demoOtherSt).log =
      [.wmDelete demoOtherSt.gh, .vmtDestroy 55 demoOtherSt.gh, .gfxFree 12288] :=
  (C17_destroy_order demoEnvWMAlloc rfl demoOtherSt).trans (by decide)

theorem flagSet_zero (m : Nat) : flagSet 0 m = false := by
  simp [flagSet]

/-- C18. For every window, with or without a manager, `gwinDestroy` leaves the object as the
destroy hook left it with the whole flags field set to zero, so the zeroing comes after the
hook; the destroyed object reports not visible, not enabled and not dynamic, and every later
drawing primitive on it returns the state unchanged. One `gfxFree` of the storage is issued
exactly when the DYNAMIC flag is set when the hook has run; with callbacks that leave the
flags alone this is exactly when the window had its DYNAMIC flag set, which for a window that
comes from `_gwindowCreate` is the flag set at construction: the flag bits of the caller in
caller storage, those bits with DYNAMIC added in allocated storage. -/
theorem C18_destroy_flags (E : Env) (g : Globals) (s : St) :
    (gwinDestroy E s).gh =
      { afterDestroyHook E (if E.GWIN_NEED_WINDOWMANAGER then E.wmDelete s.gh else s.gh)
        with flags := 0 } ∧
    (gwinDestroy E s).gh.flags = 0 ∧
    gwinGetVisible E (gwinDestroy E s) = false ∧
    gwinGetEnabled E (gwinDestroy E s) = false ∧
    flagSet (gwinDestroy E s).gh.flags E.GWIN_FLG_DYNAMIC = false ∧
    (gwinClear E (gwinDestroy E s) = gwinDestroy E s ∧
      (∀ x y, gwinDrawPixel E (gwinDestroy E s) x y = gwinDestroy E s) ∧
      (∀ x0 y0 x1 y1, gwinDrawLine E (gwinDestroy E s) x0 y0 x1 y1 = gwinDestroy E s) ∧
      (∀ x y cx cy, gwinDrawBox E (gwinDestroy E s) x y cx cy = gwinDestroy E s) ∧
      (∀ x y cx cy, gwinFillArea E (gwinDestroy E s) x y cx cy = gwinDestroy E s) ∧
      (∀ x y cx cy srcx srcy srccx buffer,
        gwinBlitArea E (gwinDestroy E s) x y cx cy srcx srcy srccx buffer = gwinDestroy E s) ∧
      (∀ x y radius, gwinDrawCircle E (gwinDestroy E s) x y radius = gwinDestroy E s) ∧
      (∀ x y radius, gwinFillCircle E (gwinDestroy E s) x y radius = gwinDestroy E s) ∧
      (∀ x y a b, gwinDrawEllipse E (gwinDestroy E s) x y a b = gwinDestroy E s) ∧
      (∀ x y a b, gwinFillEllipse E (gwinDestroy E s) x y a b = gwinDestroy E s) ∧
      (∀ x y radius sa ea, gwinDrawArc E (gwinDestroy E s) x y radius sa ea = gwinDestroy E s) ∧
      (∀ x y radius sa ea, gwinFillArc E (gwinDestroy E s) x y radius sa ea = gwinDestroy E s) ∧
      (∀ x y, (gwinGetPixelColor E g (gwinDestroy E s) x y).2 = gwinDestroy E s) ∧
      (∀ x y c, gwinDrawChar E (gwinDestroy E s) x y c = gwinDestroy E s) ∧
      (∀ x y c, gwinFillChar E (gwinDestroy E s) x y c = gwinDestroy E s) ∧
      (∀ x y str, gwinDrawString E (gwinDestroy E s) x y str = gwinDestroy E s) ∧
      (∀ x y str, gwinFillString E (gwinDestroy E s) x y str = gwinDestroy E s) ∧
      (∀ x y cx cy str justify,
        gwinDrawStringBox E (gwinDestroy E s) x y cx cy str justify = gwinDestroy E s) ∧
      (∀ x y cx cy str justify,
        gwinFillStringBox E (gwinDestroy E s) x y cx cy str justify = gwinDestroy E s) ∧
      (∀ tx ty pntarray cnt,
        gwinDrawPoly E (gwinDestroy E s) tx ty pntarray cnt = gwinDestroy E s) ∧
      (∀ tx ty pntarray cnt,
        gwinFillConvexPoly E (gwinDestroy E s) tx ty pntarray cnt = gwinDestroy E s) ∧
      (∀ img x y cx cy sx sy,
        (gwinDrawImage E (gwinDestroy E s) img x y cx cy sx sy).2 = gwinDestroy E s)) ∧
    frees (gwinDestroy E s).log =
      frees s.log ++
        (if flagSet (afterDestroyHook E
              (if E.GWIN_NEED_WINDOWMANAGER then E.wmDelete s.gh else s.gh)).flags
            E.GWIN_FLG_DYNAMIC
         then [s.ptr] else []) ∧
    (HooksKeepFlags E → ManagerKeeps E GWindowObject.flags →
      frees (gwinDestroy E s).log =
        frees s.log ++ (if flagSet s.gh.flags E.GWIN_FLG_DYNAMIC then [s.ptr] else []) ∧
      (∀ p o pInit vmt flags log s1,
        _gwindowCreate E g (some (p, o)) pInit vmt flags log = .handle s1 →
        frees (gwinDestroy E s1).log =
          frees log ++ (if flagSet flags E.GWIN_FLG_DYNAMIC then [p] else [])) ∧
      (∀ pInit vmt flags log s1,
        _gwindowCreate E g none pInit vmt flags log = .handle s1 →
        frees (gwinDestroy E s1).log =
          frees log ++
            (if flagSet (flags ||| E.GWIN_FLG_DYNAMIC) E.GWIN_FLG_DYNAMIC then [s1.ptr]
             else []))) := by
  have hgh := (gwinDestroy_eq E s).1
  have hz : (gwinDestroy E s).gh.flags = 0 := by rw [hgh]
  have hv : flagSet (gwinDestroy E s).gh.flags E.GWIN_FLG_VISIBLE = false := by
    rw [hz]; exact flagSet_zero _
  refine ⟨hgh, hz, ?_, ?_, ?_, ?_, ?_, ?_⟩
  · rw [gwinGetVisible_eq, hv]
  · rw [gwinGetEnabled_eq, hz]; exact flagSet_zero _
  · rw [hz]; exact flagSet_zero _
  · refine ⟨?_, ?_, ?_, ?_, ?_, ?_, ?_, ?_, ?_, ?_, ?_, ?_, ?_, ?_, ?_, ?_, ?_, ?_, ?_, ?_,
      ?_, ?_⟩
    · simp [gwinClear, hv]
    · intros; simp [gwinDrawPixel, hv]
    · intros; simp [gwinDrawLine, hv]
    · intros; simp [gwinDrawBox, hv]
    · intros; simp [gwinFillArea, hv]
    · intros; simp [gwinBlitArea, hv]
    · intros; simp [gwinDrawCircle, hv]
    · intros; simp [gwinFillCircle, hv]
    · intros; simp [gwinDrawEllipse, hv]
    · intros; simp [gwinFillEllipse, hv]
    · intros; simp [gwinDrawArc, hv]
    · intros; simp [gwinFillArc, hv]
    · intros; simp [gwinGetPixelColor, hv]
    · intros; simp [gwinDrawChar, hv]
    · intros; simp [gwinFillChar, hv]
    · intros; simp [gwinDrawString, hv]
    · intros; simp [gwinFillString, hv]
    · intros; simp [gwinDrawStringBox, hv]
    · intros; simp [gwinFillStringBox, hv]
    · intros; simp [gwinDrawPoly, hv]
    · intros; simp [gwinFillConvexPoly, hv]
    · intros; simp [gwinDrawImage, hv]
  · rw [(gwinDestroy_eq E s).2.2]
    by_cases hwm : E.GWIN_NEED_WINDOWMANAGER = true <;>
      simp only [hwm, frees_append] <;> split_ifs <;> simp [frees]
  · intro hHook hMgr
    refine ⟨gwinDestroy_frees E hHook hMgr.2.2.1 s, ?_, ?_⟩
    · intro p o pInit vmt flags log s1 h
      obtain ⟨s0, hb, hr⟩ := create_handle E g _ pInit vmt flags log s1 h
      have k := register_keeps E GWindowObject.flags hHook hMgr.1 (fun _ _ _ _ _ => rfl)
        pInit s0 s1 hr
      rw [createBase_some] at hb
      have hs0 := Option.some.inj hb
      subst hs0
      have e : s1.gh.flags = flags := k.1
      rw [gwinDestroy_frees E hHook hMgr.2.2.1, e, k.2.1, k.2.2]
    · intro pInit vmt flags log s1 h
      obtain ⟨s0, hb, hr⟩ := create_handle E g _ pInit vmt flags log s1 h
      have k := register_keeps E GWindowObject.flags hHook hMgr.1 (fun _ _ _ _ _ => rfl)
        pInit s0 s1 hr
      obtain ⟨o, -, e⟩ := createBase_none E g vmt flags log s0 hb
      have e' : s1.gh.flags = flags ||| E.GWIN_FLG_DYNAMIC := by
        rw [k.1, e]
        rfl
      have e2 : frees s0.log = frees log := by
        rw [e]
        simp [frees_append, frees]
      rw [gwinDestroy_frees E hHook hMgr.2.2.1, e', k.2.2, e2]

/-- Witness of C18: destroying the shown demo window in caller storage leaves its flags zero
and frees nothing. -/
theorem C18_destroy_flags_witness :
    frees (gwinDestroy demoEnv demoCreatedSt).log =
      frees demoCreatedSt.log ++
        (if flagSet demoCreatedSt.gh.flags demoEnv.GWIN_FLG_DYNAMIC then [demoCreatedSt.ptr]
         else []) :=
  ((C18_destroy_flags demoEnv demoGlobals demoCreatedSt).2.2.2.2.2.2.2 (fun _ _ => rfl)
    ⟨fun _ _ => rfl, fun _ => rfl, fun _ => rfl, fun _ _ _ _ _ => rfl, fun _ => rfl⟩).1

/-! ### Claims on the class and the defaults -/

/-- With callbacks that keep the class descriptor, the colours and the font, a window that
`_gwindowCreate` returns has the descriptor passed to it and the defaults of the moment. -/
theorem create_style (E : Env) (hHook : HooksKeep E classAndStyle)
    (hAdd : ∀ gh pInit, classAndStyle (E.wmAdd gh pInit).2 = classAndStyle gh) (g : Globals)
    (pgw : Option (Nat × GWindowObject)) (pInit : GWindowInit) (vmt : VmtPtr) (flags : Nat)
    (log : List Call) (s : St) (h : _gwindowCreate E g pgw pInit vmt flags log = .handle s) :
    classAndStyle s.gh = (vmt, g.defaultFgColor, g.defaultBgColor, g.defaultFont) := by
  obtain ⟨s0, hb, hr⟩ := create_handle E g pgw pInit vmt flags log s h
  have k := register_keeps E classAndStyle hHook hAdd (fun _ _ _ _ _ => rfl) pInit s0 s hr
  rw [k.1]
  rcases pgw with _ | ⟨p, o⟩
  · obtain ⟨o, -, e⟩ := createBase_none E g vmt flags log s0 hb
    rw [e]
    rfl
  · rw [createBase_some] at hb
    rw [← Option.some.inj hb]
    rfl

/-- C19 (as amended). Class identity, with callbacks that leave the class descriptor of a
window alone: a window constructed from a class descriptor reports the address of that
descriptor as its identity token and the `classname` field of that descriptor as its class
name. Hence two windows constructed from different descriptors report different identity
tokens, and report different class names exactly when the `classname` fields of the two
descriptors differ; two windows constructed from the same descriptor report identical values
for both. -/
theorem C19_class_identity (E : Env) (hHook : HooksKeep E classAndStyle)
    (hAdd : ∀ gh pInit, classAndStyle (E.wmAdd gh pInit).2 = classAndStyle gh)
    (g1 g2 : Globals) (pgw1 pgw2 : Option (Nat × GWindowObject)) (pInit1 pInit2 : GWindowInit)
    (vmt1 vmt2 : VmtPtr) (flags1 flags2 : Nat) (log1 log2 : List Call) (s1 s2 : St)
    (h1 : _gwindowCreate E g1 pgw1 pInit1 vmt1 flags1 log1 = .handle s1)
    (h2 : _gwindowCreate E g2 pgw2 pInit2 vmt2 flags2 log2 = .handle s2) :
    gwinGetClassID s1 = vmt1.addr ∧ gwinGetClassName s1 = vmt1.deref.classname ∧
    gwinGetClassID s2 = vmt2.addr ∧ gwinGetClassName s2 = vmt2.deref.classname ∧
    (vmt1.addr ≠ vmt2.addr → gwinGetClassID s1 ≠ gwinGetClassID s2) ∧
    (gwinGetClassName s1 ≠ gwinGetClassName s2 ↔
      vmt1.deref.classname ≠ vmt2.deref.classname) ∧
    (vmt1 = vmt2 →
      gwinGetClassID s1 = gwinGetClassID s2 ∧ gwinGetClassName s1 = gwinGetClassName s2) := by
  have k1 := create_style E hHook hAdd g1 pgw1 pInit1 vmt1 flags1 log1 s1 h1
  have k2 := create_style E hHook hAdd g2 pgw2 pInit2 vmt2 flags2 log2 s2 h2
  have v1 : s1.gh.vmt = vmt1 := congrArg Prod.fst k1
  have v2 : s2.gh.vmt = vmt2 := congrArg Prod.fst k2
  have i1 : gwinGetClassID s1 = vmt1.addr := by unfold gwinGetClassID; rw [v1]
  have i2 : gwinGetClassID s2 = vmt2.addr := by unfold gwinGetClassID; rw [v2]
  have n1 : gwinGetClassName s1 = vmt1.deref.classname := by unfold gwinGetClassName; rw [v1]
  have n2 : gwinGetClassName s2 = vmt2.deref.classname := by unfold gwinGetClassName; rw [v2]
  refine ⟨i1, n1, i2, n2, ?_, ?_, ?_⟩
  · intro hne
    rw [i1, i2]
    exact hne
  · rw [n1, n2]
  · intro he
    rw [i1, i2, n1, n2, he]
    exact ⟨rfl, rfl⟩

/-- Witness of C19: a base window and a widget, both in caller storage, no manager. -/
theorem C19_class_identity_witness :
    gwinGetClassID (_gwm_redim demoEnv demoBaseInitSt 0 0 50 50) = 4096 ∧
    gwinGetClassName (_gwm_redim demoEnv demoBaseInitSt 0 0 50 50) = "GWIN" ∧
    gwinGetClassID (_gwm_redim demoEnv demoWidgetInitSt 0 0 50 50) = 4200 ∧
    gwinGetClassName (_gwm_redim demoEnv demoWidgetInitSt 0 0 50 50) = "Widget" :=
  have h := C19_class_identity demoEnv (fun _ _ => rfl) (fun _ _ => rfl) demoGlobals demoGlobals
    (some (8192, demoWin)) (some (8192, demoWin)) demoInit demoInit
    ⟨4096, basegwinVMT demoEnv⟩ demoWidgetVMT 0 0 [] []
    (_gwm_redim demoEnv demoBaseInitSt 0 0 50 50)
    (_gwm_redim demoEnv demoWidgetInitSt 0 0 50 50) (by decide) (by decide)
  ⟨h.1, h.2.1, h.2.2.1, h.2.2.2.1⟩

/-- Counterexample to C19 as stated: the base descriptor at `4096` and the descriptor
`demoOtherVMT` at `4300` are different class descriptors with the same class name; the two
windows constructed from them report different identity tokens but the same class name. -/
theorem C19_class_identity_counterexample :
    _gwindowCreate demoEnv demoGlobals (some (8192, demoWin)) demoInit
        ⟨4096, basegwinVMT demoEnv⟩ 0 [] = .handle (_gwm_redim demoEnv demoBaseInitSt 0 0 50 50) ∧
    _gwindowCreate demoEnv demoGlobals (some (9216, demoWin)) demoInit demoOtherVMT 0 []
      = .handle (_gwm_redim demoEnv demoOtherInitSt 0 0 50 50) ∧
    (⟨4096, basegwinVMT demoEnv⟩ : VmtPtr) ≠ demoOtherVMT ∧
    (4096 : Nat) ≠ demoOtherVMT.addr ∧
    gwinGetClassID (_gwm_redim demoEnv demoBaseInitSt 0 0 50 50)
      ≠ gwinGetClassID (_gwm_redim demoEnv demoOtherInitSt 0 0 50 50) ∧
    gwinGetClassName (_gwm_redim demoEnv demoBaseInitSt 0 0 50 50)
      = gwinGetClassName (_gwm_redim demoEnv demoOtherInitSt 0 0 50 50) := by
  decide

/-- C20. For every successful construction, with callbacks that leave the class descriptor,
the colours and the font of a window alone: the class descriptor of the new window is the
one passed to the constructor, and its foreground colour, background colour and font are the
process-wide defaults current at the time of the call, which the getters return and which
are the values last given to `gwinSetDefaultColor`, `gwinSetDefaultBgColor` and
`gwinSetDefaultFont`; a setter changes no other default. -/
theorem C20_created_defaults (E : Env) (hHook : HooksKeep E classAndStyle)
    (hAdd : ∀ gh pInit, classAndStyle (E.wmAdd gh pInit).2 = classAndStyle gh)
    (pgw : Option (Nat × GWindowObject)) (pInit : GWindowInit) (vmt : VmtPtr) (flags : Nat)
    (log : List Call) :
    (∀ g s, _gwindowCreate E g pgw pInit vmt flags log = .handle s →
      s.gh.vmt = vmt ∧ s.gh.color = gwinGetDefaultColor g ∧
      s.gh.bgcolor = gwinGetDefaultBgColor g ∧ s.gh.font = gwinGetDefaultFont g) ∧
    (∀ g clr bgclr font s,
      _gwindowCreate E (gwinSetDefaultFont (gwinSetDefaultBgColor (gwinSetDefaultColor g clr)
          bgclr) font) pgw pInit vmt flags log = .handle s →
      s.gh.color = clr ∧ s.gh.bgcolor = bgclr ∧ s.gh.font = font) ∧
    (∀ g clr, gwinGetDefaultColor (gwinSetDefaultColor g clr) = clr ∧
      gwinGetDefaultBgColor (gwinSetDefaultColor g clr) = gwinGetDefaultBgColor g ∧
      gwinGetDefaultFont (gwinSetDefaultColor g clr) = gwinGetDefaultFont g) ∧
    (∀ g bgclr, gwinGetDefaultBgColor (gwinSetDefaultBgColor g bgclr) = bgclr ∧
      gwinGetDefaultColor (gwinSetDefaultBgColor g bgclr) = gwinGetDefaultColor g ∧
      gwinGetDefaultFont (gwinSetDefaultBgColor g bgclr) = gwinGetDefaultFont g) ∧
    (∀ g font, gwinGetDefaultFont (gwinSetDefaultFont g font) = font ∧
      gwinGetDefaultColor (gwinSetDefaultFont g font) = gwinGetDefaultColor g ∧
      gwinGetDefaultBgColor (gwinSetDefaultFont g font) = gwinGetDefaultBgColor g) ∧
    (E.GWIN_NEED_WINDOWMANAGER = false → ∀ g p o, pgw = some (p, o) →
      ∃ s, _gwindowCreate E g pgw pInit vmt flags log = .handle s) := by
  have main : ∀ g s, _gwindowCreate E g pgw pInit vmt flags log = .handle s →
      s.gh.vmt = vmt ∧ s.gh.color = g.defaultFgColor ∧
      s.gh.bgcolor = g.defaultBgColor ∧ s.gh.font = g.defaultFont := by
    intro g s h
    have k := create_style E hHook hAdd g pgw pInit vmt flags log s h
    simp only [classAndStyle, Prod.mk.injEq] at k
    exact k
  refine ⟨main, ?_, ?_, ?_, ?_, ?_⟩
  · intro g clr bgclr font s h
    exact (main _ s h).2
  · intro g clr; exact ⟨rfl, rfl, rfl⟩
  · intro g bgclr; exact ⟨rfl, rfl, rfl⟩
  · intro g font; exact ⟨rfl, rfl, rfl⟩
  · intro hwm g p o hp
    subst hp
    refine ⟨_gwm_redim E { ptr := p, gh := initObj g o vmt flags, log := log }
      pInit.x pInit.y pInit.width pInit.height, ?_⟩
    simp [create_eq, createBase, createRegister, hwm]

/-- Witness of C20: after the defaults were set to `5`, `6` and font `3`, a widget created in
caller storage has these colours and this font. -/
theorem C20_created_defaults_witness :
    (_gwm_redim demoEnv
        { demoWidgetInitSt with gh := initObj (gwinSetDefaultFont (gwinSetDefaultBgColor
            (gwinSetDefaultColor demoGlobals 5) 6) 3) demoWin demoWidgetVMT 0 }
        0 0 50 50).gh.color = 5 ∧
    (_gwm_redim demoEnv
        { demoWidgetInitSt with gh := initObj (gwinSetDefaultFont (gwinSetDefaultBgColor
            (gwinSetDefaultColor demoGlobals 5) 6) 3) demoWin demoWidgetVMT 0 }
        0 0 50 50).gh.bgcolor = 6 ∧
    (_gwm_redim demoEnv
        { demoWidgetInitSt with gh := initObj (gwinSetDefaultFont (gwinSetDefaultBgColor
            (gwinSetDefaultColor demoGlobals 5) 6) 3) demoWin demoWidgetVMT 0 }
        0 0 50 50).gh.font = 3 :=
  (C20_created_defaults demoEnv (fun _ _ => rfl) (fun _ _ => rfl) (some (8192, demoWin))
    demoInit demoWidgetVMT 0 []).2.1 demoGlobals 5 6 3 _ (by decide)

/-! ### Frame lemmas for an arbitrary observation -/

theorem gwinClear_keeps {α : Type} (E : Env) (f : GWindowObject → α) (hH : HooksKeep E f)
    (s : St) : f (gwinClear E s).gh = f s.gh := by
  unfold gwinClear
  dsimp only
  split_ifs
  · rfl
  · exact hH _ _
  · rfl

theorem gwm_vis_keeps {α : Type} (E : Env) (f : GWindowObject → α) (hH : HooksKeep E f)
    (s : St) : f (_gwm_vis E s).gh = f s.gh := by
  unfold _gwm_vis
  split_ifs
  · exact hH _ _
  · exact gwinClear_keeps E f hH s

/-- What `gwinSetVisible` leaves alone: every observation that does not depend on the flags,
with callbacks that keep it. -/
theorem gwinSetVisible_keeps {α : Type} (E : Env) (f : GWindowObject → α) (hH : HooksKeep E f)
    (hWm : ∀ gh, f (E.wmVisible gh) = f gh)
    (hfl : ∀ (gh : GWindowObject) (fl : Nat), f { gh with flags := fl } = f gh)
    (s : St) (v : Bool) : f (gwinSetVisible E s v).gh = f s.gh := by
  unfold gwinSetVisible
  split_ifs
  · simp only [wmVisible, hWm]
    exact hfl _ _
  · rw [gwm_vis_keeps E f hH]
    exact hfl _ _
  · rfl
  · simp only [wmVisible, hWm]
    exact hfl _ _
  · exact hfl _ _
  · rfl

/-! ### Claims on the process-wide defaults -/

/-- C21. Process-wide defaults are not retroactive. The three setters act on the static
variables only, each on its own one; they take no window and issue no call. A window that was
constructed before the setters are called still has the descriptor, colours and font it got
from the defaults of its construction, a pixel drawn on it is drawn in that colour, and the
state a pixel read-back leaves does not depend on the defaults; a window constructed after
the calls has the new colours and font. Callbacks are assumed to leave descriptor, colours
and font alone. -/
theorem C21_defaults_not_retroactive (E : Env) (hHook : HooksKeep E classAndStyle)
    (hAdd : ∀ gh pInit, classAndStyle (E.wmAdd gh pInit).2 = classAndStyle gh)
    (g : Globals) (pgw : Option (Nat × GWindowObject)) (pInit : GWindowInit) (vmt : VmtPtr)
    (flags : Nat) (log : List Call) (s : St)
    (h : _gwindowCreate E g pgw pInit vmt flags log = .handle s)
    (clr bgclr : color_t) (font : font_t) :
    (s.gh.color = gwinGetDefaultColor g ∧ s.gh.bgcolor = gwinGetDefaultBgColor g ∧
      s.gh.font = gwinGetDefaultFont g) ∧
    (gwinGetDefaultColor (gwinSetDefaultColor g clr) = clr ∧
      gwinSetDefaultColor g clr = { g with defaultFgColor := clr } ∧
      gwinGetDefaultBgColor (gwinSetDefaultBgColor g bgclr) = bgclr ∧
      gwinSetDefaultBgColor g bgclr = { g with defaultBgColor := bgclr } ∧
      gwinGetDefaultFont (gwinSetDefaultFont g font) = font ∧
      gwinSetDefaultFont g font = { g with defaultFont := font }) ∧
    (clr ≠ gwinGetDefaultColor g → s.gh.color ≠ gwinGetDefaultColor (gwinSetDefaultColor g clr)) ∧
    (bgclr ≠ gwinGetDefaultBgColor g →
      s.gh.bgcolor ≠ gwinGetDefaultBgColor (gwinSetDefaultBgColor g bgclr)) ∧
    (font ≠ gwinGetDefaultFont g → s.gh.font ≠ gwinGetDefaultFont (gwinSetDefaultFont g font)) ∧
    (flagSet s.gh.flags E.GWIN_FLG_VISIBLE = true → ∀ x y,
      gwinDrawPixel E s x y =
        { s with log := s.log ++ [.gdispSetClip s.gh.x s.gh.y s.gh.width s.gh.height,
          .gdispDrawPixel (toCoord E.coordBits (s.gh.x + x)) (toCoord E.coordBits (s.gh.y + y))
            (gwinGetDefaultColor g)] }) ∧
    (∀ g' x y, (gwinGetPixelColor E g' s x y).2 = (gwinGetPixelColor E g s x y).2) ∧
    (∀ pgw' pInit' vmt' flags' log' s',
      _gwindowCreate E (gwinSetDefaultFont (gwinSetDefaultBgColor (gwinSetDefaultColor g clr)
          bgclr) font) pgw' pInit' vmt' flags' log' = .handle s' →
      s'.gh.color = clr ∧ s'.gh.bgcolor = bgclr ∧ s'.gh.font = font) := by
  have k := create_style E hHook hAdd g pgw pInit vmt flags log s h
  simp only [classAndStyle, Prod.mk.injEq] at k
  obtain ⟨-, kc, kb, kf⟩ := k
  refine ⟨⟨kc, kb, kf⟩, ⟨rfl, rfl, rfl, rfl, rfl, rfl⟩, ?_, ?_, ?_, ?_, ?_, ?_⟩
  · intro hne
    rw [kc]
    exact fun e => hne e.symm
  · intro hne
    rw [kb]
    exact fun e => hne e.symm
  · intro hne
    rw [kf]
    exact fun e => hne e.symm
  · intro hvis x y
    simp [gwinDrawPixel, hvis, gdispSetClip, emit, kc, gwinGetDefaultColor]
  · intro g' x y
    unfold gwinGetPixelColor
    split_ifs <;> rfl
  · intro pgw' pInit' vmt' flags' log' s' h'
    have k' := create_style E hHook hAdd _ pgw' pInit' vmt' flags' log' s' h'
    simp only [classAndStyle, Prod.mk.injEq] at k'
    exact k'.2

/-- Witness of C21: the widget created under `demoGlobals` keeps the colour `0xFFFF` when the
default colour is then set to `5`. -/
theorem C21_defaults_not_retroactive_witness :
    (_gwm_redim demoEnv demoWidgetInitSt 0 0 50 50).gh.color
      ≠ gwinGetDefaultColor (gwinSetDefaultColor demoGlobals 5) :=
  (C21_defaults_not_retroactive demoEnv (fun _ _ => rfl) (fun _ _ => rfl) demoGlobals
    (some (8192, demoWin)) demoInit demoWidgetVMT 0 [] _ (by decide) 5 6 3).2.2.1 (by decide)

/-- C22. When no setter has been called the default foreground colour is `White`, the default
background colour is `Black` and the default font is null. A window created in that state
(by `_gwindowCreate` for any class, or by `gwinWindowCreate`) has colour `White`, background
colour `Black` and no font, so each of its six text-drawing operations returns the state
unchanged. Callbacks are assumed to leave descriptor, colours and font alone. -/
theorem C22_initial_defaults (E : Env) (hHook : HooksKeep E classAndStyle)
    (hMgr : ManagerKeeps E classAndStyle) (White Black : color_t) :
    (gwinGetDefaultColor (initialGlobals White Black) = White ∧
      gwinGetDefaultBgColor (initialGlobals White Black) = Black ∧
      gwinGetDefaultFont (initialGlobals White Black) = 0) ∧
    (∀ pgw pInit vmt flags log s,
      _gwindowCreate E (initialGlobals White Black) pgw pInit vmt flags log = .handle s →
      s.gh.color = White ∧ s.gh.bgcolor = Black ∧ s.gh.font = 0) ∧
    (∀ pgw pInit log s,
      gwinWindowCreate E (initialGlobals White Black) pgw pInit log = .handle s →
      (s.gh.color = White ∧ s.gh.bgcolor = Black ∧ s.gh.font = 0) ∧
      (∀ x y c, gwinDrawChar E s x y c = s) ∧
      (∀ x y c, gwinFillChar E s x y c = s) ∧
      (∀ x y str, gwinDrawString E s x y str = s) ∧
      (∀ x y str, gwinFillString E s x y str = s) ∧
      (∀ x y cx cy str justify, gwinDrawStringBox E s x y cx cy str justify = s) ∧
      (∀ x y cx cy str justify, gwinFillStringBox E s x y cx cy str justify = s)) := by
  have hc : ∀ pgw pInit vmt flags log s,
      _gwindowCreate E (initialGlobals White Black) pgw pInit vmt flags log = .handle s →
      s.gh.color = White ∧ s.gh.bgcolor = Black ∧ s.gh.font = 0 := by
    intro pgw pInit vmt flags log s h
    have k := create_style E hHook hMgr.1 _ pgw pInit vmt flags log s h
    simp only [classAndStyle, Prod.mk.injEq] at k
    exact k.2
  refine ⟨⟨rfl, rfl, rfl⟩, hc, ?_⟩
  intro pgw pInit log s h
  unfold gwinWindowCreate at h
  split at h
  · exact Created.noConfusion h
  · next s1 h1 =>
    have := Created.handle.inj h
    subst this
    have k1 := hc _ _ _ _ _ _ h1
    have kv := gwinSetVisible_keeps E classAndStyle hHook hMgr.2.1 (fun _ _ => rfl) s1
      pInit.«show»
    simp only [classAndStyle, Prod.mk.injEq] at kv
    obtain ⟨-, e1, e2, e3⟩ := kv
    have hf : (gwinSetVisible E s1 pInit.«show»).gh.font = 0 := by rw [e3]; exact k1.2.2
    refine ⟨⟨by rw [e1]; exact k1.1, by rw [e2]; exact k1.2.1, hf⟩, ?_, ?_, ?_, ?_, ?_, ?_⟩
    · intros; simp [gwinDrawChar, hf]
    · intros; simp [gwinFillChar, hf]
    · intros; simp [gwinDrawString, hf]
    · intros; simp [gwinFillString, hf]
    · intros; simp [gwinDrawStringBox, hf]
    · intros; simp [gwinFillStringBox, hf]

/-- Witness of C22: with `White = 0xFFFF` and `Black = 0` the shown base window in caller
storage is `demoCreatedSt`, and a string drawn on it leaves it unchanged. -/
theorem C22_initial_defaults_witness :
    (demoCreatedSt.gh.color = 0xFFFF ∧ demoCreatedSt.gh.bgcolor = 0 ∧
      demoCreatedSt.gh.font = 0) ∧
    gwinDrawString demoEnv demoCreatedSt 1 1 "text" = demoCreatedSt :=
  have h := (C22_initial_defaults demoEnv (fun _ _ => rfl)
    ⟨fun _ _ => rfl, fun _ => rfl, fun _ => rfl, fun _ _ _ _ _ => rfl, fun _ => rfl⟩
    0xFFFF 0).2.2 (some (8192, demoWin)) demoInit [] demoCreatedSt (by decide)
  ⟨h.1, h.2.2.2.1 1 1 "text"⟩

/-! ### Claims on creation end to end -/

theorem redimClamp_vmt (E : Env) (gh : GWindowObject) (x y w h : Int) :
    (redimClamp E gh x y w h).vmt = gh.vmt := rfl

theorem redimClamp_bgcolor (E : Env) (gh : GWindowObject) (x y w h : Int) :
    (redimClamp E gh x y w h).bgcolor = gh.bgcolor := rfl

/-- No manager, base class: on storage whose flags after the first half of the construction
are `flags0`, not VISIBLE, registration followed by `gwinSetVisible(gh, TRUE)` leaves the
window `shownBase` and appends the clip and one fill of its rectangle in the default
background colour. -/
theorem show_after_register (E : Env) (hwm : E.GWIN_NEED_WINDOWMANAGER = false)
    (hV0 : E.GWIN_FLG_VISIBLE ≠ 0) (g : Globals) (p : Nat) (o : GWindowObject) (flags0 : Nat)
    (hf : flagSet flags0 E.GWIN_FLG_VISIBLE = false) (pInit : GWindowInit) (log : List Call) :
    gwinSetVisible E
      (_gwm_redim E { ptr := p, gh := initObj g o ⟨E.addrBasegwinVMT, basegwinVMT E⟩ flags0,
                      log := log } pInit.x pInit.y pInit.width pInit.height) true =
      { ptr := p, gh := shownBase E g o flags0 pInit,
        log := log ++
          [.gdispSetClip (shownBase E g o flags0 pInit).x (shownBase E g o flags0 pInit).y
             (shownBase E g o flags0 pInit).width (shownBase E g o flags0 pInit).height,
           .gdispFillArea (shownBase E g o flags0 pInit).x (shownBase E g o flags0 pInit).y
             (shownBase E g o flags0 pInit).width (shownBase E g o flags0 pInit).height
             g.defaultBgColor] } := by
  have hset := flagSet_or_self flags0 E.GWIN_FLG_VISIBLE hV0
  have hr : _gwm_redim E
        { ptr := p, gh := initObj g o ⟨E.addrBasegwinVMT, basegwinVMT E⟩ flags0, log := log }
        pInit.x pInit.y pInit.width pInit.height =
      { ptr := p, gh := redimClamp E (initObj g o ⟨E.addrBasegwinVMT, basegwinVMT E⟩ flags0)
          pInit.x pInit.y pInit.width pInit.height, log := log } := by
    unfold _gwm_redim
    simp [redimClamp_flags, initObj, hf]
  rw [hr]
  unfold gwinSetVisible
  simp only [if_true, redimClamp_flags, initObj, hf, Bool.not_false, hwm, Bool.false_eq_true,
    if_false]
  unfold _gwm_vis
  simp only [redimClamp_vmt, basegwinVMT, ne_eq, not_true_eq_false, if_false]
  unfold gwinClear
  simp [redimClamp_flags, redimClamp_vmt, redimClamp_bgcolor, hset, gdispSetClip, emit,
    shownBase, initObj, basegwinVMT]

theorem shownBase_geom (E : Env) (g : Globals) (o : GWindowObject) (flags0 : Nat)
    (pInit : GWindowInit) :
    geom (shownBase E g o flags0 pInit) =
      (axisPos E.coordBits E.gdispGetWidth pInit.x, axisPos E.coordBits E.gdispGetHeight pInit.y,
       axisLen E.coordBits E.gdispGetWidth pInit.x pInit.width,
       axisLen E.coordBits E.gdispGetHeight pInit.y pInit.height) := rfl

/-- C23. End to end, no manager, non-zero VISIBLE mask disjoint from DYNAMIC, surface of at
least 1 x 1: for every initialisation descriptor with `show` true, `gwinWindowCreate` in
caller storage, and with null storage whenever the allocation succeeds, returns a handle to a
window whose VISIBLE flag is set and whose rectangle is the clamped request, inside the
surface; besides the allocation the calls issued are exactly the clip to that rectangle and
one fill of exactly that rectangle in the default background colour, no other drawing
primitive. E.g. `(0,0,50,50)` on a 200 x 150 surface gives one fill of `(0,0,50,50)`. -/
theorem C23_create_shown (E : Env) (hwm : E.GWIN_NEED_WINDOWMANAGER = false)
    (hV0 : E.GWIN_FLG_VISIBLE ≠ 0)
    (hDV : E.GWIN_FLG_DYNAMIC &&& E.GWIN_FLG_VISIBLE = 0)
    (hW : 1 ≤ E.gdispGetWidth ∧ E.gdispGetWidth < coordHalf E.coordBits)
    (hH : 1 ≤ E.gdispGetHeight ∧ E.gdispGetHeight < coordHalf E.coordBits)
    (g : Globals) (pInit : GWindowInit) (log : List Call) (hshow : pInit.«show» = true) :
    (∀ p o, gwinWindowCreate E g (some (p, o)) pInit log =
      .handle
        { ptr := p, gh := shownBase E g o 0 pInit,
          log := log ++
            [.gdispSetClip (shownBase E g o 0 pInit).x (shownBase E g o 0 pInit).y
               (shownBase E g o 0 pInit).width (shownBase E g o 0 pInit).height,
             .gdispFillArea (shownBase E g o 0 pInit).x (shownBase E g o 0 pInit).y
               (shownBase E g o 0 pInit).width (shownBase E g o 0 pInit).height
               (gwinGetDefaultBgColor g)] }) ∧
    (∀ p o, E.gfxAlloc (basegwinVMT E).size = some (p, o) →
      gwinWindowCreate E g none pInit log =
        .handle
          { ptr := p, gh := shownBase E g o (0 ||| E.GWIN_FLG_DYNAMIC) pInit,
            log := log ++
              [.gfxAlloc (basegwinVMT E).size,
               .gdispSetClip (shownBase E g o (0 ||| E.GWIN_FLG_DYNAMIC) pInit).x
                 (shownBase E g o (0 ||| E.GWIN_FLG_DYNAMIC) pInit).y
                 (shownBase E g o (0 ||| E.GWIN_FLG_DYNAMIC) pInit).width
                 (shownBase E g o (0 ||| E.GWIN_FLG_DYNAMIC) pInit).height,
               .gdispFillArea (shownBase E g o (0 ||| E.GWIN_FLG_DYNAMIC) pInit).x
                 (shownBase E g o (0 ||| E.GWIN_FLG_DYNAMIC) pInit).y
                 (shownBase E g o (0 ||| E.GWIN_FLG_DYNAMIC) pInit).width
                 (shownBase E g o (0 ||| E.GWIN_FLG_DYNAMIC) pInit).height
                 (gwinGetDefaultBgColor g)] }) ∧
    (∀ o flags0, flagSet (shownBase E g o flags0 pInit).flags E.GWIN_FLG_VISIBLE = true ∧
      InSurface E (shownBase E g o flags0 pInit)) ∧
    (E.gdispGetWidth = 200 → E.gdispGetHeight = 150 → pInit.x = 0 → pInit.y = 0 →
      pInit.width = 50 → pInit.height = 50 →
      ∀ o flags0, geom (shownBase E g o flags0 pInit) = (0, 0, 50, 50)) := by
  refine ⟨?_, ?_, ?_, ?_⟩
  · intro p o
    have k := show_after_register E hwm hV0 g p o 0 (flagSet_zero _) pInit log
    simp only [gwinGetDefaultBgColor]
    rw [← k]
    simp [gwinWindowCreate, create_eq, createBase, createRegister, hwm, hshow]
  · intro p o hal
    have hf : flagSet (0 ||| E.GWIN_FLG_DYNAMIC) E.GWIN_FLG_VISIBLE = false := by
      rw [flagSet_or_other _ _ _ hDV]
      exact flagSet_zero _
    have k := show_after_register E hwm hV0 g p o (0 ||| E.GWIN_FLG_DYNAMIC) hf pInit
      (log ++ [.gfxAlloc (basegwinVMT E).size])
    simp only [List.append_assoc, List.singleton_append] at k
    simp only [gwinGetDefaultBgColor]
    rw [← k]
    simp [gwinWindowCreate, create_eq, createBase, createRegister, hwm, hshow, hal]
  · intro o flags0
    constructor
    · exact flagSet_or_self _ _ hV0
    · have ax := axis_inv E.coordBits E.gdispGetWidth pInit.x pInit.width hW.1 hW.2
      have ay := axis_inv E.coordBits E.gdispGetHeight pInit.y pInit.height hH.1 hH.2
      exact ⟨ax.1, ax.2.1, ay.1, ay.2.1, ax.2.2.1, ay.2.2.1, ax.2.2.2, ay.2.2.2⟩
  · intro h1 h2 hx hy hw hh o flags0
    obtain ⟨px, py, pw, ph, psh⟩ := pInit
    dsimp only at hx hy hw hh
    subst hx hy hw hh
    have hbits : 2 ≤ E.coordBits := by
      by_contra hb
      have : E.coordBits - 1 = 0 := by omega
      have h2' := hW.2
      unfold coordHalf at h2'
      rw [this] at h2'
      simp at h2'
      omega
    have hl := hW.2
    have hl' := hH.2
    rw [h1] at hl
    rw [h2] at hl'
    have ax := axis_policy E.coordBits 200 0 50 hbits
      ⟨by omega, by omega⟩ ⟨by omega, by omega⟩ ⟨by omega, by omega⟩ ⟨by omega, by omega⟩
      (fun hneg => by omega)
    have ay := axis_policy E.coordBits 150 0 50 hbits
      ⟨by omega, by omega⟩ ⟨by omega, by omega⟩ ⟨by omega, by omega⟩ ⟨by omega, by omega⟩
      (fun hneg => by omega)
    have px : policyAxis 200 0 50 = (0, 50) := by decide
    have py : policyAxis 150 0 50 = (0, 50) := by decide
    rw [px] at ax
    rw [py] at ay
    simp only [Prod.mk.injEq] at ax ay
    rw [shownBase_geom, h1, h2]
    dsimp only
    rw [ax.1, ax.2, ay.1, ay.2]

/-- Witness of C23: the base window `(0,0,50,50)` shown on the 200 x 150 surface, in caller
storage at `8192`: one clip and one fill of `(0,0,50,50)` in the default background colour. -/
theorem C23_create_shown_witness :
    gwinWindowCreate demoEnv200 demoGlobals (some (8192, demoWin)) demoInit [] =
      .handle
        { ptr := 8192, gh := shownBase demoEnv200 demoGlobals demoWin 0 demoInit,
          log := [] ++
            [.gdispSetClip (shownBase demoEnv200 demoGlobals demoWin 0 demoInit).x
               (shownBase demoEnv200 demoGlobals demoWin 0 demoInit).y
               (shownBase demoEnv200 demoGlobals demoWin 0 demoInit).width
               (shownBase demoEnv200 demoGlobals demoWin 0 demoInit).height,
             .gdispFillArea (shownBase demoEnv200 demoGlobals demoWin 0 demoInit).x
               (shownBase demoEnv200 demoGlobals demoWin 0 demoInit).y
               (shownBase demoEnv200 demoGlobals demoWin 0 demoInit).width
               (shownBase demoEnv200 demoGlobals demoWin 0 demoInit).height
               (gwinGetDefaultBgColor demoGlobals)] } ∧
    geom (shownBase demoEnv200 demoGlobals demoWin 0 demoInit) = (0, 0, 50, 50) :=
  have h := C23_create_shown demoEnv200 rfl (by decide) (by decide) (by decide) (by decide)
    demoGlobals demoInit [] rfl
  ⟨h.1 8192 demoWin, h.2.2.2 rfl rfl rfl rfl rfl rfl demoWin 0⟩

/-- A null handle from `_gwindowCreate` has one of two causes: the storage argument was null
and the allocation failed, or a manager is configured and its `Add` reported failure. -/
theorem create_null_cause (E : Env) (g : Globals) (pgw : Option (Nat × GWindowObject))
    (pInit : GWindowInit) (vmt : VmtPtr) (flags : Nat) (log : List Call) (l : List Call)
    (h : _gwindowCreate E g pgw pInit vmt flags log = .null l) :
    (pgw = none ∧ E.gfxAlloc vmt.deref.size = none) ∨
    (E.GWIN_NEED_WINDOWMANAGER = true ∧
      ∃ s0, createBase E g pgw vmt flags log = some s0 ∧ (E.wmAdd s0.gh pInit).1 = false) := by
  rw [create_eq] at h
  rcases hb : createBase E g pgw vmt flags log with _ | s0
  · left
    rcases pgw with _ | ⟨p, o⟩
    · refine ⟨rfl, ?_⟩
      unfold createBase at hb
      rcases hal : E.gfxAlloc vmt.deref.size with _ | ⟨p, o⟩
      · rfl
      · simp [hal] at hb
    · simp [createBase] at hb
  · right
    rw [hb] at h
    unfold createRegister at h
    by_cases hwm : E.GWIN_NEED_WINDOWMANAGER = true
    · refine ⟨hwm, s0, rfl, ?_⟩
      by_cases ha : (E.wmAdd s0.gh pInit).1 = true
      · simp [hwm, ha] at h
      · simpa using ha
    · simp [hwm] at h

/-- C24. Invalid geometry is never an error. In the no-manager path, for every requested
geometry, `gwinWindowCreate` with caller-supplied storage returns a handle to that storage,
and on a surface of at least 1 x 1 (hooks that leave the rectangle alone) the created window
and the window after every `gwinMove` and `gwinResize` have a normalised rectangle, inside the
surface with size at least 1 x 1. In either path a constructor returns the null handle only
when the storage argument is null and the allocation fails, or when a manager is configured
and its `Add` reports failure. -/
theorem C24_geometry_never_error (E : Env) (g : Globals) (pInit : GWindowInit)
    (log : List Call) :
    (E.GWIN_NEED_WINDOWMANAGER = false →
      ∀ p o, ∃ s, gwinWindowCreate E g (some (p, o)) pInit log = .handle s ∧ s.ptr = p) ∧
    (E.GWIN_NEED_WINDOWMANAGER = false →
      1 ≤ E.gdispGetWidth ∧ E.gdispGetWidth < coordHalf E.coordBits →
      1 ≤ E.gdispGetHeight ∧ E.gdispGetHeight < coordHalf E.coordBits →
      HooksKeepGeom E →
      (∀ pgw s, gwinWindowCreate E g pgw pInit log = .handle s → InSurface E s.gh) ∧
      (∀ s x y, InSurface E (gwinMove E s x y).gh) ∧
      (∀ s w h, InSurface E (gwinResize E s w h).gh)) ∧
    (∀ pgw vmt flags l, _gwindowCreate E g pgw pInit vmt flags log = .null l →
      (pgw = none ∧ E.gfxAlloc vmt.deref.size = none) ∨
      (E.GWIN_NEED_WINDOWMANAGER = true ∧
        ∃ s0, createBase E g pgw vmt flags log = some s0 ∧
          (E.wmAdd s0.gh pInit).1 = false)) ∧
    (∀ pgw l, gwinWindowCreate E g pgw pInit log = .null l →
      (pgw = none ∧ E.gfxAlloc (basegwinVMT E).size = none) ∨
      (E.GWIN_NEED_WINDOWMANAGER = true ∧
        ∃ s0, createBase E g pgw ⟨E.addrBasegwinVMT, basegwinVMT E⟩ 0 log = some s0 ∧
          (E.wmAdd s0.gh pInit).1 = false)) := by
  refine ⟨?_, ?_, ?_, ?_⟩
  · intro hwm p o
    refine ⟨gwinSetVisible E (_gwm_redim E
        { ptr := p, gh := initObj g o ⟨E.addrBasegwinVMT, basegwinVMT E⟩ 0, log := log }
        pInit.x pInit.y pInit.width pInit.height) pInit.«show», ?_, ?_⟩
    · simp [gwinWindowCreate, create_eq, createBase, createRegister, hwm]
    · rw [(gwinSetVisible_ptr_frees E _ _).1]
      unfold _gwm_redim
      dsimp only
      split_ifs <;> rfl
  · intro hwm hW hH hHook
    have main := redim_inSurface E hW hH hHook
    refine ⟨?_, ?_, ?_⟩
    · intro pgw s hs
      unfold gwinWindowCreate at hs
      split at hs
      · exact Created.noConfusion hs
      · next s1 h1 =>
        have := Created.handle.inj hs
        subst this
        obtain ⟨s0, rfl⟩ := create_is_redim E hwm g pgw pInit _ 0 log s1 h1
        exact inSurface_of_geom E (gwinSetVisible_geom E hwm hHook _ _) (main s0 _ _ _ _)
    · intro s x y
      unfold gwinMove
      simp only [hwm, Bool.false_eq_true, if_false]
      exact main s _ _ _ _
    · intro s w h
      unfold gwinResize
      simp only [hwm, Bool.false_eq_true, if_false]
      exact main s _ _ _ _
  · intro pgw vmt flags l h
    exact create_null_cause E g pgw pInit vmt flags log l h
  · intro pgw l h
    unfold gwinWindowCreate at h
    split at h
    · next l1 h1 => exact create_null_cause E g pgw pInit _ 0 log l1 h1
    · exact Created.noConfusion h

/-- Witness of C24: a base window requested at `(150,150)` with size `(-3, 0)` on the
100 x 100 surface is created in the caller storage at `8192`. -/
theorem C24_geometry_never_error_witness :
    ∃ s, gwinWindowCreate demoEnv demoGlobals (some (8192, demoWin))
        { x := 150, y := 150, width := -3, height := 0, «show» := false } [] = .handle s ∧
      s.ptr = 8192 :=
  (C24_geometry_never_error demoEnv demoGlobals
    { x := 150, y := 150, width := -3, height := 0, «show» := false } []).1 rfl 8192 demoWin

/-! ### Claims on move, resize and redraw -/

/-- The outcome of `_gwm_redim`, in closed form. -/
theorem redim_eq (E : Env) (s : St) (x y w h : Int) :
    _gwm_redim E s x y w h =
      if flagSet s.gh.flags E.GWIN_FLG_VISIBLE = true ∧ s.gh.vmt.deref.Redraw ≠ 0 then
        { ptr := s.ptr,
          gh := E.hook s.gh.vmt.deref.Redraw (redimClamp E s.gh x y w h),
          log := s.log ++
            [.gdispSetClip (redimClamp E s.gh x y w h).x (redimClamp E s.gh x y w h).y
               (redimClamp E s.gh x y w h).width (redimClamp E s.gh x y w h).height,
             .vmtRedraw s.gh.vmt.deref.Redraw (redimClamp E s.gh x y w h)] }
      else { s with gh := redimClamp E s.gh x y w h } := by
  unfold _gwm_redim
  by_cases hv : flagSet s.gh.flags E.GWIN_FLG_VISIBLE = true <;>
  by_cases hr : s.gh.vmt.deref.Redraw ≠ 0 <;>
  simp [hv, hr, redimClamp_flags, redimClamp_vmt, vmtRedraw, gdispSetClip, emit]

/-- C25. `gwinMove(w, x, y)` is the Redim request for `(x, y, current width, current height)`
and `gwinResize(w, cx, cy)` the Redim request for `(current x, current y, cx, cy)`: without a
manager they are `_gwm_redim` with these arguments; with a manager each appends exactly one
call to the log, the manager's `Redim` with that merged rectangle, issued on the window as it
was (the facade changes no field and calls no surface routine), also when the rectangle is
the current one; the resulting window is whatever the manager returns. -/
theorem C25_move_resize_redim (E : Env) (s : St) :
    (E.GWIN_NEED_WINDOWMANAGER = false →
      (∀ x y, gwinMove E s x y = _gwm_redim E s x y s.gh.width s.gh.height) ∧
      (∀ cx cy, gwinResize E s cx cy = _gwm_redim E s s.gh.x s.gh.y cx cy)) ∧
    (E.GWIN_NEED_WINDOWMANAGER = true →
      (∀ x y, gwinMove E s x y =
        { ptr := s.ptr, gh := E.wmRedim s.gh x y s.gh.width s.gh.height,
          log := s.log ++ [.wmRedim s.gh x y s.gh.width s.gh.height] }) ∧
      (∀ cx cy, gwinResize E s cx cy =
        { ptr := s.ptr, gh := E.wmRedim s.gh s.gh.x s.gh.y cx cy,
          log := s.log ++ [.wmRedim s.gh s.gh.x s.gh.y cx cy] }) ∧
      gwinMove E s s.gh.x s.gh.y =
        { ptr := s.ptr, gh := E.wmRedim s.gh s.gh.x s.gh.y s.gh.width s.gh.height,
          log := s.log ++ [.wmRedim s.gh s.gh.x s.gh.y s.gh.width s.gh.height] }) := by
  constructor
  · intro hwm
    constructor
    · intro x y; simp [gwinMove, hwm]
    · intro cx cy; simp [gwinResize, hwm]
  · intro hwm
    refine ⟨?_, ?_, ?_⟩
    · intro x y; simp [gwinMove, hwm, wmRedim]
    · intro cx cy; simp [gwinResize, hwm, wmRedim]
    · simp [gwinMove, hwm, wmRedim]

/-- Witness of C25: with a manager, moving the demo window to `(7, 9)` is one `Redim` call
for `(7, 9, 40, 50)`. -/
theorem C25_move_resize_redim_witness :
    gwinMove demoEnvWM demoSt 7 9 =
      { ptr := demoSt.ptr, gh := demoEnvWM.wmRedim demoSt.gh 7 9 demoSt.gh.width demoSt.gh.height,
        log := demoSt.log ++ [.wmRedim demoSt.gh 7 9 demoSt.gh.width demoSt.gh.height] } :=
  ((C25_move_resize_redim demoEnvWM demoSt).2 rfl).1 7 9

/-- C26. No-manager path: `gwinMove` and `gwinResize` (that is `_gwm_redim`) first store the
clamped rectangle; then, if the window is VISIBLE and its class has a redraw hook, they issue
exactly the clip to the new, clamped bounds followed by one call of the redraw hook on the
window with these bounds; if the window is hidden or its class has no redraw hook they issue
no call at all (the log is unchanged, the window is not cleared) and only the rectangle
changes. -/
theorem C26_redim_redraw (E : Env) (hwm : E.GWIN_NEED_WINDOWMANAGER = false) (s : St) :
    (flagSet s.gh.flags E.GWIN_FLG_VISIBLE = true ∧ s.gh.vmt.deref.Redraw ≠ 0 →
      (∀ x y w h, _gwm_redim E s x y w h =
        { ptr := s.ptr,
          gh := E.hook s.gh.vmt.deref.Redraw (redimClamp E s.gh x y w h),
          log := s.log ++
            [.gdispSetClip (redimClamp E s.gh x y w h).x (redimClamp E s.gh x y w h).y
               (redimClamp E s.gh x y w h).width (redimClamp E s.gh x y w h).height,
             .vmtRedraw s.gh.vmt.deref.Redraw (redimClamp E s.gh x y w h)] }) ∧
      (∀ x y, gwinMove E s x y =
        { ptr := s.ptr,
          gh := E.hook s.gh.vmt.deref.Redraw (redimClamp E s.gh x y s.gh.width s.gh.height),
          log := s.log ++
            [.gdispSetClip (redimClamp E s.gh x y s.gh.width s.gh.height).x
               (redimClamp E s.gh x y s.gh.width s.gh.height).y
               (redimClamp E s.gh x y s.gh.width s.gh.height).width
               (redimClamp E s.gh x y s.gh.width s.gh.height).height,
             .vmtRedraw s.gh.vmt.deref.Redraw
               (redimClamp E s.gh x y s.gh.width s.gh.height)] }) ∧
      (∀ w h, gwinResize E s w h =
        { ptr := s.ptr,
          gh := E.hook s.gh.vmt.deref.Redraw (redimClamp E s.gh s.gh.x s.gh.y w h),
          log := s.log ++
            [.gdispSetClip (redimClamp E s.gh s.gh.x s.gh.y w h).x
               (redimClamp E s.gh s.gh.x s.gh.y w h).y
               (redimClamp E s.gh s.gh.x s.gh.y w h).width
               (redimClamp E s.gh s.gh.x s.gh.y w h).height,
             .vmtRedraw s.gh.vmt.deref.Redraw (redimClamp E s.gh s.gh.x s.gh.y w h)] })) ∧
    (¬ (flagSet s.gh.flags E.GWIN_FLG_VISIBLE = true ∧ s.gh.vmt.deref.Redraw ≠ 0) →
      (∀ x y w h, _gwm_redim E s x y w h = { s with gh := redimClamp E s.gh x y w h }) ∧
      (∀ x y, gwinMove E s x y =
        { s with gh := redimClamp E s.gh x y s.gh.width s.gh.height }) ∧
      (∀ w h, gwinResize E s w h = { s with gh := redimClamp E s.gh s.gh.x s.gh.y w h }) ∧
      (∀ x y, (gwinMove E s x y).log = s.log) ∧
      (∀ w h, (gwinResize E s w h).log = s.log)) := by
  have hm : ∀ x y, gwinMove E s x y = _gwm_redim E s x y s.gh.width s.gh.height := by
    intro x y; simp [gwinMove, hwm]
  have hr : ∀ w h, gwinResize E s w h = _gwm_redim E s s.gh.x s.gh.y w h := by
    intro w h; simp [gwinResize, hwm]
  constructor
  · intro hc
    refine ⟨?_, ?_, ?_⟩
    · intro x y w h; rw [redim_eq, if_pos hc]
    · intro x y; rw [hm, redim_eq, if_pos hc]
    · intro w h; rw [hr, redim_eq, if_pos hc]
  · intro hc
    refine ⟨?_, ?_, ?_, ?_, ?_⟩
    · intro x y w h; rw [redim_eq, if_neg hc]
    · intro x y; rw [hm, redim_eq, if_neg hc]
    · intro w h; rw [hr, redim_eq, if_neg hc]
    · intro x y; rw [hm, redim_eq, if_neg hc]
    · intro w h; rw [hr, redim_eq, if_neg hc]

/-- Witness of C26: moving the visible widget (redraw hook `77`) to `(90, 10)` on the
100 x 100 surface clips to the clamped bounds `(90, 10, 10, 50)` and redraws once. -/
theorem C26_redim_redraw_witness :
    (gwinMove demoEnv demoWidgetVisibleSt 90 10).log =
      [.gdispSetClip 90 10 10 50,
       .vmtRedraw 77 { demoWidgetVisibleSt.gh with x := 90, y := 10, width := 10, height := 50 }] :=
  (congrArg St.log (((C26_redim_redraw demoEnv rfl demoWidgetVisibleSt).1
    ⟨rfl, by decide⟩).2.1 90 10)).trans (by decide)

/-- The outcome of `_gwm_vis`, in closed form. -/
theorem gwm_vis_eq (E : Env) (s : St) (hvis : flagSet s.gh.flags E.GWIN_FLG_VISIBLE = true) :
    _gwm_vis E s =
      if s.gh.vmt.deref.Redraw ≠ 0 then
        { ptr := s.ptr, gh := E.hook s.gh.vmt.deref.Redraw s.gh,
          log := s.log ++ [.gdispSetClip s.gh.x s.gh.y s.gh.width s.gh.height,
                           .vmtRedraw s.gh.vmt.deref.Redraw s.gh] }
      else if s.gh.vmt.deref.AfterClear ≠ 0 then
        { ptr := s.ptr, gh := E.hook s.gh.vmt.deref.AfterClear s.gh,
          log := s.log ++ [.gdispSetClip s.gh.x s.gh.y s.gh.width s.gh.height,
                           .gdispFillArea s.gh.x s.gh.y s.gh.width s.gh.height s.gh.bgcolor,
                           .vmtAfterClear s.gh.vmt.deref.AfterClear s.gh] }
      else
        { s with log := s.log ++ [.gdispSetClip s.gh.x s.gh.y s.gh.width s.gh.height,
                           .gdispFillArea s.gh.x s.gh.y s.gh.width s.gh.height s.gh.bgcolor] } := by
  unfold _gwm_vis gwinClear
  by_cases hr : s.gh.vmt.deref.Redraw ≠ 0 <;>
  by_cases ha : s.gh.vmt.deref.AfterClear ≠ 0 <;>
  simp [hr, ha, hvis, vmtRedraw, vmtAfterClear, gdispSetClip, emit]

/-- C27. No-manager path: `gwinRedraw` on a hidden window returns the state unchanged. On a
visible window it is the show procedure `_gwm_vis`, the one `gwinSetVisible` runs on its
0-to-1 transition: the clip to the bounds and the redraw hook if the class has one, otherwise
the clear to the background colour (clip, fill of the bounds, then the after-clear hook if
there is one); the facade changes no field, so flags and rectangle are as the hook called
leaves them, unchanged when no hook is called or when the hooks keep them. With a manager
`gwinRedraw` is exactly one raise request for the window. -/
theorem C27_redraw (E : Env) (s : St) :
    (E.GWIN_NEED_WINDOWMANAGER = false →
      (flagSet s.gh.flags E.GWIN_FLG_VISIBLE = false → gwinRedraw E s = s) ∧
      (flagSet s.gh.flags E.GWIN_FLG_VISIBLE = true →
        gwinRedraw E s = _gwm_vis E s ∧
        gwinRedraw E s =
          (if s.gh.vmt.deref.Redraw ≠ 0 then
            { ptr := s.ptr, gh := E.hook s.gh.vmt.deref.Redraw s.gh,
              log := s.log ++ [.gdispSetClip s.gh.x s.gh.y s.gh.width s.gh.height,
                               .vmtRedraw s.gh.vmt.deref.Redraw s.gh] }
          else if s.gh.vmt.deref.AfterClear ≠ 0 then
            { ptr := s.ptr, gh := E.hook s.gh.vmt.deref.AfterClear s.gh,
              log := s.log ++ [.gdispSetClip s.gh.x s.gh.y s.gh.width s.gh.height,
                               .gdispFillArea s.gh.x s.gh.y s.gh.width s.gh.height s.gh.bgcolor,
                               .vmtAfterClear s.gh.vmt.deref.AfterClear s.gh] }
          else
            { s with
              log := s.log ++ [.gdispSetClip s.gh.x s.gh.y s.gh.width s.gh.height,
                .gdispFillArea s.gh.x s.gh.y s.gh.width s.gh.height s.gh.bgcolor] }) ∧
        (s.gh.vmt.deref.Redraw = 0 → s.gh.vmt.deref.AfterClear = 0 →
          (gwinRedraw E s).gh = s.gh) ∧
        (HooksKeepFlags E → (gwinRedraw E s).gh.flags = s.gh.flags) ∧
        (HooksKeepGeom E → geom (gwinRedraw E s).gh = geom s.gh)) ∧
      (E.GWIN_FLG_VISIBLE ≠ 0 → flagSet s.gh.flags E.GWIN_FLG_VISIBLE = false →
        gwinSetVisible E s true =
          gwinRedraw E
            { s with gh := { s.gh with flags := s.gh.flags ||| E.GWIN_FLG_VISIBLE } })) ∧
    (E.GWIN_NEED_WINDOWMANAGER = true →
      gwinRedraw E s =
        { ptr := s.ptr, gh := E.wmRaise s.gh, log := s.log ++ [.gwinRaise s.gh] }) := by
  constructor
  · intro hwm
    refine ⟨?_, ?_, ?_⟩
    · intro hid
      simp [gwinRedraw, hwm, hid]
    · intro hvis
      have h1 : gwinRedraw E s = _gwm_vis E s := by simp [gwinRedraw, hwm, hvis]
      refine ⟨h1, ?_, ?_, ?_, ?_⟩
      · rw [h1, gwm_vis_eq E s hvis]
      · intro hr ha
        rw [h1, gwm_vis_eq E s hvis]
        simp [hr, ha]
      · intro hH
        rw [h1]
        exact gwm_vis_flags E hH s
      · intro hG
        rw [h1]
        exact gwm_vis_geom E hG s
    · intro hV0 hid
      have hset := flagSet_or_self s.gh.flags E.GWIN_FLG_VISIBLE hV0
      simp [gwinRedraw, gwinSetVisible, hwm, hid, hset]
  · intro hwm
    simp [gwinRedraw, hwm, gwinRaise]

/-- Witness of C27: redrawing the visible base window clears it; with a manager the redraw is
one raise request. -/
theorem C27_redraw_witness :
    gwinRedraw demoEnv demoVisibleSt = _gwm_vis demoEnv demoVisibleSt ∧
    gwinRedraw demoEnvWM demoVisibleSt =
      { ptr := demoVisibleSt.ptr, gh := demoEnvWM.wmRaise demoVisibleSt.gh,
        log := demoVisibleSt.log ++ [.gwinRaise demoVisibleSt.gh] } :=
  ⟨(((C27_redraw demoEnv demoVisibleSt).1 rfl).2.1 rfl).1,
   (C27_redraw demoEnvWM demoVisibleSt).2 rfl⟩

/-- C28. On a visible window `gwinClear` appends to the log, in this order: the clip to the
bounds of the window, one fill of exactly `(x, y, width, height)` in the current background
colour of the window, and then, if the class has an after-clear hook, exactly one call of
that hook; nothing else, so the hook never comes before the fill. The background colour is
the value last stored by `gwinSetBgColor`, which changes that field only and issues no call.
On a hidden window `gwinClear` returns the state unchanged, so the hook is not called. -/
theorem C28_clear (E : Env) (s : St) :
    (flagSet s.gh.flags E.GWIN_FLG_VISIBLE = true →
      (s.gh.vmt.deref.AfterClear = 0 →
        gwinClear E s =
          { s with log := s.log ++
              [.gdispSetClip s.gh.x s.gh.y s.gh.width s.gh.height,
               .gdispFillArea s.gh.x s.gh.y s.gh.width s.gh.height s.gh.bgcolor] }) ∧
      (s.gh.vmt.deref.AfterClear ≠ 0 →
        gwinClear E s =
          { ptr := s.ptr, gh := E.hook s.gh.vmt.deref.AfterClear s.gh,
            log := s.log ++
              [.gdispSetClip s.gh.x s.gh.y s.gh.width s.gh.height,
               .gdispFillArea s.gh.x s.gh.y s.gh.width s.gh.height s.gh.bgcolor,
               .vmtAfterClear s.gh.vmt.deref.AfterClear s.gh] }) ∧
      (∀ bgclr, s.gh.vmt.deref.AfterClear = 0 →
        gwinClear E (gwinSetBgColor s bgclr) =
          { gwinSetBgColor s bgclr with log := s.log ++
              [.gdispSetClip s.gh.x s.gh.y s.gh.width s.gh.height,
               .gdispFillArea s.gh.x s.gh.y s.gh.width s.gh.height bgclr] })) ∧
    (∀ bgclr, gwinSetBgColor s bgclr = { s with gh := { s.gh with bgcolor := bgclr } } ∧
      (gwinSetBgColor s bgclr).log = s.log) ∧
    (flagSet s.gh.flags E.GWIN_FLG_VISIBLE = false → gwinClear E s = s) := by
  refine ⟨?_, ?_, ?_⟩
  · intro hvis
    refine ⟨?_, ?_, ?_⟩
    · intro ha
      simp [gwinClear, hvis, ha, gdispSetClip, emit]
    · intro ha
      simp [gwinClear, hvis, ha, gdispSetClip, emit, vmtAfterClear]
    · intro bgclr ha
      simp [gwinClear, gwinSetBgColor, hvis, ha, gdispSetClip, emit]
  · intro bgclr
    exact ⟨rfl, rfl⟩
  · intro hid
    simp [gwinClear, hid]

/-- Witness of C28: clearing the visible demo window after its background colour was set
to `9`. -/
theorem C28_clear_witness :
    gwinClear demoEnv (gwinSetBgColor demoVisibleSt 9) =
      { gwinSetBgColor demoVisibleSt 9 with
        log := demoVisibleSt.log ++
          [.gdispSetClip demoVisibleSt.gh.x demoVisibleSt.gh.y demoVisibleSt.gh.width
             demoVisibleSt.gh.height,
           .gdispFillArea demoVisibleSt.gh.x demoVisibleSt.gh.y demoVisibleSt.gh.width
             demoVisibleSt.gh.height 9] } :=
  ((C28_clear demoEnv demoVisibleSt).1 rfl).2.2 9 rfl

/-! ### Claims on the flag getters and on the drawing dispatch -/

/-- With hooks that leave the flags alone, the window reports the requested enabled state
after `gwinSetEnabled`. -/
theorem gwinSetEnabled_get (E : Env) (hE0 : E.GWIN_FLG_ENABLED ≠ 0)
    (hE16 : E.GWIN_FLG_ENABLED < 2 ^ 16) (hHook : HooksKeepFlags E) (s : St) (e : Bool) :
    gwinGetEnabled E (gwinSetEnabled E s e) = e := by
  rw [gwinGetEnabled_eq]
  unfold gwinSetEnabled
  cases e
  · cases hs : flagSet s.gh.flags E.GWIN_FLG_ENABLED
    · simp [hs]
    · simp only [hs, Bool.false_eq_true, if_false, if_true]
      split_ifs
      · simp only [vmtRedraw, gdispSetClip, emit, hHook _ _]
        exact flagSet_clear_self _ _ hE16
      · exact flagSet_clear_self _ _ hE16
  · cases hs : flagSet s.gh.flags E.GWIN_FLG_ENABLED
    · simp only [hs, Bool.not_false, if_true]
      split_ifs
      · simp only [vmtRedraw, gdispSetClip, emit, hHook _ _]
        exact flagSet_or_self _ _ hE0
      · exact flagSet_or_self _ _ hE0
    · simp [hs]

/-- C29. Getter and setter round trip, for VISIBLE and ENABLED non-zero 16-bit masks and
class hooks and manager callbacks that do not themselves change the flags: for every window
and boolean `v`, `gwinGetVisible` returns exactly `v` after `gwinSetVisible(w, v)` and
`gwinGetEnabled` returns exactly `v` after `gwinSetEnabled(w, v)`. Both getters are functions
of the flags field alone (they change nothing) and return `TRUE` or `FALSE` according to the
test of their mask. -/
theorem C29_flag_round_trip (E : Env) (hV0 : E.GWIN_FLG_VISIBLE ≠ 0)
    (hV16 : E.GWIN_FLG_VISIBLE < 2 ^ 16) (hE0 : E.GWIN_FLG_ENABLED ≠ 0)
    (hE16 : E.GWIN_FLG_ENABLED < 2 ^ 16) (hHook : HooksKeepFlags E)
    (hMgr : ManagerKeeps E GWindowObject.flags) (s : St) (v : Bool) :
    gwinGetVisible E (gwinSetVisible E s v) = v ∧
    gwinGetEnabled E (gwinSetEnabled E s v) = v ∧
    gwinGetVisible E s = flagSet s.gh.flags E.GWIN_FLG_VISIBLE ∧
    gwinGetEnabled E s = flagSet s.gh.flags E.GWIN_FLG_ENABLED ∧
    (gwinGetVisible E s = true ∨ gwinGetVisible E s = false) ∧
    (gwinGetEnabled E s = true ∨ gwinGetEnabled E s = false) := by
  refine ⟨gwinSetVisible_get E hV0 hV16 hHook hMgr.2.1 s v,
    gwinSetEnabled_get E hE0 hE16 hHook s v, gwinGetVisible_eq E s, gwinGetEnabled_eq E s,
    ?_, ?_⟩
  · cases gwinGetVisible E s
    · exact Or.inr rfl
    · exact Or.inl rfl
  · cases gwinGetEnabled E s
    · exact Or.inr rfl
    · exact Or.inl rfl

/-- Witness of C29: the hidden, disabled demo window after `gwinSetVisible(w, TRUE)` reports
visible, after `gwinSetEnabled(w, TRUE)` reports enabled. -/
theorem C29_flag_round_trip_witness :
    gwinGetVisible demoEnv (gwinSetVisible demoEnv demoSt true) = true ∧
    gwinGetEnabled demoEnv (gwinSetEnabled demoEnv demoSt true) = true :=
  have h := C29_flag_round_trip demoEnv (by decide) (by decide) (by decide) (by decide)
    (fun _ _ => rfl)
    ⟨fun _ _ => rfl, fun _ => rfl, fun _ => rfl, fun _ _ _ _ _ => rfl, fun _ => rfl⟩
    demoSt true
  ⟨h.1, h.2.1⟩

/-- C30 (as amended). Uniform guard and dispatch: on a visible window each non-text drawing
routine of the facade (pixel, line, box, area fill, blit, circle, ellipse, arc, polygon,
image) appends exactly two calls to the log and changes nothing else: first the clip to
exactly the current bounds of the window, then the one corresponding routine of the surface.
In that call every position argument (both end points of a line, the polygon offset) is the
sum with `window.x`, respectively `window.y`, converted to the coordinate type, every other
argument (sizes, radius, axes, angles, source offsets, point array, buffer, image) is passed
through unchanged, and the colour argument, which every routine but the blit and the image
draw has, is the foreground colour of the window (first group). Whenever the sums fit the
coordinate type the position arguments are the sums themselves (second group). -/
theorem C30_guard_and_dispatch (E : Env) (s : St)
    (hvis : flagSet s.gh.flags E.GWIN_FLG_VISIBLE = true) :
    ((∀ x y,
      gwinDrawPixel E s x y =
      { s with log := s.log ++ [.gdispSetClip s.gh.x s.gh.y s.gh.width s.gh.height,
          .gdispDrawPixel (toCoord E.coordBits (s.gh.x + x)) (toCoord E.coordBits (s.gh.y + y))
            s.gh.color] }) ∧
    (∀ x0 y0 x1 y1,
      gwinDrawLine E s x0 y0 x1 y1 =
      { s with log := s.log ++ [.gdispSetClip s.gh.x s.gh.y s.gh.width s.gh.height,
          .gdispDrawLine (toCoord E.coordBits (s.gh.x + x0)) (toCoord E.coordBits (s.gh.y + y0))
            (toCoord E.coordBits (s.gh.x + x1)) (toCoord E.coordBits (s.gh.y + y1)) s.gh.color] }) ∧
    (∀ x y cx cy,
      gwinDrawBox E s x y cx cy =
      { s with log := s.log ++ [.gdispSetClip s.gh.x s.gh.y s.gh.width s.gh.height,
          .gdispDrawBox (toCoord E.coordBits (s.gh.x + x)) (toCoord E.coordBits (s.gh.y + y)) cx cy
            s.gh.color] }) ∧
    (∀ x y cx cy,
      gwinFillArea E s x y cx cy =
      { s with log := s.log ++ [.gdispSetClip s.gh.x s.gh.y s.gh.width s.gh.height,
          .gdispFillArea (toCoord E.coordBits (s.gh.x + x)) (toCoord E.coordBits (s.gh.y + y)) cx cy
            s.gh.color] }) ∧
    (∀ x y cx cy srcx srcy srccx buffer,
      gwinBlitArea E s x y cx cy srcx srcy srccx buffer =
      { s with log := s.log ++ [.gdispSetClip s.gh.x s.gh.y s.gh.width s.gh.height,
          .gdispBlitAreaEx (toCoord E.coordBits (s.gh.x + x)) (toCoord E.coordBits (s.gh.y + y)) cx
            cy srcx srcy srccx buffer] }) ∧
    (∀ x y radius,
      gwinDrawCircle E s x y radius =
      { s with log := s.log ++ [.gdispSetClip s.gh.x s.gh.y s.gh.width s.gh.height,
          .gdispDrawCircle (toCoord E.coordBits (s.gh.x + x)) (toCoord E.coordBits (s.gh.y + y))
            radius s.gh.color] }) ∧
    (∀ x y radius,
      gwinFillCircle E s x y radius =
      { s with log := s.log ++ [.gdispSetClip s.gh.x s.gh.y s.gh.width s.gh.height,
          .gdispFillCircle (toCoord E.coordBits (s.gh.x + x)) (toCoord E.coordBits (s.gh.y + y))
            radius s.gh.color] }) ∧
    (∀ x y a b,
      gwinDrawEllipse E s x y a b =
      { s with log := s.log ++ [.gdispSetClip s.gh.x s.gh.y s.gh.width s.gh.height,
          .gdispDrawEllipse (toCoord E.coordBits (s.gh.x + x)) (toCoord E.coordBits (s.gh.y + y)) a
            b s.gh.color] }) ∧
    (∀ x y a b,
      gwinFillEllipse E s x y a b =
      { s with log := s.log ++ [.gdispSetClip s.gh.x s.gh.y s.gh.width s.gh.height,
          .gdispFillEllipse (toCoord E.coordBits (s.gh.x + x)) (toCoord E.coordBits (s.gh.y + y)) a
            b s.gh.color] }) ∧
    (∀ x y radius startangle endangle,
      gwinDrawArc E s x y radius startangle endangle =
      { s with log := s.log ++ [.gdispSetClip s.gh.x s.gh.y s.gh.width s.gh.height,
          .gdispDrawArc (toCoord E.coordBits (s.gh.x + x)) (toCoord E.coordBits (s.gh.y + y)) radius
            startangle endangle s.gh.color] }) ∧
    (∀ x y radius startangle endangle,
      gwinFillArc E s x y radius startangle endangle =
      { s with log := s.log ++ [.gdispSetClip s.gh.x s.gh.y s.gh.width s.gh.height,
          .gdispFillArc (toCoord E.coordBits (s.gh.x + x)) (toCoord E.coordBits (s.gh.y + y)) radius
            startangle endangle s.gh.color] }) ∧
    (∀ tx ty pntarray cnt,
      gwinDrawPoly E s tx ty pntarray cnt =
      { s with log := s.log ++ [.gdispSetClip s.gh.x s.gh.y s.gh.width s.gh.height,
          .gdispDrawPoly (toCoord E.coordBits (tx + s.gh.x)) (toCoord E.coordBits (ty + s.gh.y))
            pntarray cnt s.gh.color] }) ∧
    (∀ tx ty pntarray cnt,
      gwinFillConvexPoly E s tx ty pntarray cnt =
      { s with log := s.log ++ [.gdispSetClip s.gh.x s.gh.y s.gh.width s.gh.height,
          .gdispFillConvexPoly (toCoord E.coordBits (tx + s.gh.x))
            (toCoord E.coordBits (ty + s.gh.y)) pntarray cnt s.gh.color] }) ∧
    (∀ img x y cx cy sx sy,
      gwinDrawImage E s img x y cx cy sx sy =
      (E.gdispImageDraw img (toCoord E.coordBits (s.gh.x + x))
         (toCoord E.coordBits (s.gh.y + y)) cx cy sx sy,
       { s with log := s.log ++ [.gdispSetClip s.gh.x s.gh.y s.gh.width s.gh.height,
          .gdispImageDraw img (toCoord E.coordBits (s.gh.x + x))
            (toCoord E.coordBits (s.gh.y + y)) cx cy sx sy] }))) ∧
    ((∀ x y,
      IsCoord E.coordBits (s.gh.x + x) → IsCoord E.coordBits (s.gh.y + y) →
      gwinDrawPixel E s x y =
      { s with log := s.log ++ [.gdispSetClip s.gh.x s.gh.y s.gh.width s.gh.height,
          .gdispDrawPixel (s.gh.x + x) (s.gh.y + y) s.gh.color] }) ∧
    (∀ x0 y0 x1 y1,
      IsCoord E.coordBits (s.gh.x + x0) → IsCoord E.coordBits (s.gh.y + y0) →
        IsCoord E.coordBits (s.gh.x + x1) → IsCoord E.coordBits (s.gh.y + y1) →
      gwinDrawLine E s x0 y0 x1 y1 =
      { s with log := s.log ++ [.gdispSetClip s.gh.x s.gh.y s.gh.width s.gh.height,
          .gdispDrawLine (s.gh.x + x0) (s.gh.y + y0) (s.gh.x + x1) (s.gh.y + y1) s.gh.color] }) ∧
    (∀ x y cx cy,
      IsCoord E.coordBits (s.gh.x + x) → IsCoord E.coordBits (s.gh.y + y) →
      gwinDrawBox E s x y cx cy =
      { s with log := s.log ++ [.gdispSetClip s.gh.x s.gh.y s.gh.width s.gh.height,
          .gdispDrawBox (s.gh.x + x) (s.gh.y + y) cx cy s.gh.color] }) ∧
    (∀ x y cx cy,
      IsCoord E.coordBits (s.gh.x + x) → IsCoord E.coordBits (s.gh.y + y) →
      gwinFillArea E s x y cx cy =
      { s with log := s.log ++ [.gdispSetClip s.gh.x s.gh.y s.gh.width s.gh.height,
          .gdispFillArea (s.gh.x + x) (s.gh.y + y) cx cy s.gh.color] }) ∧
    (∀ x y cx cy srcx srcy srccx buffer,
      IsCoord E.coordBits (s.gh.x + x) → IsCoord E.coordBits (s.gh.y + y) →
      gwinBlitArea E s x y cx cy srcx srcy srccx buffer =
      { s with log := s.log ++ [.gdispSetClip s.gh.x s.gh.y s.gh.width s.gh.height,
          .gdispBlitAreaEx (s.gh.x + x) (s.gh.y + y) cx cy srcx srcy srccx buffer] }) ∧
    (∀ x y radius,
      IsCoord E.coordBits (s.gh.x + x) → IsCoord E.coordBits (s.gh.y + y) →
      gwinDrawCircle E s x y radius =
      { s with log := s.log ++ [.gdispSetClip s.gh.x s.gh.y s.gh.width s.gh.height,
          .gdispDrawCircle (s.gh.x + x) (s.gh.y + y) radius s.gh.color] }) ∧
    (∀ x y radius,
      IsCoord E.coordBits (s.gh.x + x) → IsCoord E.coordBits (s.gh.y + y) →
      gwinFillCircle E s x y radius =
      { s with log := s.log ++ [.gdispSetClip s.gh.x s.gh.y s.gh.width s.gh.height,
          .gdispFillCircle (s.gh.x + x) (s.gh.y + y) radius s.gh.color] }) ∧
    (∀ x y a b,
      IsCoord E.coordBits (s.gh.x + x) → IsCoord E.coordBits (s.gh.y + y) →
      gwinDrawEllipse E s x y a b =
      { s with log := s.log ++ [.gdispSetClip s.gh.x s.gh.y s.gh.width s.gh.height,
          .gdispDrawEllipse (s.gh.x + x) (s.gh.y + y) a b s.gh.color] }) ∧
    (∀ x y a b,
      IsCoord E.coordBits (s.gh.x + x) → IsCoord E.coordBits (s.gh.y + y) →
      gwinFillEllipse E s x y a b =
      { s with log := s.log ++ [.gdispSetClip s.gh.x s.gh.y s.gh.width s.gh.height,
          .gdispFillEllipse (s.gh.x + x) (s.gh.y + y) a b s.gh.color] }) ∧
    (∀ x y radius startangle endangle,
      IsCoord E.coordBits (s.gh.x + x) → IsCoord E.coordBits (s.gh.y + y) →
      gwinDrawArc E s x y radius startangle endangle =
      { s with log := s.log ++ [.gdispSetClip s.gh.x s.gh.y s.gh.width s.gh.height,
          .gdispDrawArc (s.gh.x + x) (s.gh.y + y) radius startangle endangle s.gh.color] }) ∧
    (∀ x y radius startangle endangle,
      IsCoord E.coordBits (s.gh.x + x) → IsCoord E.coordBits (s.gh.y + y) →
      gwinFillArc E s x y radius startangle endangle =
      { s with log := s.log ++ [.gdispSetClip s.gh.x s.gh.y s.gh.width s.gh.height,
          .gdispFillArc (s.gh.x + x) (s.gh.y + y) radius startangle endangle s.gh.color] }) ∧
    (∀ tx ty pntarray cnt,
      IsCoord E.coordBits (tx + s.gh.x) → IsCoord E.coordBits (ty + s.gh.y) →
      gwinDrawPoly E s tx ty pntarray cnt =
      { s with log := s.log ++ [.gdispSetClip s.gh.x s.gh.y s.gh.width s.gh.height,
          .gdispDrawPoly (tx + s.gh.x) (ty + s.gh.y) pntarray cnt s.gh.color] }) ∧
    (∀ tx ty pntarray cnt,
      IsCoord E.coordBits (tx + s.gh.x) → IsCoord E.coordBits (ty + s.gh.y) →
      gwinFillConvexPoly E s tx ty pntarray cnt =
      { s with log := s.log ++ [.gdispSetClip s.gh.x s.gh.y s.gh.width s.gh.height,
          .gdispFillConvexPoly (tx + s.gh.x) (ty + s.gh.y) pntarray cnt s.gh.color] }) ∧
    (∀ img x y cx cy sx sy,
      IsCoord E.coordBits (s.gh.x + x) → IsCoord E.coordBits (s.gh.y + y) →
      gwinDrawImage E s img x y cx cy sx sy =
      (E.gdispImageDraw img (s.gh.x + x)
         (s.gh.y + y) cx cy sx sy,
       { s with log := s.log ++ [.gdispSetClip s.gh.x s.gh.y s.gh.width s.gh.height,
          .gdispImageDraw img (s.gh.x + x)
            (s.gh.y + y) cx cy sx sy] }))) := by
  constructor
  · refine ⟨?_, ?_, ?_, ?_, ?_, ?_, ?_, ?_, ?_, ?_, ?_, ?_, ?_, ?_⟩
    · intros; simp [gwinDrawPixel, hvis, gdispSetClip, emit]
    · intros; simp [gwinDrawLine, hvis, gdispSetClip, emit]
    · intros; simp [gwinDrawBox, hvis, gdispSetClip, emit]
    · intros; simp [gwinFillArea, hvis, gdispSetClip, emit]
    · intros; simp [gwinBlitArea, hvis, gdispSetClip, emit]
    · intros; simp [gwinDrawCircle, hvis, gdispSetClip, emit]
    · intros; simp [gwinFillCircle, hvis, gdispSetClip, emit]
    · intros; simp [gwinDrawEllipse, hvis, gdispSetClip, emit]
    · intros; simp [gwinFillEllipse, hvis, gdispSetClip, emit]
    · intros; simp [gwinDrawArc, hvis, gdispSetClip, emit]
    · intros; simp [gwinFillArc, hvis, gdispSetClip, emit]
    · intros; simp [gwinDrawPoly, hvis, gdispSetClip, emit]
    · intros; simp [gwinFillConvexPoly, hvis, gdispSetClip, emit]
    · intros; simp [gwinDrawImage, hvis, gdispSetClip, emit]
  · refine ⟨?_, ?_, ?_, ?_, ?_, ?_, ?_, ?_, ?_, ?_, ?_, ?_, ?_, ?_⟩
    · intro x y h0 h1
      simp [gwinDrawPixel, hvis, gdispSetClip, emit,
        toCoord_eq_self h0.1 h0.2, toCoord_eq_self h1.1 h1.2]
    · intro x0 y0 x1 y1 h0 h1 h2 h3
      simp [gwinDrawLine, hvis, gdispSetClip, emit,
        toCoord_eq_self h0.1 h0.2, toCoord_eq_self h1.1 h1.2, toCoord_eq_self h2.1 h2.2,
        toCoord_eq_self h3.1 h3.2]
    · intro x y cx cy h0 h1
      simp [gwinDrawBox, hvis, gdispSetClip, emit,
        toCoord_eq_self h0.1 h0.2, toCoord_eq_self h1.1 h1.2]
    · intro x y cx cy h0 h1
      simp [gwinFillArea, hvis, gdispSetClip, emit,
        toCoord_eq_self h0.1 h0.2, toCoord_eq_self h1.1 h1.2]
    · intro x y cx cy srcx srcy srccx buffer h0 h1
      simp [gwinBlitArea, hvis, gdispSetClip, emit,
        toCoord_eq_self h0.1 h0.2, toCoord_eq_self h1.1 h1.2]
    · intro x y radius h0 h1
      simp [gwinDrawCircle, hvis, gdispSetClip, emit,
        toCoord_eq_self h0.1 h0.2, toCoord_eq_self h1.1 h1.2]
    · intro x y radius h0 h1
      simp [gwinFillCircle, hvis, gdispSetClip, emit,
        toCoord_eq_self h0.1 h0.2, toCoord_eq_self h1.1 h1.2]
    · intro x y a b h0 h1
      simp [gwinDrawEllipse, hvis, gdispSetClip, emit,
        toCoord_eq_self h0.1 h0.2, toCoord_eq_self h1.1 h1.2]
    · intro x y a b h0 h1
      simp [gwinFillEllipse, hvis, gdispSetClip, emit,
        toCoord_eq_self h0.1 h0.2, toCoord_eq_self h1.1 h1.2]
    · intro x y radius startangle endangle h0 h1
      simp [gwinDrawArc, hvis, gdispSetClip, emit,
        toCoord_eq_self h0.1 h0.2, toCoord_eq_self h1.1 h1.2]
    · intro x y radius startangle endangle h0 h1
      simp [gwinFillArc, hvis, gdispSetClip, emit,
        toCoord_eq_self h0.1 h0.2, toCoord_eq_self h1.1 h1.2]
    · intro tx ty pntarray cnt h0 h1
      simp [gwinDrawPoly, hvis, gdispSetClip, emit,
        toCoord_eq_self h0.1 h0.2, toCoord_eq_self h1.1 h1.2]
    · intro tx ty pntarray cnt h0 h1
      simp [gwinFillConvexPoly, hvis, gdispSetClip, emit,
        toCoord_eq_self h0.1 h0.2, toCoord_eq_self h1.1 h1.2]
    · intro img x y cx cy sx sy h0 h1
      simp [gwinDrawImage, hvis, gdispSetClip, emit,
        toCoord_eq_self h0.1 h0.2, toCoord_eq_self h1.1 h1.2]

/-- Witness of C30: a line on the visible demo window at `(20, 30)`. -/
theorem C30_guard_and_dispatch_witness :
    gwinDrawLine demoEnv demoVisibleSt 1 2 3 4 =
      { demoVisibleSt with
        log := demoVisibleSt.log ++
          [.gdispSetClip demoVisibleSt.gh.x demoVisibleSt.gh.y demoVisibleSt.gh.width
             demoVisibleSt.gh.height,
           .gdispDrawLine (demoVisibleSt.gh.x + 1) (demoVisibleSt.gh.y + 2)
             (demoVisibleSt.gh.x + 3) (demoVisibleSt.gh.y + 4) demoVisibleSt.gh.color] } ∧
    (gwinDrawLine demoEnv demoVisibleSt 1 2 3 4).log =
      [.gdispSetClip 20 30 40 50, .gdispDrawLine 21 32 23 34 1] :=
  ⟨(C30_guard_and_dispatch demoEnv demoVisibleSt rfl).2.2.1 1 2 3 4 (by decide) (by decide)
    (by decide) (by decide), by decide⟩

/-- Counterexample to C30 as stated: with 16-bit coordinates a pixel at `(32767, 32767)` of
the visible window at `(20, 30)` reaches the surface at `(-32749, -32739)`, the sums
`(32787, 32797)` converted to the coordinate type, not at the translated position. -/
theorem C30_guard_and_dispatch_counterexample :
    flagSet demoVisibleSt.gh.flags demoEnv.GWIN_FLG_VISIBLE = true ∧
    IsCoord demoEnv.coordBits 32767 ∧
    (gwinDrawPixel demoEnv demoVisibleSt 32767 32767).log =
      [.gdispSetClip 20 30 40 50, .gdispDrawPixel (-32749) (-32739) 1] ∧
    (gwinDrawPixel demoEnv demoVisibleSt 32767 32767).log ≠
      [.gdispSetClip 20 30 40 50,
       .gdispDrawPixel (demoVisibleSt.gh.x + 32767) (demoVisibleSt.gh.y + 32767) 1] := by
  decide

/-! ## Lemmas on a rectangle that satisfies the invariant -/

/-- An origin within `0 .. S-1` is kept. -/
theorem axisPos_fix (bits : Nat) (S p : Int) (h2 : S < coordHalf bits) (hp0 : 0 ≤ p)
    (hp1 : p ≤ S - 1) : axisPos bits S p = p := by
  have hpp : toCoord bits p = p := toCoord_eq_self (by omega) (by omega)
  unfold axisPos
  rw [hpp]
  dsimp only
  split_ifs <;> omega

/-- An origin and extent that satisfy the invariant on an axis are kept. -/
theorem axis_fix (bits : Nat) (S p e : Int) (h2 : S < coordHalf bits) (hp0 : 0 ≤ p)
    (hp1 : p ≤ S - 1) (he : 1 ≤ e) (hpe : p + e ≤ S) :
    axisPos bits S p = p ∧ axisLen bits S p e = e := by
  have hpos := axisPos_fix bits S p h2 hp0 hp1
  have hpp : toCoord bits p = p := toCoord_eq_self (by omega) (by omega)
  have hee : toCoord bits e = e := toCoord_eq_self (by omega) (by omega)
  refine ⟨hpos, ?_⟩
  unfold axisLen
  rw [hpos, hpp, hee]
  dsimp only
  split_ifs <;> omega

/-- The clamp keeps a rectangle that satisfies the invariant. -/
theorem redimClamp_fix (E : Env) (hW : E.gdispGetWidth < coordHalf E.coordBits)
    (hH : E.gdispGetHeight < coordHalf E.coordBits) (gh : GWindowObject)
    (hin : InSurface E gh) : redimClamp E gh gh.x gh.y gh.width gh.height = gh := by
  obtain ⟨h1, h2, h3, h4, h5, h6, h7, h8⟩ := hin
  have ax := axis_fix E.coordBits E.gdispGetWidth gh.x gh.width hW h1 h2 h5 h7
  have ay := axis_fix E.coordBits E.gdispGetHeight gh.y gh.height hH h3 h4 h6 h8
  rw [redimClamp_eq, ax.1, ax.2, ay.1, ay.2]

/-- In the no-manager path a window returned by `gwinWindowCreate` satisfies the invariant. -/
theorem windowCreate_inSurface (E : Env) (hwm : E.GWIN_NEED_WINDOWMANAGER = false)
    (hW : 1 ≤ E.gdispGetWidth ∧ E.gdispGetWidth < coordHalf E.coordBits)
    (hH : 1 ≤ E.gdispGetHeight ∧ E.gdispGetHeight < coordHalf E.coordBits)
    (hHook : HooksKeepGeom E) (g : Globals) (pgw : Option (Nat × GWindowObject))
    (pInit : GWindowInit) (log : List Call) (s : St)
    (hs : gwinWindowCreate E g pgw pInit log = .handle s) : InSurface E s.gh := by
  unfold gwinWindowCreate at hs
  split at hs
  · exact Created.noConfusion hs
  · next s1 h1 =>
    have := Created.handle.inj hs
    subst this
    obtain ⟨s0, rfl⟩ := create_is_redim E hwm g pgw pInit _ _ log s1 h1
    exact inSurface_of_geom E (gwinSetVisible_geom E hwm hHook _ _)
      (redim_inSurface E hW hH hHook s0 _ _ _ _)

/-- The redim for the rectangle a window has keeps the rectangle, when it satisfies the
invariant. -/
theorem redim_same (E : Env) (hW : E.gdispGetWidth < coordHalf E.coordBits)
    (hH : E.gdispGetHeight < coordHalf E.coordBits) (hHook : HooksKeepGeom E) (t : St)
    (hin : InSurface E t.gh) :
    geom (_gwm_redim E t t.gh.x t.gh.y t.gh.width t.gh.height).gh = geom t.gh := by
  rw [redim_geom E hHook, redimClamp_fix E hW hH t.gh hin]

/-! ## Claims on the clamp as a relation -/

/-- C31. The fallback clamp is idempotent: on a surface of at least 1 x 1 (extents below the
upper end of the coordinate range) and for every request, the redim applied again to the
rectangle it produced leaves the rectangle unchanged; the clamp maps every rectangle that
satisfies the invariant to itself; hence in the no-manager path `gwinMove` to the current
position and `gwinResize` to the current size keep the rectangle of every window that
satisfies the invariant, and of every window returned by `gwinWindowCreate`. -/
theorem C31_clamp_idempotent (E : Env)
    (hW : 1 ≤ E.gdispGetWidth ∧ E.gdispGetWidth < coordHalf E.coordBits)
    (hH : 1 ≤ E.gdispGetHeight ∧ E.gdispGetHeight < coordHalf E.coordBits)
    (hHook : HooksKeepGeom E) :
    (∀ (s : St) (x y w h : Int) (t : St), t = _gwm_redim E s x y w h →
      geom (_gwm_redim E t t.gh.x t.gh.y t.gh.width t.gh.height).gh = geom t.gh) ∧
    (∀ gh x y w h,
      redimClamp E (redimClamp E gh x y w h) (redimClamp E gh x y w h).x
        (redimClamp E gh x y w h).y (redimClamp E gh x y w h).width
        (redimClamp E gh x y w h).height = redimClamp E gh x y w h) ∧
    (E.GWIN_NEED_WINDOWMANAGER = false → ∀ s : St, InSurface E s.gh →
      geom (gwinMove E s s.gh.x s.gh.y).gh = geom s.gh ∧
      geom (gwinResize E s s.gh.width s.gh.height).gh = geom s.gh) ∧
    (E.GWIN_NEED_WINDOWMANAGER = false → ∀ g pgw pInit log s,
      gwinWindowCreate E g pgw pInit log = .handle s →
      geom (gwinMove E s s.gh.x s.gh.y).gh = geom s.gh ∧
      geom (gwinResize E s s.gh.width s.gh.height).gh = geom s.gh) := by
  have hmr : E.GWIN_NEED_WINDOWMANAGER = false → ∀ s : St, InSurface E s.gh →
      geom (gwinMove E s s.gh.x s.gh.y).gh = geom s.gh ∧
      geom (gwinResize E s s.gh.width s.gh.height).gh = geom s.gh := by
    intro hwm s hin
    unfold gwinMove gwinResize
    simp only [hwm, Bool.false_eq_true, if_false]
    exact ⟨redim_same E hW.2 hH.2 hHook s hin, redim_same E hW.2 hH.2 hHook s hin⟩
  refine ⟨?_, ?_, hmr, ?_⟩
  · intro s x y w h t ht
    subst ht
    exact redim_same E hW.2 hH.2 hHook _ (redim_inSurface E hW hH hHook s x y w h)
  · intro gh x y w h
    apply redimClamp_fix E hW.2 hH.2
    have ax := axis_inv E.coordBits E.gdispGetWidth x w hW.1 hW.2
    have ay := axis_inv E.coordBits E.gdispGetHeight y h hH.1 hH.2
    rw [redimClamp_eq]
    exact ⟨ax.1, ax.2.1, ay.1, ay.2.1, ax.2.2.1, ay.2.2.1, ax.2.2.2, ay.2.2.2⟩
  · intro hwm g pgw pInit log s hs
    exact hmr hwm s (windowCreate_inSurface E hwm hW hH hHook g pgw pInit log s hs)

/-- Witness of C31: the demo window, clamped from a request partly off the 100 x 100 surface,
is kept by a second redim for the rectangle it has. -/
theorem C31_clamp_idempotent_witness :
    geom (_gwm_redim demoEnv (_gwm_redim demoEnv demoSt (-10) 80 40 50)
      (_gwm_redim demoEnv demoSt (-10) 80 40 50).gh.x
      (_gwm_redim demoEnv demoSt (-10) 80 40 50).gh.y
      (_gwm_redim demoEnv demoSt (-10) 80 40 50).gh.width
      (_gwm_redim demoEnv demoSt (-10) 80 40 50).gh.height).gh = (0, 80, 30, 20) ∧
    geom (_gwm_redim demoEnv demoSt (-10) 80 40 50).gh = (0, 80, 30, 20) :=
  ⟨((C31_clamp_idempotent demoEnv (by decide) (by decide) (fun _ _ => rfl)).1
      demoSt (-10) 80 40 50 _ rfl).trans (by decide), by decide⟩

/-- The policy on an axis gives the intersection with the surface for an interval of positive
extent that overlaps it. -/
theorem policy_intersect (S p e : Int) (hS : 1 ≤ S) (he : 0 < e) (hp : p < S)
    (hpe : 0 < p + e) : policyAxis S p e = intersectAxis S p e := by
  unfold policyAxis intersectAxis
  simp only [min_def, max_def]
  rw [Prod.mk.injEq]
  constructor
  · split_ifs <;> omega
  · split_ifs <;> omega

/-- C32. No-manager path, surface at least 1 x 1 with extents in the coordinate range: for
every request of coordinate values whose rectangle has positive width and height and overlaps
the surface (`x < W`, `y < H`, `x+w > 0`, `y+h > 0` in exact arithmetic), the final rectangle
of the window is the intersection of the requested rectangle with the surface rectangle
`(0, 0, W, H)`; a request that lies inside the surface is stored unchanged. -/
theorem C32_intersection (E : Env)
    (hW : 1 ≤ E.gdispGetWidth ∧ E.gdispGetWidth < coordHalf E.coordBits)
    (hH : 1 ≤ E.gdispGetHeight ∧ E.gdispGetHeight < coordHalf E.coordBits)
    (hHook : HooksKeepGeom E) (s : St) (x y w h : Int)
    (hx : IsCoord E.coordBits x) (hy : IsCoord E.coordBits y)
    (hw : IsCoord E.coordBits w) (hh : IsCoord E.coordBits h)
    (hpos : 0 < w ∧ 0 < h)
    (hov : x < E.gdispGetWidth ∧ y < E.gdispGetHeight ∧ 0 < x + w ∧ 0 < y + h) :
    geom (_gwm_redim E s x y w h).gh
        = intersectSurface E.gdispGetWidth E.gdispGetHeight x y w h ∧
      (0 ≤ x → 0 ≤ y → x + w ≤ E.gdispGetWidth → y + h ≤ E.gdispGetHeight →
        geom (_gwm_redim E s x y w h).gh = (x, y, w, h)) := by
  have hbits : 2 ≤ E.coordBits := by
    by_contra hb
    have : E.coordBits - 1 = 0 := by omega
    have h2 := hW.2
    unfold coordHalf at h2
    rw [this] at h2
    simp at h2
    omega
  obtain ⟨hx1, hx2⟩ := hx
  obtain ⟨hy1, hy2⟩ := hy
  obtain ⟨hw1, hw2⟩ := hw
  obtain ⟨hh1, hh2⟩ := hh
  have hfit : FitsRequest E.coordBits x y w h :=
    ⟨⟨hx1, hx2⟩, ⟨hy1, hy2⟩, ⟨hw1, hw2⟩, ⟨hh1, hh2⟩,
      fun _ => ⟨by omega, by omega⟩, fun _ => ⟨by omega, by omega⟩⟩
  have hp := redim_policy E hbits ⟨⟨by omega, hW.2⟩, ⟨by omega, by omega⟩⟩
    ⟨⟨by omega, hH.2⟩, ⟨by omega, by omega⟩⟩ hHook s x y w h hfit
  have hI : geom (_gwm_redim E s x y w h).gh
      = intersectSurface E.gdispGetWidth E.gdispGetHeight x y w h := by
    rw [hp]
    unfold redimPolicy intersectSurface
    rw [policy_intersect _ x w hW.1 hpos.1 hov.1 hov.2.2.1,
      policy_intersect _ y h hH.1 hpos.2 hov.2.1 hov.2.2.2]
  refine ⟨hI, ?_⟩
  intro h0x h0y hxw hyh
  rw [hI]
  unfold intersectSurface intersectAxis
  simp only [Prod.mk.injEq, min_def, max_def]
  refine ⟨?_, ?_, ?_, ?_⟩ <;> split_ifs <;> omega

/-- Witness of C32: on the 100 x 100 surface the request `(-10, 80, 40, 50)` ends as the
intersection `(0, 80, 30, 20)`. -/
theorem C32_intersection_witness :
    geom (_gwm_redim demoEnv demoSt (-10) 80 40 50).gh = (0, 80, 30, 20) :=
  ((C32_intersection demoEnv (by decide) (by decide) (fun _ _ => rfl) demoSt (-10) 80 40 50
    (by decide) (by decide) (by decide) (by decide) (by decide) (by decide)).1).trans
    (by decide)

/-- C33 (as amended). No-manager path, surface at least 1 x 1, per axis: for every request of
coordinate values, if the requested horizontal extent is entirely off the surface (`x ≥ W`, or
`x < 0` with `x + w ≤ 0`) and, where `x < 0`, the sum `w + x` is a coordinate value, then the
final width is exactly 1 and the final `x` is `W-1` (respectively `0`), whatever `y` and `h`
are; the final `y` and height are determined by `y` and `h` alone, whatever `x` and `w` are;
symmetrically for the vertical axis. So `(10,200,20,20)` on 100 x 100 ends as
`(10,99,20,1)`. -/
theorem C33_off_axis (E : Env)
    (hW : 1 ≤ E.gdispGetWidth ∧ E.gdispGetWidth < coordHalf E.coordBits)
    (hH : 1 ≤ E.gdispGetHeight ∧ E.gdispGetHeight < coordHalf E.coordBits)
    (hHook : HooksKeepGeom E) :
    (∀ s x y w h, IsCoord E.coordBits x → IsCoord E.coordBits w →
      (x < 0 → IsCoord E.coordBits (w + x)) → OffAxis E.gdispGetWidth x w →
        (_gwm_redim E s x y w h).gh.width = 1 ∧
        (_gwm_redim E s x y w h).gh.x = (if x < 0 then 0 else E.gdispGetWidth - 1)) ∧
    (∀ s x y w h, IsCoord E.coordBits y → IsCoord E.coordBits h →
      (y < 0 → IsCoord E.coordBits (h + y)) → OffAxis E.gdispGetHeight y h →
        (_gwm_redim E s x y w h).gh.height = 1 ∧
        (_gwm_redim E s x y w h).gh.y = (if y < 0 then 0 else E.gdispGetHeight - 1)) ∧
    (∀ s x y w h x2 w2,
      (_gwm_redim E s x y w h).gh.height = (_gwm_redim E s x2 y w2 h).gh.height ∧
      (_gwm_redim E s x y w h).gh.y = (_gwm_redim E s x2 y w2 h).gh.y) ∧
    (∀ s x y w h y2 h2,
      (_gwm_redim E s x y w h).gh.width = (_gwm_redim E s x y2 w h2).gh.width ∧
      (_gwm_redim E s x y w h).gh.x = (_gwm_redim E s x y2 w h2).gh.x) ∧
    (E.gdispGetWidth = 100 → E.gdispGetHeight = 100 → 220 < coordHalf E.coordBits →
      ∀ s, geom (_gwm_redim E s 10 200 20 20).gh = (10, 99, 20, 1)) := by
  have hg : ∀ s x y w h,
      (_gwm_redim E s x y w h).gh.x = axisPos E.coordBits E.gdispGetWidth x ∧
      (_gwm_redim E s x y w h).gh.y = axisPos E.coordBits E.gdispGetHeight y ∧
      (_gwm_redim E s x y w h).gh.width = axisLen E.coordBits E.gdispGetWidth x w ∧
      (_gwm_redim E s x y w h).gh.height = axisLen E.coordBits E.gdispGetHeight y h := by
    intro s x y w h
    have hg := redim_geom E hHook s x y w h
    rw [redimClamp_eq] at hg
    simp only [geom, Prod.mk.injEq] at hg
    exact hg
  refine ⟨?_, ?_, ?_, ?_, ?_⟩
  · intro s x y w h hx hw hox hoff
    have a := axis_off E.coordBits E.gdispGetWidth x w hW.1 hW.2 hx hw hox hoff
    rw [(hg s x y w h).1, (hg s x y w h).2.2.1]
    exact ⟨a.1, a.2⟩
  · intro s x y w h hy hh hoy hoff
    have a := axis_off E.coordBits E.gdispGetHeight y h hH.1 hH.2 hy hh hoy hoff
    rw [(hg s x y w h).2.1, (hg s x y w h).2.2.2]
    exact ⟨a.1, a.2⟩
  · intro s x y w h x2 w2
    rw [(hg s x y w h).2.1, (hg s x y w h).2.2.2, (hg s x2 y w2 h).2.1, (hg s x2 y w2 h).2.2.2]
    exact ⟨rfl, rfl⟩
  · intro s x y w h y2 h2
    rw [(hg s x y w h).1, (hg s x y w h).2.2.1, (hg s x y2 w h2).1, (hg s x y2 w h2).2.2.1]
    exact ⟨rfl, rfl⟩
  · intro eW eH hbig s
    have ax := axis_fix E.coordBits E.gdispGetWidth 10 20 hW.2 (by omega) (by omega) (by omega)
      (by omega)
    have ay := axis_off E.coordBits E.gdispGetHeight 200 20 hH.1 hH.2
      ⟨by omega, by omega⟩ ⟨by omega, by omega⟩ (fun hneg => absurd hneg (by omega))
      (Or.inl (by omega))
    simp only [geom, Prod.mk.injEq]
    rw [(hg s 10 200 20 20).1, (hg s 10 200 20 20).2.1, (hg s 10 200 20 20).2.2.1,
      (hg s 10 200 20 20).2.2.2, ax.1, ax.2, ay.1, ay.2]
    simp
    omega

/-- Witness of C33: `(10,200,20,20)` on the 100 x 100 surface ends as `(10,99,20,1)`. -/
theorem C33_off_axis_witness :
    geom (_gwm_redim demoEnv demoSt 10 200 20 20).gh = (10, 99, 20, 1) :=
  (C33_off_axis demoEnv (by decide) (by decide) (fun _ _ => rfl)).2.2.2.2 rfl rfl (by decide)
    demoSt

/-- Counterexample to C33 as stated: with 16-bit coordinates on the 100 x 100 surface the
request `(-32768, 5, -2, 10)` has `x < 0` and `x + w ≤ 0`, yet its final width is 100 and not
1, because `width += x` wraps around to `32766`. -/
theorem C33_off_axis_counterexample :
    OffAxis demoEnv.gdispGetWidth (-32768) (-2) ∧
    ((-32768 : Int) < 0 ∧ (-32768 : Int) + (-2) ≤ 0) ∧
    IsCoord demoEnv.coordBits (-32768) ∧ IsCoord demoEnv.coordBits (-2) ∧
    geom (_gwm_redim demoEnv demoSt (-32768) 5 (-2) 10).gh = (0, 5, 100, 10) ∧
    (_gwm_redim demoEnv demoSt (-32768) 5 (-2) 10).gh.width ≠ 1 := by
  decide

/-! ## Claims on moving and resizing -/

/-- C34. No-manager path: for every window whose position satisfies the clamp invariant
(`0 ≤ x ≤ W-1`, `0 ≤ y ≤ H-1`, as holds for every window that lies in the surface),
`gwinResize` never changes the position `(x, y)` of the window, for every `cx` and `cy`,
zero and negative values included. -/
theorem C34_resize_keeps_position (E : Env) (hwm : E.GWIN_NEED_WINDOWMANAGER = false)
    (hW : E.gdispGetWidth < coordHalf E.coordBits)
    (hH : E.gdispGetHeight < coordHalf E.coordBits)
    (hHook : HooksKeepGeom E) (s : St)
    (hx : 0 ≤ s.gh.x ∧ s.gh.x ≤ E.gdispGetWidth - 1)
    (hy : 0 ≤ s.gh.y ∧ s.gh.y ≤ E.gdispGetHeight - 1) (cx cy : Int) :
    (gwinResize E s cx cy).gh.x = s.gh.x ∧ (gwinResize E s cx cy).gh.y = s.gh.y := by
  have hg := redim_geom E hHook s s.gh.x s.gh.y cx cy
  rw [redimClamp_eq] at hg
  simp only [geom, Prod.mk.injEq] at hg
  unfold gwinResize
  simp only [hwm, Bool.false_eq_true, if_false]
  rw [hg.1, hg.2.1, axisPos_fix _ _ _ hW hx.1 hx.2, axisPos_fix _ _ _ hH hy.1 hy.2]
  exact ⟨rfl, rfl⟩

/-- Witness of C34: the demo window at `(20, 30)` stays there when resized to `(0, -5)`. -/
theorem C34_resize_keeps_position_witness :
    (gwinResize demoEnv demoSt 0 (-5)).gh.x = 20 ∧ (gwinResize demoEnv demoSt 0 (-5)).gh.y = 30 :=
  C34_resize_keeps_position demoEnv rfl (by decide) (by decide) (fun _ _ => rfl) demoSt
    (by decide) (by decide) 0 (-5)

/-- The final extent on an axis is at most the requested one, when that is at least 1. -/
theorem axisLen_le (bits : Nat) (S p e : Int) (h1 : 1 ≤ S) (h2 : S < coordHalf bits)
    (he1 : 1 ≤ e) (he2 : e < coordHalf bits) : axisLen bits S p e ≤ e := by
  have hpos := axisPos_inv bits S p h1 h2
  have hr := toCoord_range bits p
  have hee : toCoord bits e = e := toCoord_eq_self (by omega) he2
  unfold axisLen
  generalize axisPos bits S p = q at hpos ⊢
  have hq : toCoord bits (S - q) = S - q := toCoord_eq_self (by omega) (by omega)
  rw [hq, hee]
  generalize toCoord bits p = d at hr ⊢
  by_cases hd : d < 0
  · have hs : toCoord bits (e + d) = e + d := toCoord_eq_self (by omega) (by omega)
    rw [hs]
    dsimp only
    split_ifs <;> omega
  · dsimp only
    split_ifs <;> omega

/-- C35. No-manager path, surface at least 1 x 1: for every window with width and height at
least 1 and every target `(x, y)`, `gwinMove` never enlarges the window: the final width is
at most the previous width and the final height at most the previous height. The shrink is
not undone by a later move: the 40 x 50 window at `(20, 30)` on the 100 x 100 surface, moved
to `(-10, 30)` and back to `(20, 30)`, is 30 x 50, strictly smaller than it was. -/
theorem C35_move_never_enlarges (E : Env) (hwm : E.GWIN_NEED_WINDOWMANAGER = false)
    (hW : 1 ≤ E.gdispGetWidth ∧ E.gdispGetWidth < coordHalf E.coordBits)
    (hH : 1 ≤ E.gdispGetHeight ∧ E.gdispGetHeight < coordHalf E.coordBits)
    (hHook : HooksKeepGeom E) (s : St)
    (hw : 1 ≤ s.gh.width ∧ s.gh.width < coordHalf E.coordBits)
    (hh : 1 ≤ s.gh.height ∧ s.gh.height < coordHalf E.coordBits) (x y : Int) :
    ((gwinMove E s x y).gh.width ≤ s.gh.width ∧ (gwinMove E s x y).gh.height ≤ s.gh.height) ∧
    (geom demoSt.gh = (20, 30, 40, 50) ∧
      geom (gwinMove demoEnv demoSt (-10) 30).gh = (0, 30, 30, 50) ∧
      geom demoMovedBackSt.gh = (20, 30, 30, 50) ∧
      demoMovedBackSt.gh.width < demoSt.gh.width) := by
  have hg := redim_geom E hHook s x y s.gh.width s.gh.height
  rw [redimClamp_eq] at hg
  simp only [geom, Prod.mk.injEq] at hg
  refine ⟨?_, by decide⟩
  unfold gwinMove
  simp only [hwm, Bool.false_eq_true, if_false]
  rw [hg.2.2.1, hg.2.2.2]
  exact ⟨axisLen_le _ _ _ _ hW.1 hW.2 hw.1 hw.2, axisLen_le _ _ _ _ hH.1 hH.2 hh.1 hh.2⟩

/-- Witness of C35: the demo window moved to `(-10, 30)` is no wider and no higher than
before. -/
theorem C35_move_never_enlarges_witness :
    (gwinMove demoEnv demoSt (-10) 30).gh.width ≤ 40 ∧
    (gwinMove demoEnv demoSt (-10) 30).gh.height ≤ 50 :=
  (C35_move_never_enlarges demoEnv rfl (by decide) (by decide) (fun _ _ => rfl) demoSt
    (by decide) (by decide) (-10) 30).1

/-! ## Claims on the frame of the flags -/

/-- The `gwinSetVisible` keeps every flag bit outside the VISIBLE mask. -/
theorem gwinSetVisible_mask (E : Env) (hHook : HooksKeepFlags E)
    (hWm : ∀ gh, (E.wmVisible gh).flags = gh.flags) (m : Nat)
    (hd : E.GWIN_FLG_VISIBLE &&& m = 0) (hm : m < 2 ^ 16) (s : St) (v : Bool) :
    (gwinSetVisible E s v).gh.flags &&& m = s.gh.flags &&& m := by
  unfold gwinSetVisible
  split_ifs
  · simp only [wmVisible, hWm]
    exact or_and_other _ _ _ hd
  · rw [gwm_vis_flags E hHook]
    exact or_and_other _ _ _ hd
  · rfl
  · simp only [wmVisible, hWm]
    exact clear_and_other _ _ _ hd hm
  · exact clear_and_other _ _ _ hd hm
  · rfl

/-- The `gwinSetEnabled` keeps every flag bit outside the ENABLED mask, and the storage. -/
theorem gwinSetEnabled_mask (E : Env) (hHook : HooksKeepFlags E) (m : Nat)
    (hd : E.GWIN_FLG_ENABLED &&& m = 0) (hm : m < 2 ^ 16) (s : St) (e : Bool) :
    (gwinSetEnabled E s e).gh.flags &&& m = s.gh.flags &&& m ∧
      (gwinSetEnabled E s e).ptr = s.ptr := by
  unfold gwinSetEnabled
  dsimp only
  split_ifs
  · refine ⟨?_, rfl⟩
    simp only [vmtRedraw, gdispSetClip, emit, hHook _ _]
    exact or_and_other _ _ _ hd
  · exact ⟨or_and_other _ _ _ hd, rfl⟩
  · exact ⟨rfl, rfl⟩
  · refine ⟨?_, rfl⟩
    simp only [vmtRedraw, gdispSetClip, emit, hHook _ _]
    exact clear_and_other _ _ _ hd hm
  · exact ⟨clear_and_other _ _ _ hd hm, rfl⟩
  · exact ⟨rfl, rfl⟩

/-- The geometry routines and `gwinRedraw` keep the flags and the storage. -/
theorem geometry_flags (E : Env) (hHook : HooksKeepFlags E)
    (hM : ManagerKeeps E (fun gh => gh.flags)) (s : St) :
    (∀ x y, (gwinMove E s x y).gh.flags = s.gh.flags ∧ (gwinMove E s x y).ptr = s.ptr) ∧
    (∀ w h, (gwinResize E s w h).gh.flags = s.gh.flags ∧ (gwinResize E s w h).ptr = s.ptr) ∧
    ((gwinRedraw E s).gh.flags = s.gh.flags ∧ (gwinRedraw E s).ptr = s.ptr) := by
  have hr := redim_keeps E (fun gh => gh.flags) hHook (fun _ _ _ _ _ => rfl) s
  refine ⟨?_, ?_, ?_⟩
  · intro x y
    unfold gwinMove
    split_ifs
    · exact ⟨hM.2.2.2.1 _ _ _ _ _, rfl⟩
    · exact ⟨(hr _ _ _ _).1, (hr _ _ _ _).2.1⟩
  · intro w h
    unfold gwinResize
    split_ifs
    · exact ⟨hM.2.2.2.1 _ _ _ _ _, rfl⟩
    · exact ⟨(hr _ _ _ _).1, (hr _ _ _ _).2.1⟩
  · unfold gwinRedraw
    split_ifs
    · exact ⟨hM.2.2.2.2 _, rfl⟩
    · exact ⟨gwm_vis_flags E hHook s, (gwm_vis_ptr_frees E s).1⟩
    · exact ⟨rfl, rfl⟩

/-- Every call other than `gwinSetVisible` and `gwinSetEnabled` keeps the flags. -/
theorem applyOp_flags (E : Env) (hHook : HooksKeepFlags E)
    (hM : ManagerKeeps E (fun gh => gh.flags)) (g : Globals) (s : St) (op : FacadeOp)
    (h1 : ∀ v, op ≠ .setVisible v) (h2 : ∀ e, op ≠ .setEnabled e) :
    (applyOp E g s op).gh.flags = s.gh.flags := by
  have hg := geometry_flags E hHook hM s
  cases op with
  | setVisible v => exact absurd rfl (h1 v)
  | setEnabled e => exact absurd rfl (h2 e)
  | move x y => exact (hg.1 x y).1
  | resize w h => exact (hg.2.1 w h).1
  | redraw => exact hg.2.2.1
  | clear => exact gwinClear_flags E hHook s
  | setFont font => rfl
  | setColor clr => rfl
  | setBgColor clr => rfl
  | _ =>
    simp only [applyOp, gwinDrawPixel, gwinDrawLine, gwinDrawBox, gwinFillArea, gwinBlitArea,
      gwinDrawCircle, gwinFillCircle, gwinDrawEllipse, gwinFillEllipse, gwinDrawArc, gwinFillArc,
      gwinGetPixelColor, gwinDrawChar, gwinFillChar, gwinDrawString, gwinFillString,
      gwinDrawStringBox, gwinFillStringBox, gwinDrawPoly, gwinFillConvexPoly, gwinDrawImage]
    split_ifs <;> rfl

/-- Every call keeps the storage of the window. -/
theorem applyOp_ptr (E : Env) (g : Globals) (s : St) (op : FacadeOp) :
    (applyOp E g s op).ptr = s.ptr := by
  cases op with
  | setVisible v => exact (gwinSetVisible_ptr_frees E s v).1
  | setEnabled e =>
    simp only [applyOp]
    unfold gwinSetEnabled
    dsimp only
    split_ifs <;> rfl
  | move x y =>
    simp only [applyOp]
    unfold gwinMove _gwm_redim
    dsimp only
    split_ifs <;> rfl
  | resize w h =>
    simp only [applyOp]
    unfold gwinResize _gwm_redim
    dsimp only
    split_ifs <;> rfl
  | redraw =>
    simp only [applyOp]
    unfold gwinRedraw
    split_ifs
    · rfl
    · exact (gwm_vis_ptr_frees E s).1
    · rfl
  | clear => exact (gwinClear_ptr_frees E s).1
  | setFont font => rfl
  | setColor clr => rfl
  | setBgColor clr => rfl
  | _ =>
    simp only [applyOp, gwinDrawPixel, gwinDrawLine, gwinDrawBox, gwinFillArea, gwinBlitArea,
      gwinDrawCircle, gwinFillCircle, gwinDrawEllipse, gwinFillEllipse, gwinDrawArc, gwinFillArc,
      gwinGetPixelColor, gwinDrawChar, gwinFillChar, gwinDrawString, gwinFillString,
      gwinDrawStringBox, gwinFillStringBox, gwinDrawPoly, gwinFillConvexPoly, gwinDrawImage]
    split_ifs <;> rfl

/-- Every call keeps the flag bits outside the VISIBLE and ENABLED masks. -/
theorem applyOp_mask (E : Env) (hHook : HooksKeepFlags E)
    (hM : ManagerKeeps E (fun gh => gh.flags)) (g : Globals) (m : Nat)
    (hV : E.GWIN_FLG_VISIBLE &&& m = 0) (hE : E.GWIN_FLG_ENABLED &&& m = 0) (hm : m < 2 ^ 16)
    (s : St) (op : FacadeOp) : (applyOp E g s op).gh.flags &&& m = s.gh.flags &&& m := by
  by_cases h1 : ∃ v, op = .setVisible v
  · obtain ⟨v, rfl⟩ := h1
    exact gwinSetVisible_mask E hHook hM.2.1 m hV hm s v
  · by_cases h2 : ∃ e, op = .setEnabled e
    · obtain ⟨e, rfl⟩ := h2
      exact (gwinSetEnabled_mask E hHook m hE hm s e).1
    · rw [applyOp_flags E hHook hM g s op (fun v hv => h1 ⟨v, hv⟩) (fun e he => h2 ⟨e, he⟩)]

/-- A sequence of calls keeps the flag bits outside the VISIBLE and ENABLED masks, and the
storage. -/
theorem runOps_mask (E : Env) (hHook : HooksKeepFlags E)
    (hM : ManagerKeeps E (fun gh => gh.flags)) (g : Globals) (m : Nat)
    (hV : E.GWIN_FLG_VISIBLE &&& m = 0) (hE : E.GWIN_FLG_ENABLED &&& m = 0) (hm : m < 2 ^ 16)
    (ops : List FacadeOp) (s : St) :
    (runOps E g s ops).gh.flags &&& m = s.gh.flags &&& m ∧ (runOps E g s ops).ptr = s.ptr := by
  induction ops generalizing s with
  | nil => exact ⟨rfl, rfl⟩
  | cons op ops ih =>
    have h := ih (applyOp E g s op)
    simp only [runOps]
    rw [h.1, h.2, applyOp_mask E hHook hM g m hV hE hm s op, applyOp_ptr]
    exact ⟨rfl, rfl⟩

/-- C36. Flag frame, for class hooks and manager operations that leave the flags alone:
`gwinSetVisible` changes no flag bit outside the VISIBLE mask, `gwinSetEnabled` changes no
flag bit outside the ENABLED mask, and `gwinMove`, `gwinResize`, `gwinRedraw`, `gwinSetFont`
and every drawing routine change no flag bit at all. Hence, with a DYNAMIC mask disjoint from
both, after any sequence of such calls the DYNAMIC test of `gwinDestroy` reads the bit the
window had at construction: the destruction frees the storage exactly when that bit was
set. -/
theorem C36_flag_frame (E : Env) (hHook : HooksKeepFlags E)
    (hM : ManagerKeeps E (fun gh => gh.flags)) (g : Globals) :
    (∀ s v m, E.GWIN_FLG_VISIBLE &&& m = 0 → m < 2 ^ 16 →
      (gwinSetVisible E s v).gh.flags &&& m = s.gh.flags &&& m) ∧
    (∀ s e m, E.GWIN_FLG_ENABLED &&& m = 0 → m < 2 ^ 16 →
      (gwinSetEnabled E s e).gh.flags &&& m = s.gh.flags &&& m) ∧
    (∀ s x y, (gwinMove E s x y).gh.flags = s.gh.flags) ∧
    (∀ s w h, (gwinResize E s w h).gh.flags = s.gh.flags) ∧
    (∀ s, (gwinRedraw E s).gh.flags = s.gh.flags) ∧
    (∀ s font, (gwinSetFont s font).gh.flags = s.gh.flags) ∧
    (∀ s op, (∀ v, op ≠ .setVisible v) → (∀ e, op ≠ .setEnabled e) →
      (applyOp E g s op).gh.flags = s.gh.flags) ∧
    (E.GWIN_FLG_VISIBLE &&& E.GWIN_FLG_DYNAMIC = 0 →
      E.GWIN_FLG_ENABLED &&& E.GWIN_FLG_DYNAMIC = 0 → E.GWIN_FLG_DYNAMIC < 2 ^ 16 →
      ∀ s ops,
        flagSet (runOps E g s ops).gh.flags E.GWIN_FLG_DYNAMIC
          = flagSet s.gh.flags E.GWIN_FLG_DYNAMIC ∧
        frees (gwinDestroy E (runOps E g s ops)).log
          = frees (runOps E g s ops).log
              ++ (if flagSet s.gh.flags E.GWIN_FLG_DYNAMIC then [s.ptr] else [])) := by
  refine ⟨?_, ?_, ?_, ?_, ?_, ?_, ?_, ?_⟩
  · intro s v m hd hm
    exact gwinSetVisible_mask E hHook hM.2.1 m hd hm s v
  · intro s e m hd hm
    exact (gwinSetEnabled_mask E hHook m hd hm s e).1
  · intro s x y
    exact ((geometry_flags E hHook hM s).1 x y).1
  · intro s w h
    exact ((geometry_flags E hHook hM s).2.1 w h).1
  · intro s
    exact (geometry_flags E hHook hM s).2.2.1
  · intro s font
    rfl
  · intro s op h1 h2
    exact applyOp_flags E hHook hM g s op h1 h2
  · intro hV hE hm s ops
    have h := runOps_mask E hHook hM g _ hV hE hm ops s
    have hf : flagSet (runOps E g s ops).gh.flags E.GWIN_FLG_DYNAMIC
        = flagSet s.gh.flags E.GWIN_FLG_DYNAMIC := by
      unfold flagSet
      rw [h.1]
    refine ⟨hf, ?_⟩
    rw [gwinDestroy_frees E hHook hM.2.2.1, hf, h.2]

/-- Witness of C36: the dynamic demo window, shown, enabled, moved, drawn on, resized and
hidden, is freed by its destruction. -/
theorem C36_flag_frame_witness :
    frees (gwinDestroy demoEnv (runOps demoEnv demoGlobals demoDynSt demoOps)).log = [12288] :=
  (((C36_flag_frame demoEnv (fun _ _ => rfl)
      ⟨fun _ _ => rfl, fun _ => rfl, fun _ => rfl, fun _ _ _ _ _ => rfl, fun _ => rfl⟩
      demoGlobals).2.2.2.2.2.2.2 (by decide) (by decide) (by decide) demoDynSt demoOps).2).trans
    (by decide)

/-! ## Claims on the image routine and on the flags of a new window -/

/-- C37 (as amended). For every hidden window and all arguments `gwinDrawImage` returns the
success code `GDISP_IMAGE_ERR_OK` and issues no call, neither to the surface nor to the image
decoder; for every visible window it sets the clip to the bounds of the window and returns
the result of the image draw of the surface at `(window.x + x, window.y + y)` converted to
the coordinate type, with `cx`, `cy`, `sx`, `sy` passed unchanged; when both sums fit the
coordinate type the position is `(window.x + x, window.y + y)` itself. -/
theorem C37_drawImage (E : Env) (s : St) (img : Nat) (x y cx cy sx sy : Int) :
    (flagSet s.gh.flags E.GWIN_FLG_VISIBLE = false →
      gwinDrawImage E s img x y cx cy sx sy = (E.GDISP_IMAGE_ERR_OK, s)) ∧
    (flagSet s.gh.flags E.GWIN_FLG_VISIBLE = true →
      gwinDrawImage E s img x y cx cy sx sy =
        (E.gdispImageDraw img (toCoord E.coordBits (s.gh.x + x))
           (toCoord E.coordBits (s.gh.y + y)) cx cy sx sy,
         { s with log := s.log ++ [.gdispSetClip s.gh.x s.gh.y s.gh.width s.gh.height,
             .gdispImageDraw img (toCoord E.coordBits (s.gh.x + x))
               (toCoord E.coordBits (s.gh.y + y)) cx cy sx sy] })) ∧
    (flagSet s.gh.flags E.GWIN_FLG_VISIBLE = true →
      IsCoord E.coordBits (s.gh.x + x) → IsCoord E.coordBits (s.gh.y + y) →
      gwinDrawImage E s img x y cx cy sx sy =
        (E.gdispImageDraw img (s.gh.x + x) (s.gh.y + y) cx cy sx sy,
         { s with log := s.log ++ [.gdispSetClip s.gh.x s.gh.y s.gh.width s.gh.height,
             .gdispImageDraw img (s.gh.x + x) (s.gh.y + y) cx cy sx sy] })) := by
  refine ⟨?_, ?_, ?_⟩
  · intro h
    unfold gwinDrawImage
    simp [h]
  · intro h
    unfold gwinDrawImage
    simp [h, gdispSetClip, emit]
  · intro h hx hy
    unfold gwinDrawImage
    simp [h, gdispSetClip, emit, toCoord_eq_self hx.1 hx.2, toCoord_eq_self hy.1 hy.2]

/-- Witness of C37: on the hidden demo window the image routine returns the success code and
leaves the state, log included, as it was; on the visible one at `(20, 30)` the image at
`(1, 2)` is drawn at `(21, 32)` after the clip to the bounds. -/
theorem C37_drawImage_witness :
    gwinDrawImage demoEnv demoSt 7 1 2 3 4 5 6 = (demoEnv.GDISP_IMAGE_ERR_OK, demoSt) ∧
    gwinDrawImage demoEnv demoVisibleSt 7 1 2 3 4 5 6 =
      (demoEnv.gdispImageDraw 7 21 32 3 4 5 6,
       { demoVisibleSt with
         log := [.gdispSetClip 20 30 40 50, .gdispImageDraw 7 21 32 3 4 5 6] }) :=
  ⟨(C37_drawImage demoEnv demoSt 7 1 2 3 4 5 6).1 (by decide),
   (C37_drawImage demoEnv demoVisibleSt 7 1 2 3 4 5 6).2.2 (by decide) (by decide)
     (by decide)⟩

/-- Counterexample to C37 as stated: with 16-bit coordinates the image at `x = 32767` of the
visible window at `(20, 30)` is drawn at column `-32749`, the sum `32787` converted to the
coordinate type; on a surface whose image draw gives `2` at column `32787` and `1` elsewhere
the routine returns `1`, not the result at `(window.x + x, window.y + y)`. -/
theorem C37_drawImage_counterexample :
    flagSet demoVisibleSt.gh.flags demoEnvProbe.GWIN_FLG_VISIBLE = true ∧
    IsCoord demoEnvProbe.coordBits 32767 ∧
    (gwinDrawImage demoEnvProbe demoVisibleSt 7 32767 0 3 4 5 6).1 = 1 ∧
    demoEnvProbe.gdispImageDraw 7 (demoVisibleSt.gh.x + 32767) (demoVisibleSt.gh.y + 0) 3 4 5 6
      = 2 ∧
    (gwinDrawImage demoEnvProbe demoVisibleSt 7 32767 0 3 4 5 6).2.log =
      [.gdispSetClip 20 30 40 50, .gdispImageDraw 7 (-32749) 30 3 4 5 6] := by
  decide

/-- In the no-manager path a handle returned by `gwinWindowCreate` is the outcome of the show
step on the redim of the initialised storage, whose flags are DYNAMIC alone when the storage
was allocated and none otherwise. -/
theorem windowCreate_steps (E : Env) (hwm : E.GWIN_NEED_WINDOWMANAGER = false) (g : Globals)
    (pgw : Option (Nat × GWindowObject)) (pInit : GWindowInit) (log : List Call) (s : St)
    (h : gwinWindowCreate E g pgw pInit log = .handle s) :
    ∃ p o, s = gwinSetVisible E
      (_gwm_redim E
        { ptr := p,
          gh := initObj g o ⟨E.addrBasegwinVMT, basegwinVMT E⟩
            (if pgw.isNone then 0 ||| E.GWIN_FLG_DYNAMIC else 0),
          log := log ++ (if pgw.isNone then [.gfxAlloc E.sizeofGWindowObject] else []) }
        pInit.x pInit.y pInit.width pInit.height) pInit.«show» := by
  unfold gwinWindowCreate at h
  split at h
  · exact Created.noConfusion h
  · next s1 h1 =>
    have := Created.handle.inj h
    subst this
    obtain ⟨s0, hb, hr⟩ := create_handle E g pgw pInit _ 0 log s1 h1
    unfold createRegister at hr
    simp only [hwm, Bool.false_eq_true, if_false] at hr
    have hr := Created.handle.inj hr
    subst hr
    rcases pgw with _ | ⟨p, o⟩
    · unfold createBase at hb
      rcases hal : E.gfxAlloc (basegwinVMT E).size with _ | ⟨p, o⟩
      · simp [hal] at hb
      · simp only [hal] at hb
        have hb := Option.some.inj hb
        subst hb
        exact ⟨p, o, rfl⟩
    · rw [createBase_some] at hb
      have hb := Option.some.inj hb
      subst hb
      refine ⟨p, o, ?_⟩
      simp

/-- The hide step after the redim of storage that is not visible changes nothing, and the
redim issues no call. -/
theorem hide_after_register (E : Env) (g : Globals) (p : Nat) (o : GWindowObject)
    (vmt : VmtPtr) (flags0 : Nat) (hf : flagSet flags0 E.GWIN_FLG_VISIBLE = false)
    (x y w h : Int) (log : List Call) :
    gwinSetVisible E
      (_gwm_redim E { ptr := p, gh := initObj g o vmt flags0, log := log } x y w h) false =
      { ptr := p, gh := redimClamp E (initObj g o vmt flags0) x y w h, log := log } := by
  have hr : _gwm_redim E { ptr := p, gh := initObj g o vmt flags0, log := log } x y w h =
      { ptr := p, gh := redimClamp E (initObj g o vmt flags0) x y w h, log := log } := by
    unfold _gwm_redim
    simp [redimClamp_flags, initObj, hf]
  rw [hr]
  unfold gwinSetVisible
  simp [redimClamp_flags, initObj, hf]

/-- C38. No-manager path, non-zero VISIBLE mask disjoint from the DYNAMIC mask: right after
a successful `gwinWindowCreate` the flags of the window are exactly DYNAMIC if and only if the
storage was allocated by the call, plus VISIBLE if and only if the `show` field of the
descriptor is true, and no other bit. So, with an ENABLED mask disjoint from both, a new base
window is never enabled; the DYNAMIC test tells whether the storage was allocated and the
VISIBLE test gives `show`; and with `show` false the creation issues no call to the surface:
the log grows by the allocation request alone, or by nothing in caller storage. -/
theorem C38_fresh_flags (E : Env) (hwm : E.GWIN_NEED_WINDOWMANAGER = false)
    (hV0 : E.GWIN_FLG_VISIBLE ≠ 0)
    (hDV : E.GWIN_FLG_DYNAMIC &&& E.GWIN_FLG_VISIBLE = 0)
    (g : Globals) (pgw : Option (Nat × GWindowObject)) (pInit : GWindowInit)
    (log : List Call) (s : St) (h : gwinWindowCreate E g pgw pInit log = .handle s) :
    s.gh.flags = (if pgw.isNone then E.GWIN_FLG_DYNAMIC else 0)
        ||| (if pInit.«show» then E.GWIN_FLG_VISIBLE else 0) ∧
    (pInit.«show» = false →
      s.log = log ++ (if pgw.isNone then [.gfxAlloc E.sizeofGWindowObject] else [])) ∧
    gwinGetVisible E s = pInit.«show» ∧
    (E.GWIN_FLG_DYNAMIC ≠ 0 → flagSet s.gh.flags E.GWIN_FLG_DYNAMIC = pgw.isNone) ∧
    (E.GWIN_FLG_DYNAMIC &&& E.GWIN_FLG_ENABLED = 0 →
      E.GWIN_FLG_VISIBLE &&& E.GWIN_FLG_ENABLED = 0 → gwinGetEnabled E s = false) := by
  obtain ⟨p, o, hs⟩ := windowCreate_steps E hwm g pgw pInit log s h
  have hf0 : flagSet (if pgw.isNone then 0 ||| E.GWIN_FLG_DYNAMIC else 0) E.GWIN_FLG_VISIBLE
      = false := by
    split_ifs
    · rw [flagSet_or_other _ _ _ hDV]
      exact flagSet_zero _
    · exact flagSet_zero _
  have hfl : s.gh.flags = (if pgw.isNone then E.GWIN_FLG_DYNAMIC else 0)
        ||| (if pInit.«show» then E.GWIN_FLG_VISIBLE else 0) ∧
      (pInit.«show» = false →
        s.log = log ++ (if pgw.isNone then [.gfxAlloc E.sizeofGWindowObject] else [])) := by
    rcases hsh : pInit.«show» with _ | _
    · rw [hsh, hide_after_register E g p o _ _ hf0] at hs
      subst hs
      simp only [redimClamp_flags, initObj, Bool.false_eq_true, if_false, Nat.or_zero]
      refine ⟨?_, fun _ => trivial⟩
      split_ifs
      · exact Nat.zero_or _
      · rfl
    · rw [hsh, show_after_register E hwm hV0 g p o _ hf0] at hs
      subst hs
      simp only [shownBase, if_true]
      refine ⟨?_, fun hc => Bool.noConfusion hc⟩
      split_ifs
      · rw [Nat.zero_or]
      · rfl
  refine ⟨hfl.1, hfl.2, ?_, ?_, ?_⟩
  · rw [gwinGetVisible_eq, hfl.1]
    rcases hsh : pInit.«show» with _ | _
    · simp only [Bool.false_eq_true, if_false, Nat.or_zero]
      split_ifs
      · unfold flagSet
        rw [hDV]
        rfl
      · exact flagSet_zero _
    · simp only [if_true]
      exact flagSet_or_self _ _ hV0
  · intro hD0
    rw [hfl.1]
    have hy : (if pInit.«show» = true then E.GWIN_FLG_VISIBLE else 0) &&& E.GWIN_FLG_DYNAMIC
        = 0 := by
      split_ifs
      · rw [Nat.and_comm]
        exact hDV
      · exact Nat.zero_and _
    unfold flagSet
    rw [or_and_other _ _ _ hy]
    rcases hn : pgw.isNone with _ | _
    · simp
    · simp [hD0]
  · intro hDE hVE
    rw [gwinGetEnabled_eq, hfl.1]
    have hy : (if pInit.«show» = true then E.GWIN_FLG_VISIBLE else 0) &&& E.GWIN_FLG_ENABLED
        = 0 := by
      split_ifs
      · exact hVE
      · exact Nat.zero_and _
    unfold flagSet
    rw [or_and_other _ _ _ hy]
    split_ifs
    · rw [hDE]
      rfl
    · rw [Nat.zero_and]
      rfl

/-- Witness of C38: a base window created hidden in allocated storage has the DYNAMIC flag
alone, and the creation issued the allocation request and nothing else. -/
theorem C38_fresh_flags_witness :
    (gwinSetVisible demoEnvAlloc
      (_gwm_redim demoEnvAlloc
        { ptr := 12288, gh := initObj demoGlobals demoWin ⟨4096, basegwinVMT demoEnvAlloc⟩ 1,
          log := [.gfxAlloc 32] } 0 0 50 50) false).gh.flags = 1 :=
  (C38_fresh_flags demoEnvAlloc rfl (by decide) (by decide) demoGlobals none
    { x := 0, y := 0, width := 50, height := 50, «show» := false } [] _ (by decide)).1

end GWin

/-! ## `stm32_ltdc.h`: the colour macro and the flag type -/

namespace LTDC

/-- The low byte of a converted component is the component modulo 256. -/
theorem toColor_and_byte (v : Int) : toColor v &&& 0xFF = (v % 256).toNat := by
  have h : (0xFF : Nat) = 2 ^ 8 - 1 := by norm_num
  rw [h, Nat.and_pow_two_sub_one_eq_mod]
  unfold toColor
  have h1 : 0 ≤ v % 4294967296 := Int.emod_nonneg _ (by norm_num)
  have h2 : 0 ≤ v % 256 := Int.emod_nonneg _ (by norm_num)
  zify
  rw [Int.toNat_of_nonneg h1, Int.toNat_of_nonneg h2]
  omega

/-- Four bytes shifted to their places and combined with `|` add up. -/
theorem or_bytes (a r g b : Nat) (ha : a < 256) (hr : r < 256) (hg : g < 256) (hb : b < 256) :
    shl32 a 24 ||| shl32 r 16 ||| shl32 g 8 ||| shl32 b 0
      = a * 2 ^ 24 + r * 2 ^ 16 + g * 2 ^ 8 + b := by
  unfold shl32
  simp only [Nat.shiftLeft_eq]
  rw [Nat.mod_eq_of_lt (by omega), Nat.mod_eq_of_lt (by omega), Nat.mod_eq_of_lt (by omega),
    Nat.mod_eq_of_lt (by omega)]
  have e1 : a * 2 ^ 24 ||| r * 2 ^ 16 = 2 ^ 16 * (a * 2 ^ 8 + r) := by
    have := @Nat.mul_add_lt_is_or 24 (r * 2 ^ 16) (by omega) a
    rw [show a * 2 ^ 24 = 2 ^ 24 * a by ring, ← this]
    ring
  have e2 : 2 ^ 16 * (a * 2 ^ 8 + r) ||| g * 2 ^ 8 = 2 ^ 8 * ((a * 2 ^ 8 + r) * 2 ^ 8 + g) := by
    have := @Nat.mul_add_lt_is_or 16 (g * 2 ^ 8) (by omega) (a * 2 ^ 8 + r)
    rw [← this]
    ring
  have e3 : 2 ^ 8 * ((a * 2 ^ 8 + r) * 2 ^ 8 + g) ||| b * 2 ^ 0
      = 2 ^ 8 * ((a * 2 ^ 8 + r) * 2 ^ 8 + g) + b := by
    have := @Nat.mul_add_lt_is_or 8 (b * 2 ^ 0) (by omega) ((a * 2 ^ 8 + r) * 2 ^ 8 + g)
    rw [← this]
    ring
  rw [e1, e2, e3]
  ring

/-- The value of the macro as a sum of the four low bytes. -/
theorem make_eq_sum (a r g b : Int) :
    ltdcMakeARGB8888 a r g b
      = (a % 256).toNat * 2 ^ 24 + (r % 256).toNat * 2 ^ 16 + (g % 256).toNat * 2 ^ 8
          + (b % 256).toNat := by
  have ha : 0 ≤ a % 256 ∧ a % 256 < 256 :=
    ⟨Int.emod_nonneg _ (by norm_num), Int.emod_lt_of_pos _ (by norm_num)⟩
  have hr : 0 ≤ r % 256 ∧ r % 256 < 256 :=
    ⟨Int.emod_nonneg _ (by norm_num), Int.emod_lt_of_pos _ (by norm_num)⟩
  have hg : 0 ≤ g % 256 ∧ g % 256 < 256 :=
    ⟨Int.emod_nonneg _ (by norm_num), Int.emod_lt_of_pos _ (by norm_num)⟩
  have hb : 0 ≤ b % 256 ∧ b % 256 < 256 :=
    ⟨Int.emod_nonneg _ (by norm_num), Int.emod_lt_of_pos _ (by norm_num)⟩
  unfold ltdcMakeARGB8888
  simp only [toColor_and_byte]
  rw [or_bytes _ _ _ _ (by omega) (by omega) (by omega) (by omega)]

/-- C39. For all component values `a`, `r`, `g`, `b` the macro `ltdcMakeARGB8888` gives
`(a mod 256)*2^24 + (r mod 256)*2^16 + (g mod 256)*2^8 + (b mod 256)`, a 32-bit value: each
component contributes its low byte only, and the result shifted right by 24, 16, 8 and 0
bits and masked with `0xFF` gives the four low bytes back, which for byte components are the
components themselves. -/
theorem C39_makeARGB8888 (a r g b : Int) :
    (ltdcMakeARGB8888 a r g b : Int) = argb8888Sum a r g b ∧
    ltdcMakeARGB8888 a r g b < 2 ^ 32 ∧
    ltdcMakeARGB8888 a r g b = ltdcMakeARGB8888 (a % 256) (r % 256) (g % 256) (b % 256) ∧
    (((ltdcMakeARGB8888 a r g b >>> 24) &&& 0xFF : Nat) : Int) = a % 256 ∧
    (((ltdcMakeARGB8888 a r g b >>> 16) &&& 0xFF : Nat) : Int) = r % 256 ∧
    (((ltdcMakeARGB8888 a r g b >>> 8) &&& 0xFF : Nat) : Int) = g % 256 ∧
    (((ltdcMakeARGB8888 a r g b >>> 0) &&& 0xFF : Nat) : Int) = b % 256 ∧
    (0 ≤ a ∧ a < 256 → 0 ≤ r ∧ r < 256 → 0 ≤ g ∧ g < 256 → 0 ≤ b ∧ b < 256 →
      (((ltdcMakeARGB8888 a r g b >>> 24) &&& 0xFF : Nat) : Int) = a ∧
      (((ltdcMakeARGB8888 a r g b >>> 16) &&& 0xFF : Nat) : Int) = r ∧
      (((ltdcMakeARGB8888 a r g b >>> 8) &&& 0xFF : Nat) : Int) = g ∧
      (((ltdcMakeARGB8888 a r g b >>> 0) &&& 0xFF : Nat) : Int) = b) := by
  have ha : 0 ≤ a % 256 ∧ a % 256 < 256 :=
    ⟨Int.emod_nonneg _ (by norm_num), Int.emod_lt_of_pos _ (by norm_num)⟩
  have hr : 0 ≤ r % 256 ∧ r % 256 < 256 :=
    ⟨Int.emod_nonneg _ (by norm_num), Int.emod_lt_of_pos _ (by norm_num)⟩
  have hg : 0 ≤ g % 256 ∧ g % 256 < 256 :=
    ⟨Int.emod_nonneg _ (by norm_num), Int.emod_lt_of_pos _ (by norm_num)⟩
  have hb : 0 ≤ b % 256 ∧ b % 256 < 256 :=
    ⟨Int.emod_nonneg _ (by norm_num), Int.emod_lt_of_pos _ (by norm_num)⟩
  have hm : (0xFF : Nat) = 2 ^ 8 - 1 := by norm_num
  have hs := make_eq_sum a r g b
  have hs2 := make_eq_sum (a % 256) (r % 256) (g % 256) (b % 256)
  simp only [Int.emod_emod_of_dvd, Int.emod_emod] at hs2
  generalize ltdcMakeARGB8888 a r g b = v at hs ⊢
  have hA := Int.toNat_of_nonneg ha.1
  have hR := Int.toNat_of_nonneg hr.1
  have hG := Int.toNat_of_nonneg hg.1
  have hB := Int.toNat_of_nonneg hb.1
  generalize (a % 256).toNat = A at hs hs2 hA
  generalize (r % 256).toNat = R at hs hs2 hR
  generalize (g % 256).toNat = G at hs hs2 hG
  generalize (b % 256).toNat = B at hs hs2 hB
  have rec24 : (((v >>> 24) &&& 0xFF : Nat) : Int) = a % 256 := by
    rw [hm, Nat.and_pow_two_sub_one_eq_mod, Nat.shiftRight_eq_div_pow, ← hA]
    norm_cast
    omega
  have rec16 : (((v >>> 16) &&& 0xFF : Nat) : Int) = r % 256 := by
    rw [hm, Nat.and_pow_two_sub_one_eq_mod, Nat.shiftRight_eq_div_pow, ← hR]
    norm_cast
    omega
  have rec8 : (((v >>> 8) &&& 0xFF : Nat) : Int) = g % 256 := by
    rw [hm, Nat.and_pow_two_sub_one_eq_mod, Nat.shiftRight_eq_div_pow, ← hG]
    norm_cast
    omega
  have rec0 : (((v >>> 0) &&& 0xFF : Nat) : Int) = b % 256 := by
    rw [hm, Nat.and_pow_two_sub_one_eq_mod, Nat.shiftRight_eq_div_pow, ← hB]
    norm_cast
    omega
  refine ⟨?_, ?_, ?_, rec24, rec16, rec8, rec0, ?_⟩
  · unfold argb8888Sum
    rw [hs, ← hA, ← hR, ← hG, ← hB]
    push_cast
    rfl
  · omega
  · rw [hs, hs2]
  · intro h1 h2 h3 h4
    rw [rec24, rec16, rec8, rec0]
    refine ⟨?_, ?_, ?_, ?_⟩ <;> omega

/-- Witness of C39: the byte components `(255, 18, 52, 86)` make `0xFF123456` and are
recovered from it. -/
theorem C39_makeARGB8888_witness :
    ltdcMakeARGB8888 255 18 52 86 = 0xFF123456 ∧
    (((ltdcMakeARGB8888 255 18 52 86 >>> 24) &&& 0xFF : Nat) : Int) = 255 ∧
    (((ltdcMakeARGB8888 255 18 52 86 >>> 16) &&& 0xFF : Nat) : Int) = 18 ∧
    (((ltdcMakeARGB8888 255 18 52 86 >>> 8) &&& 0xFF : Nat) : Int) = 52 ∧
    (((ltdcMakeARGB8888 255 18 52 86 >>> 0) &&& 0xFF : Nat) : Int) = 86 :=
  ⟨by decide, (C39_makeARGB8888 255 18 52 86).2.2.2.2.2.2.2 (by decide) (by decide) (by decide)
    (by decide)⟩

/-- C40. The flag type `ltdc_flags_t` is `uint8_t`, and of the LTDC enable flags only
`LTDC_EF_ENABLE` fits it: `LTDC_EF_DITHER` (bit 16), `LTDC_EF_PIXCLK_INVERT` (bit 28),
`LTDC_EF_DATAEN_HIGH` (bit 29), `LTDC_EF_VSYNC_HIGH` (bit 30) and `LTDC_EF_HSYNC_HIGH`
(bit 31) all convert to 0, and their union `LTDC_EF_MASK` converts to 1. The layer enable
flags and `LTDC_LEF_MASK` are below 256 and are kept by the conversion. -/
theorem C40_enable_flags_truncated :
    toFlags LTDC_EF_ENABLE = LTDC_EF_ENABLE ∧
    (LTDC_EF_DITHER = 65536 ∧ toFlags LTDC_EF_DITHER = 0) ∧
    (LTDC_EF_PIXCLK_INVERT = 268435456 ∧ toFlags LTDC_EF_PIXCLK_INVERT = 0) ∧
    (LTDC_EF_DATAEN_HIGH = 536870912 ∧ toFlags LTDC_EF_DATAEN_HIGH = 0) ∧
    (LTDC_EF_VSYNC_HIGH = 1073741824 ∧ toFlags LTDC_EF_VSYNC_HIGH = 0) ∧
    (LTDC_EF_HSYNC_HIGH = 2147483648 ∧ toFlags LTDC_EF_HSYNC_HIGH = 0) ∧
    (LTDC_EF_MASK = 0xF0010001 ∧ toFlags LTDC_EF_MASK = 1) ∧
    toFlags LTDC_EF_DITHER ≠ LTDC_EF_DITHER ∧ toFlags LTDC_EF_MASK ≠ LTDC_EF_MASK ∧
    toFlags LTDC_LEF_ENABLE = LTDC_LEF_ENABLE ∧ toFlags LTDC_LEF_KEYING = LTDC_LEF_KEYING ∧
    toFlags LTDC_LEF_PALETTE = LTDC_LEF_PALETTE ∧ toFlags LTDC_LEF_MASK = LTDC_LEF_MASK := by
  decide

end LTDC
